import Mathlib

/-!
# Quick Tabs: container registry, title resolver and reconciliation pass

A shallow embedding of `Quick_Tabs.uc.js`.  JavaScript strings are modelled as
lists of characters (one `Char` per code unit), the `Map` `quickTabContainers`
as the list of its values in insertion order, and the mutable module state as
an explicit `State` threaded through every operation.  Everything the script
reads from the embedding browser (the `URL` constructor, the accessors of the
embedded `browser` element, whether an element could be created) is an input
of the corresponding definition.  Pixel layout, pointer dragging and resizing,
the context menu and the command plumbing are not modelled.
-/

namespace QuickTabs

/-! ## Strings -/

/-- A JavaScript string, as the list of its code units. -/
abbrev Str := List Char

/-- `s.startsWith(p)`. -/
def startsWith (s p : Str) : Bool := p.isPrefixOf s

/-- `s.split(sep)` for a one-character separator: never empty, `"".split(sep)` is `[""]`. -/
def split (sep : Char) : Str → List Str
  | [] => [[]]
  | c :: cs =>
    if c = sep then [] :: split sep cs
    else
      match split sep cs with
      | [] => [[c]]
      | seg :: rest => (c :: seg) :: rest

/-- White space and line terminators, the characters `String.prototype.trim` strips. -/
def isTrimmed (c : Char) : Bool :=
  let n := c.toNat
  n = 9 || n = 10 || n = 11 || n = 12 || n = 13 || n = 32 || n = 160 || n = 5760 ||
  (8192 ≤ n && n ≤ 8202) || n = 8232 || n = 8233 || n = 8239 || n = 8287 ||
  n = 12288 || n = 65279

/-- `s.trim()`. -/
def trim (s : Str) : Str :=
  ((s.dropWhile isTrimmed).reverse.dropWhile isTrimmed).reverse

/-- `hostname.replace(/^www\./, '')`. -/
def stripWww (hostname : Str) : Str :=
  if startsWith hostname "www.".toList then hostname.drop 4 else hostname

/-- `truncateText(text, maxLength)`: `substring(0, maxLength - 3)` clamps a negative end to 0,
which is what truncated subtraction gives. -/
def truncateText (text : Str) (maxLength : Nat) : Str :=
  if text = [] ∨ text.length ≤ maxLength then text
  else text.take (maxLength - 3) ++ "...".toList

/-! ## The host's `URL` constructor -/

/-- The two components of a parsed `URL` object that the script reads. -/
structure ParsedURL where
  hostname : Str
  pathname : Str
deriving DecidableEq, Repr

/-- The host's `new URL(url)`: `none` when the constructor throws. -/
abbrev URLParser := Str → Option ParsedURL

/-- A finite table of addresses with the components the URL Standard assigns to them;
every other input is rejected.  Used to evaluate the script on concrete addresses. -/
def tableURL : URLParser := fun url =>
  if url = "https://www.example.com/x".toList then
    some ⟨"www.example.com".toList, "/x".toList⟩
  else if url = "https://localhost/foo".toList then
    some ⟨"localhost".toList, "/foo".toList⟩
  else if url = "https://www.localhost/foo".toList then
    some ⟨"www.localhost".toList, "/foo".toList⟩
  else if url = "https://example.com/x".toList then
    some ⟨"example.com".toList, "/x".toList⟩
  else if url = "http://127.0.0.1/".toList then
    some ⟨"127.0.0.1".toList, "/".toList⟩
  else if url = "https://sub.example.org/page".toList then
    some ⟨"sub.example.org".toList, "/page".toList⟩
  else if url = "about:blank".toList then
    some ⟨[], "blank".toList⟩
  else none

/-! ## Title and favicon resolver -/

/-- The fallback icon `getFaviconUrl` returns when the address does not parse. -/
def fallbackIcon : Str :=
  ("data:image/svg+xml,<svg xmlns=\"http://www.w3.org/2000/svg\" width=\"16\" height=\"16\" " ++
   "viewBox=\"0 0 16 16\"><rect width=\"16\" height=\"16\" fill=\"%23666\"/><text x=\"8\" " ++
   "y=\"12\" text-anchor=\"middle\" fill=\"white\" font-size=\"10\">T</text></svg>").toList

/-- `getFaviconUrl(url)`. -/
def getFaviconUrl (URL : URLParser) (url : Str) : Str :=
  match URL url with
  | some parsedUrl =>
    "https://s2.googleusercontent.com/s2/favicons?domain_url=https://".toList
      ++ parsedUrl.hostname ++ "&sz=16".toList
  | none => fallbackIcon

/-- `getTabTitle(url)`. -/
def getTabTitle (URL : URLParser) (url : Str) : Str :=
  match URL url with
  | some parsedUrl =>
    let hostname := stripWww parsedUrl.hostname
    if hostname ≠ [] ∧ hostname ≠ "localhost".toList ∧ hostname ≠ "127.0.0.1".toList then
      hostname
    else
      match (split '/' parsedUrl.pathname)[1]? with
      | some pathSegment => if pathSegment ≠ [] then pathSegment else "Quick Tab".toList
      | none => "Quick Tab".toList
  | none => "Quick Tab".toList

/-! ## What the embedding browser answers -/

/-- The outcome of reading a property of the embedded surface: the read throws, the property
is missing (`undefined`/`null` somewhere along the optional chain), or it has a value. -/
inductive Probe (α : Type) where
  | threw
  | absent
  | value (a : α)
deriving DecidableEq, Repr

/-- The outcome of `browser.webNavigation` and of reading its two capabilities. -/
inductive NavProbe where
  | absent
  | getterThrew
  | queryThrew
  | answered (canGoBack canGoForward : Bool)
deriving DecidableEq, Repr

/-- The outcome of `browser.contentDocument?.defaultView?.history` and of reading `length`. -/
inductive HistoryProbe where
  | absent
  | getterThrew
  | lengthThrew
  | answered (length : Nat)
deriving DecidableEq, Repr

/-- What the embedded `browser` element answers during one callback. -/
structure Surface where
  currentURISpec : Probe Str
  locationHref : Probe Str
  webNavigation : NavProbe
  history : HistoryProbe
  contentTitle : Probe Str
  documentTitle : Probe Str
deriving DecidableEq, Repr

/-- Which of the two strategies of `createBrowserElement` produced the element. -/
inductive BrowserElement where
  | xul
  | namespaced
deriving DecidableEq, Repr

/-- `createBrowserElement()`; the arguments say whether `document.createXULElement` and
`document.createElementNS` succeed. -/
def createBrowserElement (xulOk nsOk : Bool) : Option BrowserElement :=
  if xulOk then some .xul
  else if nsOk then some .namespaced
  else none

/-! ## Source tabs -/

/-- The browser a tab is linked to, as far as the script reads it:
`browser.currentURI?.spec`. -/
structure TabBrowser where
  currentURISpec : Probe Str
deriving DecidableEq, Repr

/-- A tab element, as far as the script reads it: `tab.isConnected`,
`tab.getAttribute('label')`, `tab.querySelector('.tab-label, .tab-text')?.textContent`, and
`tab.linkedBrowser || tab._linkedBrowser || gBrowser?.getBrowserForTab?.(tab)`.  The two
label reads are DOM reads of an element, which give a string or nothing and do not throw;
resolving the browser and reading its address go through the host and may throw. -/
structure Tab where
  isConnected : Bool
  labelAttribute : Option Str
  labelElementText : Option Str
  linkedBrowser : Probe TabBrowser
deriving DecidableEq, Repr

/-- `labelFromAttribute || labelFromElement || ''`. -/
def tabLabel (tab : Tab) : Str :=
  if tab.labelAttribute.getD [] ≠ [] then tab.labelAttribute.getD []
  else tab.labelElementText.getD []

/-- `getTabTitleFromElement(tab)`; `none` is a missing tab.  A read that throws is caught
and gives `Quick Tab`. -/
def getTabTitleFromElement (URL : URLParser) (tab : Option Tab) : Str :=
  match tab with
  | none => "Quick Tab".toList
  | some tab =>
    if tab.isConnected = false then "Quick Tab".toList
    else if tab.linkedBrowser = .threw then "Quick Tab".toList
    else
      let title := tabLabel tab
      if title ≠ [] ∧ title ≠ "New Tab".toList ∧ title ≠ "about:blank".toList ∧
          title ≠ "Loading...".toList ∧ startsWith title "http:".toList = false ∧
          startsWith title "https:".toList = false then
        trim title
      else
        match tab.linkedBrowser with
        | .value browser =>
          match browser.currentURISpec with
          | .value spec =>
            if spec ≠ [] ∧ startsWith spec "about:".toList = false then getTabTitle URL spec
            else "Quick Tab".toList
          | _ => "Quick Tab".toList
        | _ => "Quick Tab".toList

/-- The object `getTabData` returns. -/
structure TabData where
  url : Str
  title : Str
deriving DecidableEq, Repr

/-- `getTabData(tab)`; `none` is a missing tab.  A read that throws is caught and gives an
empty url with the title `Quick Tab`. -/
def getTabData (URL : URLParser) (tab : Option Tab) : TabData :=
  match tab with
  | none => { url := [], title := "Quick Tab".toList }
  | some tab =>
    if tab.isConnected = false then { url := [], title := "Quick Tab".toList }
    else
      let title := getTabTitleFromElement URL (some tab)
      let titleOrDefault := if title ≠ [] then title else "Quick Tab".toList
      match tab.linkedBrowser with
      | .threw => { url := [], title := "Quick Tab".toList }
      | .absent => { url := [], title := titleOrDefault }
      | .value browser =>
        match browser.currentURISpec with
        | .threw => { url := [], title := "Quick Tab".toList }
        | .absent => { url := [], title := titleOrDefault }
        | .value spec =>
          { url := if spec ≠ [] ∧ startsWith spec "about:".toList = false then spec else []
            title := titleOrDefault }

/-! ## Data model -/

/-- The `containerInfo` object together with the presentation elements it owns. -/
structure ContainerInfo where
  id : Nat
  browser : BrowserElement
  url : Str
  title : Str
  minimized : Bool
  /-- The value of `favicon.src`. -/
  faviconSrc : Str
  /-- The value of `titleElement.textContent`. -/
  titleText : Str
  /-- The value of `titleElement.title`, the hover text. -/
  titleHover : Str
  /-- The value of `backButton.disabled`. -/
  backDisabled : Bool
  /-- The value of `forwardButton.disabled`. -/
  forwardDisabled : Bool
  /-- Whether `element` is attached to the document. -/
  inDocument : Bool
  /-- The value of `element.style.zIndex`, when set. -/
  zIndex : Option Nat
  /-- Whether `element.classList` has `minimized`. -/
  classMinimized : Bool
  /-- Whether `element.classList` has `visible`. -/
  classVisible : Bool
  /-- Whether the close transition styles (`opacity 0`, `scale(0.8)`) are set. -/
  fading : Bool
deriving DecidableEq, Repr

/-- The value of `taskbar.style.display`. -/
inductive Display where
  | unset
  | displayNone
  | displayBlock
deriving DecidableEq, Repr

/-- One row of the taskbar, as `updateTaskbar` builds it. -/
structure TaskbarItem where
  /-- The container the row's listeners act on. -/
  containerId : Nat
  classMinimized : Bool
  faviconSrc : Str
  titleText : Str
  titleHover : Str
deriving DecidableEq, Repr

/-- The `#quicktabs-taskbar` element. -/
structure Taskbar where
  /-- The class is `expanded` when true and `collapsed` when false. -/
  classExpanded : Bool
  display : Display
  items : List TaskbarItem
deriving DecidableEq, Repr

/-- The module state.  `detached` holds the `containerInfo` objects that were deleted from
the map and are still referenced by pending callbacks; `pendingCloses` are the scheduled
close-transition callbacks; `limitNotifications` and `taskbarRefreshes` count the limit
notifications shown and the calls of `updateTaskbar`. -/
structure State where
  quickTabContainers : List ContainerInfo
  detached : List ContainerInfo
  nextContainerId : Nat
  taskbarExpanded : Bool
  taskbar : Option Taskbar
  pendingCloses : List Nat
  limitNotifications : Nat
  taskbarRefreshes : Nat
deriving DecidableEq, Repr

/-- The configuration constants and the host's `URL` constructor. -/
structure Config where
  MAX_CONTAINERS : Nat
  URL : URLParser

/-- The state when the script has just been loaded. -/
def State.init : State where
  quickTabContainers := []
  detached := []
  nextContainerId := 1
  taskbarExpanded := false
  taskbar := none
  pendingCloses := []
  limitNotifications := 0
  taskbarRefreshes := 0

/-- The keys of the map, in insertion order. -/
def State.ids (s : State) : List Nat := s.quickTabContainers.map (·.id)

/-- `quickTabContainers.set(c.id, c)`. -/
def mapSet (m : List ContainerInfo) (c : ContainerInfo) : List ContainerInfo :=
  if m.any (fun x => x.id = c.id) then m.map (fun x => if x.id = c.id then c else x)
  else m ++ [c]

/-- `quickTabContainers.delete(id)`. -/
def mapDelete (m : List ContainerInfo) (id : Nat) : List ContainerInfo :=
  m.filter (fun x => x.id ≠ id)

/-- `quickTabContainers.get(id)`. -/
def State.get (s : State) (id : Nat) : Option ContainerInfo :=
  s.quickTabContainers.find? (fun x => x.id = id)

/-- The `containerInfo` object with the given id, registered or detached. -/
def State.findRecord (s : State) (id : Nat) : Option ContainerInfo :=
  (s.quickTabContainers ++ s.detached).find? (fun x => x.id = id)

/-- Mutate the `containerInfo` object with the given id in place. -/
def State.updateRecord (s : State) (id : Nat) (f : ContainerInfo → ContainerInfo) : State :=
  { s with
    quickTabContainers := s.quickTabContainers.map (fun x => if x.id = id then f x else x)
    detached := s.detached.map (fun x => if x.id = id then f x else x) }

/-! ## Taskbar -/

/-- `createTaskbar()`: the existing element, or a new collapsed one. -/
def createTaskbar (s : State) : Taskbar :=
  match s.taskbar with
  | some taskbar => taskbar
  | none => { classExpanded := false, display := .unset, items := [] }

/-- The row `updateTaskbar` builds for one container. -/
def taskbarItem (containerInfo : ContainerInfo) : TaskbarItem where
  containerId := containerInfo.id
  classMinimized := containerInfo.minimized
  faviconSrc := containerInfo.faviconSrc
  titleText := truncateText containerInfo.title 25
  titleHover := containerInfo.title

/-- `updateTaskbar()`. -/
def updateTaskbar (s : State) : State :=
  let taskbar := createTaskbar s
  if s.quickTabContainers.length = 0 then
    { s with
      taskbar := some { taskbar with items := [], display := .displayNone }
      taskbarRefreshes := s.taskbarRefreshes + 1 }
  else
    { s with
      taskbar := some { taskbar with
        display := .displayBlock
        items := s.quickTabContainers.map taskbarItem }
      taskbarRefreshes := s.taskbarRefreshes + 1 }

/-- `expandTaskbar()`. -/
def expandTaskbar (s : State) : State :=
  match s.taskbar with
  | some taskbar =>
    { s with taskbar := some { taskbar with classExpanded := true }, taskbarExpanded := true }
  | none => s

/-- `collapseTaskbar()`. -/
def collapseTaskbar (s : State) : State :=
  match s.taskbar with
  | some taskbar =>
    { s with taskbar := some { taskbar with classExpanded := false }, taskbarExpanded := false }
  | none => s

/-- `toggleTaskbar()`. -/
def toggleTaskbar (s : State) : State :=
  if s.taskbarExpanded then collapseTaskbar s else expandTaskbar s

/-! ## Container operations -/

/-- `bringToFront(containerInfo)`: every `.quicktab-container` element in the document goes to
layer 9998, then the target's element to 9999. -/
def bringToFront (id : Nat) (s : State) : State :=
  let lower := fun (x : ContainerInfo) => if x.inDocument then { x with zIndex := some 9998 } else x
  let s1 := { s with
    quickTabContainers := s.quickTabContainers.map lower
    detached := s.detached.map lower }
  s1.updateRecord id (fun x => { x with zIndex := some 9999 })

/-- `minimizeContainer(containerInfo)`. -/
def minimizeContainer (id : Nat) (s : State) : State :=
  updateTaskbar (s.updateRecord id (fun x => { x with classMinimized := true, minimized := true }))

/-- `restoreContainer(containerInfo)`. -/
def restoreContainer (id : Nat) (s : State) : State :=
  updateTaskbar (bringToFront id
    (s.updateRecord id (fun x => { x with classMinimized := false, minimized := false })))

/-- `closeContainer(containerInfo)`: sets the transition styles and schedules the callback. -/
def closeContainer (id : Nat) (s : State) : State :=
  let s1 := s.updateRecord id (fun x => { x with fading := true })
  { s1 with pendingCloses := s1.pendingCloses ++ [id] }

/-- The callback `closeContainer` schedules: `container.remove()`,
`quickTabContainers.delete(containerInfo.id)`, `updateTaskbar()`. -/
def closeTransitionDone (id : Nat) (s : State) : State :=
  let s1 := s.updateRecord id (fun x => { x with inDocument := false })
  updateTaskbar { s1 with
    quickTabContainers := mapDelete s1.quickTabContainers id
    detached := s1.detached ++ s1.quickTabContainers.filter (fun x => x.id = id) }

/-- `createQuickTabContainer(url, title)`; `xulOk` and `nsOk` say whether the two strategies of
`createBrowserElement` succeed.  The result is the returned `containerInfo` (`none` for
`null`) and the state after the call. -/
def createQuickTabContainer (cfg : Config) (url title : Str) (xulOk nsOk : Bool) (s : State) :
    Option ContainerInfo × State :=
  if s.quickTabContainers.length ≥ cfg.MAX_CONTAINERS then
    (none, { s with limitNotifications := s.limitNotifications + 1 })
  else
    let containerId := s.nextContainerId
    let s1 := { s with nextContainerId := s.nextContainerId + 1 }
    let displayTitle := if title ≠ [] then title else getTabTitle cfg.URL url
    match createBrowserElement xulOk nsOk with
    | none => (none, s1)
    | some browser =>
      let initialTitle := if title ≠ [] then title else getTabTitle cfg.URL url
      let containerInfo : ContainerInfo :=
        { id := containerId
          browser := browser
          url := url
          title := initialTitle
          minimized := false
          faviconSrc := getFaviconUrl cfg.URL url
          titleText := truncateText displayTitle 30
          titleHover := displayTitle
          backDisabled := false
          forwardDisabled := false
          inDocument := true
          zIndex := none
          classMinimized := false
          classVisible := true
          fading := false }
      (some containerInfo,
        updateTaskbar { s1 with quickTabContainers := mapSet s1.quickTabContainers containerInfo })

/-! ## Reconciliation pass -/

/-- The `currentUrl` a pass reads: `browser.currentURI?.spec` when truthy, else
`browser.contentDocument?.location?.href` when truthy, else `null`; a throwing accessor
leaves it `null`. -/
def readCurrentUrl (b : Surface) : Option Str :=
  let fromHref : Option Str :=
    match b.locationHref with
    | .value href => if href ≠ [] then some href else none
    | _ => none
  match b.currentURISpec with
  | .threw => none
  | .value spec => if spec ≠ [] then some spec else fromHref
  | .absent => fromHref

/-- The `(canGoBack, canGoForward)` a pass resolves; `none` when one of the two conditions
throws and the outer handler enables both buttons. -/
def resolveNavigation (b : Surface) : Option (Bool × Bool) :=
  match b.webNavigation with
  | .getterThrew => none
  | .queryThrew => some (true, true)
  | .answered canGoBack canGoForward => some (canGoBack, canGoForward)
  | .absent =>
    match b.history with
    | .getterThrew => none
    | .lengthThrew => some (true, true)
    | .answered length => some (decide (length > 1), false)
    | .absent => some (true, true)

/-- The `pageTitle` a pass reads: `browser.contentTitle` when truthy, else
`browser.contentDocument?.title` when truthy, else `null` (`absent`); `threw` when one of
the reads throws. -/
def readPageTitle (b : Surface) : Probe Str :=
  let fromDocument : Probe Str :=
    match b.documentTitle with
    | .threw => .threw
    | .value t => if t ≠ [] then .value t else .absent
    | .absent => .absent
  match b.contentTitle with
  | .threw => .threw
  | .value t => if t ≠ [] then .value t else fromDocument
  | .absent => fromDocument

/-- The test `updateContainerTitle` applies to a page title before accepting it. -/
def acceptsPageTitle (pageTitle : Str) : Bool :=
  pageTitle ≠ [] && trim pageTitle ≠ [] && pageTitle ≠ "Loading...".toList &&
    pageTitle ≠ "New Tab".toList && !startsWith pageTitle "http".toList

/-- The `else` branch of the title step: the URL-derived title of `currentUrl || containerInfo.url`
replaces the stored title, and the taskbar is refreshed, only if it differs from it. -/
def applyFallbackTitle (URL : URLParser) (currentUrl : Option Str) (containerInfo : ContainerInfo) :
    ContainerInfo × Bool :=
  let fallbackTitle := getTabTitle URL (currentUrl.getD containerInfo.url)
  if fallbackTitle ≠ containerInfo.title then
    ({ containerInfo with
        titleText := truncateText fallbackTitle 30
        titleHover := fallbackTitle
        title := fallbackTitle },
      true)
  else (containerInfo, false)

/-- The address step of a pass: a present, changed, non-internal `currentUrl` replaces the
stored url and the favicon follows it. -/
def reconcileAddress (URL : URLParser) (currentUrl : Option Str) (containerInfo : ContainerInfo) :
    ContainerInfo :=
  match currentUrl with
  | some u =>
    if u ≠ containerInfo.url ∧ startsWith u "about:".toList = false then
      { containerInfo with url := u, faviconSrc := getFaviconUrl URL u }
    else containerInfo
  | none => containerInfo

/-- The navigation step of a pass: each button is disabled exactly when its capability was
resolved to false; both are enabled when the outer handler catches. -/
def reconcileNavigation (b : Surface) (containerInfo : ContainerInfo) : ContainerInfo :=
  match resolveNavigation b with
  | some (canGoBack, canGoForward) =>
    { containerInfo with backDisabled := !canGoBack, forwardDisabled := !canGoForward }
  | none => { containerInfo with backDisabled := false, forwardDisabled := false }

/-- The title step of a pass; the second component says whether it calls `updateTaskbar`.  A
throwing title accessor ends the pass in the outermost handler. -/
def reconcileTitle (URL : URLParser) (b : Surface) (currentUrl : Option Str)
    (containerInfo : ContainerInfo) : ContainerInfo × Bool :=
  match readPageTitle b with
  | .threw => (containerInfo, false)
  | .value pageTitle =>
    if acceptsPageTitle pageTitle then
      ({ containerInfo with
          titleText := truncateText pageTitle 30, titleHover := pageTitle, title := pageTitle },
        true)
    else applyFallbackTitle URL currentUrl containerInfo
  | .absent => applyFallbackTitle URL currentUrl containerInfo

/-- The effect of one run of the closure `updateContainerTitle` on its `containerInfo`; the
second component says whether the run calls `updateTaskbar`. -/
def updateContainerTitleOn (URL : URLParser) (b : Surface) (containerInfo : ContainerInfo) :
    ContainerInfo × Bool :=
  let currentUrl := readCurrentUrl b
  reconcileTitle URL b currentUrl
    (reconcileNavigation b (reconcileAddress URL currentUrl containerInfo))

/-- One run of the closure `updateContainerTitle` of the container with the given id. -/
def updateContainerTitle (cfg : Config) (id : Nat) (b : Surface) (s : State) : State :=
  match s.findRecord id with
  | none => s
  | some containerInfo =>
    let s1 := s.updateRecord id (fun x => (updateContainerTitleOn cfg.URL b x).1)
    if (updateContainerTitleOn cfg.URL b containerInfo).2 then updateTaskbar s1 else s1

/-- The `(canGoBack, canGoForward)` of the one-shot initial button state callback. -/
def initialNavigation (b : Surface) : Option (Bool × Bool) :=
  match b.webNavigation with
  | .getterThrew => none
  | .queryThrew => some (false, false)
  | .answered canGoBack canGoForward => some (canGoBack, canGoForward)
  | .absent =>
    match b.history with
    | .getterThrew => none
    | .lengthThrew => some (false, false)
    | .answered length => some (decide (length > 1), false)
    | .absent => some (false, false)

/-- The one-shot callback that sets the initial button state one second after creation. -/
def initialButtonState (id : Nat) (b : Surface) (s : State) : State :=
  match initialNavigation b with
  | some (canGoBack, canGoForward) =>
    s.updateRecord id (fun x =>
      { x with backDisabled := !canGoBack, forwardDisabled := !canGoForward })
  | none => s.updateRecord id (fun x => { x with backDisabled := true, forwardDisabled := true })

/-! ## Public API -/

/-- One entry of `getContainerInfo().containers`. -/
structure ContainerSummary where
  id : Nat
  url : Str
  title : Str
  minimized : Bool
deriving DecidableEq, Repr

/-- The object `getContainerInfo()` returns. -/
structure ContainerReport where
  count : Nat
  maxContainers : Nat
  containers : List ContainerSummary
deriving DecidableEq, Repr

/-- `QuickTabs.getContainerInfo()`. -/
def getContainerInfo (cfg : Config) (s : State) : ContainerReport where
  count := s.quickTabContainers.length
  maxContainers := cfg.MAX_CONTAINERS
  containers := s.quickTabContainers.map
    (fun info => { id := info.id, url := info.url, title := info.title,
                   minimized := info.minimized })

/-- What a facade call returns: a container, `null`, or `false`. -/
inductive ApiResult where
  | container (containerInfo : ContainerInfo)
  | null
  | falseValue
deriving DecidableEq, Repr

/-- The result of `createQuickTabContainer` as a facade call returns it. -/
def ApiResult.ofCreated : Option ContainerInfo → ApiResult
  | some containerInfo => .container containerInfo
  | none => .null

/-- `QuickTabs.openQuickTab(url, title)`; an omitted title is the empty string. -/
def openQuickTab (cfg : Config) (url title : Str) (xulOk nsOk : Bool) (s : State) :
    ApiResult × State :=
  if url = [] then (.falseValue, s)
  else
    let r := createQuickTabContainer cfg url title xulOk nsOk s
    (ApiResult.ofCreated r.1, r.2)

/-- `QuickTabs.openQuickTabFromCurrent()`; `selectedTab` is what reading
`gBrowser.selectedTab` gives.  A throwing read is caught and gives `false`. -/
def openQuickTabFromCurrent (cfg : Config) (selectedTab : Probe Tab) (xulOk nsOk : Bool)
    (s : State) : ApiResult × State :=
  match selectedTab with
  | .threw => (.falseValue, s)
  | .absent => (.falseValue, s)
  | .value currentTab =>
    let currentTabData := getTabData cfg.URL (some currentTab)
    if currentTabData.url = [] ∨ currentTabData.url = "about:blank".toList then
      (.falseValue, s)
    else
      let r := createQuickTabContainer cfg currentTabData.url currentTabData.title xulOk nsOk s
      (ApiResult.ofCreated r.1, r.2)

/-! ## Sessions -/

/-- What can happen in a session: a call of `createQuickTabContainer`, a user action on a
container, a scheduled callback coming due, or a taskbar action. -/
inductive Event where
  | create (url title : Str) (xulOk nsOk : Bool)
  | minimize (id : Nat)
  | restore (id : Nat)
  | close (id : Nat)
  | closeDone (id : Nat)
  | front (id : Nat)
  | reconcile (id : Nat) (b : Surface)
  | initialButtons (id : Nat) (b : Surface)
  | expand
  | collapse
  | toggle
deriving DecidableEq, Repr

/-- The state after one event.  An action on a container needs its `containerInfo` object to
exist, and a close-transition callback runs only if `closeContainer` scheduled it; otherwise
the event cannot happen and the state stays as it is. -/
def step (cfg : Config) (s : State) : Event → State
  | .create url title xulOk nsOk => (createQuickTabContainer cfg url title xulOk nsOk s).2
  | .minimize id => if (s.findRecord id).isSome then minimizeContainer id s else s
  | .restore id => if (s.findRecord id).isSome then restoreContainer id s else s
  | .close id => if (s.findRecord id).isSome then closeContainer id s else s
  | .closeDone id =>
    if id ∈ s.pendingCloses then
      closeTransitionDone id { s with pendingCloses := s.pendingCloses.erase id }
    else s
  | .front id => if (s.findRecord id).isSome then bringToFront id s else s
  | .reconcile id b => updateContainerTitle cfg id b s
  | .initialButtons id b => if (s.findRecord id).isSome then initialButtonState id b s else s
  | .expand => expandTaskbar s
  | .collapse => collapseTaskbar s
  | .toggle => toggleTaskbar s

/-- The state after a sequence of events. -/
def run (cfg : Config) (s : State) (events : List Event) : State :=
  events.foldl (step cfg) s

/-! ## Specification-side notions -/

/-- The first path segment of a pathname, in the spec's words: the characters after the
first slash, up to the next slash or the end. -/
def firstPathSegment (pathname : Str) : Str :=
  ((pathname.dropWhile (fun c => c ≠ '/')).drop 1).takeWhile (fun c => c ≠ '/')

/-- The known placeholders of a label, in the spec's words: "New Tab", "about:blank",
"Loading...", or a bare URL string (one that starts with `http:` or `https:`). -/
def isKnownPlaceholder (title : Str) : Bool :=
  title = "New Tab".toList || title = "about:blank".toList || title = "Loading...".toList ||
    startsWith title "http:".toList || startsWith title "https:".toList

/-- What `bringToFront` of the container `id` does to one record: layer 9999 for the target,
layer 9998 for every other record whose element is in the document. -/
def frontLayer (id : Nat) (x : ContainerInfo) : ContainerInfo :=
  if x.id = id then { x with zIndex := some 9999 }
  else if x.inDocument then { x with zIndex := some 9998 }
  else x

/-- The well-formedness of a state: registered ids are positive, below the next id and
pairwise distinct, and every registered container's element is in the document. -/
structure Inv (s : State) : Prop where
  nextPos : 1 ≤ s.nextContainerId
  pos : ∀ c ∈ s.quickTabContainers, 1 ≤ c.id
  lt : ∀ c ∈ s.quickTabContainers, c.id < s.nextContainerId
  nodup : s.ids.Nodup
  attached : ∀ c ∈ s.quickTabContainers, c.inDocument = true

/-- A configuration for evaluating sessions: at most two containers, addresses parsed by
`tableURL`. -/
def sampleConfig : Config where
  MAX_CONTAINERS := 2
  URL := tableURL

/-- A surface that reports nothing: no address, no navigation accessor, no title. -/
def silentSurface : Surface where
  currentURISpec := .absent
  locationHref := .absent
  webNavigation := .absent
  history := .absent
  contentTitle := .absent
  documentTitle := .absent

/-- The state of `sampleConfig` (limit 2) after two successful creations. -/
def fullState : State :=
  run sampleConfig State.init
    [.create "https://www.example.com/x".toList [] true true,
     .create "https://localhost/foo".toList "Local".toList false true]

/-- A surface that reports only a page title. -/
def titleOnlySurface (pageTitle : Str) : Surface :=
  { silentSurface with contentTitle := .value pageTitle }

/-- The state of `sampleConfig` after creating one container from
`https://sub.example.org/page` with no title. -/
def oneContainerState : State :=
  run sampleConfig State.init [.create "https://sub.example.org/page".toList [] true true]

/-- The rows currently in the taskbar (none while the taskbar element does not exist). -/
def State.taskbarItems (s : State) : List TaskbarItem :=
  match s.taskbar with
  | some taskbar => taskbar.items
  | none => []

/-- The value of `taskbar.style.display`, when the taskbar element exists. -/
def State.taskbarDisplay (s : State) : Option Display :=
  s.taskbar.map (fun taskbar => taskbar.display)

/-- A surface that reports an address through `currentURI.spec`, a page title through
`contentTitle`, and a navigation accessor with no history in either direction. -/
def pageSurface (address pageTitle : Str) : Surface where
  currentURISpec := .value address
  locationHref := .absent
  webNavigation := .answered false false
  history := .absent
  contentTitle := .value pageTitle
  documentTitle := .absent

/-- A surface that reports an address through `currentURI.spec` and nothing else. -/
def addressSurface (address : Str) : Surface :=
  { silentSurface with currentURISpec := .value address }

/-- The header label of a container record is in order: the hover text is the stored title
and the shown text is that title cut to 30. -/
def LabelOk (c : ContainerInfo) : Prop :=
  c.titleHover = c.title ∧ c.titleText = truncateText c.title 30

/-- The header and taskbar labels of a state: every registered container's header label is
in order, and every taskbar row shows its hover text cut to 25. -/
structure LabelInv (s : State) : Prop where
  header : ∀ c ∈ s.quickTabContainers, LabelOk c
  rows : ∀ item ∈ s.taskbarItems, item.titleText = truncateText item.titleHover 25

/-- The state of `sampleConfig` after a container is created from `https://example.com/x`
and one pass observes the address `https://www.example.com/x` while the page is still
loading. -/
def redirectedState : State :=
  run sampleConfig State.init
    [.create "https://example.com/x".toList [] true true,
     .reconcile 1 (pageSurface "https://www.example.com/x".toList "Loading...".toList)]

/-- A surface that still reports the address `https://sub.example.org/page` and the page
title `Real Page Title`. -/
def realTitleSurface : Surface :=
  pageSurface "https://sub.example.org/page".toList "Real Page Title".toList

/-- The state of `oneContainerState` after one pass that observes `realTitleSurface`. -/
def afterRealTitlePass : State :=
  updateContainerTitle sampleConfig 1 realTitleSurface oneContainerState

/-- The state of `sampleConfig` after one container is created, the taskbar is expanded and
the container is closed, just before its close-transition callback runs. -/
def expandedClosingState : State :=
  run sampleConfig State.init
    [.create "https://example.com/x".toList [] true true, .expand, .close 1]

/-- A connected tab with the given label attribute, no label element, and a linked browser
at the given address. -/
def labelledTab (label address : Str) : Tab where
  isConnected := true
  labelAttribute := some label
  labelElementText := none
  linkedBrowser := .value { currentURISpec := .value address }

/-- Every registered container has a non-empty stored title. -/
def TitlesNonEmpty (s : State) : Prop :=
  ∀ c ∈ s.quickTabContainers, c.title ≠ []

/-- The state of `sampleConfig` after a container is created from
`https://sub.example.org/page`, closed, and its close transition has completed. -/
def closedState : State :=
  run sampleConfig State.init
    [.create "https://sub.example.org/page".toList [] true true, .close 1, .closeDone 1]

/-- A surface whose `webNavigation` accessor exists but throws when queried, and whose
history has three entries. -/
def throwingNavigationSurface : Surface :=
  { silentSurface with webNavigation := .queryThrew, history := .answered 3 }

/-- The state of `sampleConfig` after a container is created from `https://localhost/foo`
with the explicit title `example.com`. -/
def explicitTitleState : State :=
  run sampleConfig State.init
    [.create "https://localhost/foo".toList "example.com".toList true true]

/-! ## Frame lemmas -/

@[simp] theorem updateTaskbar_quickTabContainers (s : State) :
    (updateTaskbar s).quickTabContainers = s.quickTabContainers := by
  unfold updateTaskbar; split <;> rfl

@[simp] theorem updateTaskbar_detached (s : State) :
    (updateTaskbar s).detached = s.detached := by
  unfold updateTaskbar; split <;> rfl

@[simp] theorem updateTaskbar_nextContainerId (s : State) :
    (updateTaskbar s).nextContainerId = s.nextContainerId := by
  unfold updateTaskbar; split <;> rfl

@[simp] theorem updateTaskbar_pendingCloses (s : State) :
    (updateTaskbar s).pendingCloses = s.pendingCloses := by
  unfold updateTaskbar; split <;> rfl

@[simp] theorem updateRecord_quickTabContainers (s : State) (id : Nat)
    (f : ContainerInfo → ContainerInfo) :
    (s.updateRecord id f).quickTabContainers =
      s.quickTabContainers.map (fun x => if x.id = id then f x else x) := rfl

@[simp] theorem updateRecord_nextContainerId (s : State) (id : Nat)
    (f : ContainerInfo → ContainerInfo) :
    (s.updateRecord id f).nextContainerId = s.nextContainerId := rfl

@[simp] theorem updateRecord_pendingCloses (s : State) (id : Nat)
    (f : ContainerInfo → ContainerInfo) :
    (s.updateRecord id f).pendingCloses = s.pendingCloses := rfl

theorem bringToFront_quickTabContainers (id : Nat) (s : State) :
    (bringToFront id s).quickTabContainers = s.quickTabContainers.map (frontLayer id) := by
  simp only [bringToFront, updateRecord_quickTabContainers, List.map_map]
  apply List.map_congr_left
  intro x _
  by_cases hd : x.inDocument = true <;> by_cases hx : x.id = id <;> simp [frontLayer, hd, hx]

theorem frontLayer_id (id : Nat) (x : ContainerInfo) : (frontLayer id x).id = x.id := by
  unfold frontLayer
  split
  · rfl
  · split <;> rfl

theorem frontLayer_inDocument (id : Nat) (x : ContainerInfo) :
    (frontLayer id x).inDocument = x.inDocument := by
  unfold frontLayer
  split
  · rfl
  · split <;> rfl

@[simp] theorem bringToFront_nextContainerId (id : Nat) (s : State) :
    (bringToFront id s).nextContainerId = s.nextContainerId := rfl

@[simp] theorem bringToFront_pendingCloses (id : Nat) (s : State) :
    (bringToFront id s).pendingCloses = s.pendingCloses := rfl

theorem filter_map_update (l : List ContainerInfo) (id : Nat) (f : ContainerInfo → ContainerInfo)
    (hf : ∀ x, (f x).id = x.id) :
    (l.map (fun x => if x.id = id then f x else x)).filter (fun x => x.id ≠ id) =
      l.filter (fun x => x.id ≠ id) := by
  induction l with
  | nil => rfl
  | cons a l ih =>
    by_cases ha : a.id = id
    · simp [ha, hf] at ih ⊢
      exact ih
    · simp [ha] at ih ⊢
      exact ih

theorem closeTransitionDone_quickTabContainers (id : Nat) (s : State) :
    (closeTransitionDone id s).quickTabContainers =
      s.quickTabContainers.filter (fun x => x.id ≠ id) := by
  simp only [closeTransitionDone, updateTaskbar_quickTabContainers, mapDelete,
    updateRecord_quickTabContainers]
  exact filter_map_update _ _ _ (fun _ => rfl)

@[simp] theorem closeTransitionDone_nextContainerId (id : Nat) (s : State) :
    (closeTransitionDone id s).nextContainerId = s.nextContainerId := by
  simp [closeTransitionDone]

@[simp] theorem closeTransitionDone_pendingCloses (id : Nat) (s : State) :
    (closeTransitionDone id s).pendingCloses = s.pendingCloses := by
  simp [closeTransitionDone]

theorem mapSet_length_le (m : List ContainerInfo) (c : ContainerInfo) :
    (mapSet m c).length ≤ m.length + 1 := by
  unfold mapSet; split <;> simp

theorem mapSet_fresh (m : List ContainerInfo) (c : ContainerInfo)
    (h : ∀ x ∈ m, x.id ≠ c.id) : mapSet m c = m ++ [c] := by
  unfold mapSet
  rw [if_neg]
  simpa using h

theorem reconcileAddress_frame (URL : URLParser) (u : Option Str) (c : ContainerInfo) :
    (reconcileAddress URL u c).id = c.id ∧
    (reconcileAddress URL u c).title = c.title ∧
    (reconcileAddress URL u c).minimized = c.minimized ∧
    (reconcileAddress URL u c).inDocument = c.inDocument ∧
    (reconcileAddress URL u c).zIndex = c.zIndex := by
  unfold reconcileAddress
  split
  · split <;> simp
  · simp

theorem reconcileNavigation_frame (b : Surface) (c : ContainerInfo) :
    (reconcileNavigation b c).id = c.id ∧
    (reconcileNavigation b c).url = c.url ∧
    (reconcileNavigation b c).title = c.title ∧
    (reconcileNavigation b c).minimized = c.minimized ∧
    (reconcileNavigation b c).inDocument = c.inDocument ∧
    (reconcileNavigation b c).zIndex = c.zIndex := by
  unfold reconcileNavigation
  split <;> simp

theorem applyFallbackTitle_frame (URL : URLParser) (u : Option Str) (c : ContainerInfo) :
    (applyFallbackTitle URL u c).1.id = c.id ∧
    (applyFallbackTitle URL u c).1.url = c.url ∧
    (applyFallbackTitle URL u c).1.minimized = c.minimized ∧
    (applyFallbackTitle URL u c).1.inDocument = c.inDocument ∧
    (applyFallbackTitle URL u c).1.zIndex = c.zIndex := by
  simp only [applyFallbackTitle]
  split <;> simp

theorem reconcileTitle_frame (URL : URLParser) (b : Surface) (u : Option Str)
    (c : ContainerInfo) :
    (reconcileTitle URL b u c).1.id = c.id ∧
    (reconcileTitle URL b u c).1.url = c.url ∧
    (reconcileTitle URL b u c).1.minimized = c.minimized ∧
    (reconcileTitle URL b u c).1.inDocument = c.inDocument ∧
    (reconcileTitle URL b u c).1.zIndex = c.zIndex := by
  unfold reconcileTitle
  split
  · simp
  · split
    · simp
    · exact applyFallbackTitle_frame URL u c
  · exact applyFallbackTitle_frame URL u c

theorem updateContainerTitleOn_fst_frame (URL : URLParser) (b : Surface) (c : ContainerInfo) :
    (updateContainerTitleOn URL b c).1.id = c.id ∧
    (updateContainerTitleOn URL b c).1.minimized = c.minimized ∧
    (updateContainerTitleOn URL b c).1.inDocument = c.inDocument ∧
    (updateContainerTitleOn URL b c).1.zIndex = c.zIndex := by
  unfold updateContainerTitleOn
  have h1 := reconcileAddress_frame URL (readCurrentUrl b) c
  have h2 := reconcileNavigation_frame b (reconcileAddress URL (readCurrentUrl b) c)
  have h3 := reconcileTitle_frame URL b (readCurrentUrl b)
    (reconcileNavigation b (reconcileAddress URL (readCurrentUrl b) c))
  simp only [h3.1, h3.2.2.1, h3.2.2.2.1, h3.2.2.2.2, h2.1, h2.2.2.2.1, h2.2.2.2.2.1,
    h2.2.2.2.2.2, h1.1, h1.2.2.1, h1.2.2.2.1, h1.2.2.2.2, and_self]

theorem updateContainerTitle_quickTabContainers (cfg : Config) (id : Nat) (b : Surface)
    (s : State) :
    (updateContainerTitle cfg id b s).quickTabContainers =
      s.quickTabContainers.map
        (fun x => if x.id = id then (updateContainerTitleOn cfg.URL b x).1 else x) := by
  unfold updateContainerTitle
  split
  · rename_i h
    symm
    rw [List.map_congr_left, List.map_id]
    intro x hx
    have hnone := List.find?_eq_none.mp h x (List.mem_append_left _ hx)
    simp at hnone
    simp [hnone]
  · split <;> simp

@[simp] theorem updateContainerTitle_nextContainerId (cfg : Config) (id : Nat) (b : Surface)
    (s : State) : (updateContainerTitle cfg id b s).nextContainerId = s.nextContainerId := by
  unfold updateContainerTitle
  split
  · rfl
  · split <;> simp

@[simp] theorem updateContainerTitle_pendingCloses (cfg : Config) (id : Nat) (b : Surface)
    (s : State) : (updateContainerTitle cfg id b s).pendingCloses = s.pendingCloses := by
  unfold updateContainerTitle
  split
  · rfl
  · split <;> simp

/-! ## Capacity -/

theorem createQuickTabContainer_length_le (cfg : Config) (url title : Str) (xulOk nsOk : Bool)
    (s : State) (h : s.quickTabContainers.length ≤ cfg.MAX_CONTAINERS) :
    (createQuickTabContainer cfg url title xulOk nsOk s).2.quickTabContainers.length
      ≤ cfg.MAX_CONTAINERS := by
  unfold createQuickTabContainer
  split
  · exact h
  · rename_i hlt
    simp only
    split
    · exact h
    · simp only [updateTaskbar_quickTabContainers]
      refine le_trans (mapSet_length_le _ _) ?_
      omega

theorem step_length_le (cfg : Config) (s : State) (e : Event)
    (h : s.quickTabContainers.length ≤ cfg.MAX_CONTAINERS) :
    (step cfg s e).quickTabContainers.length ≤ cfg.MAX_CONTAINERS := by
  cases e with
  | create url title xulOk nsOk => exact createQuickTabContainer_length_le cfg url title xulOk nsOk s h
  | minimize id =>
    simp only [step]; split
    · simpa [minimizeContainer] using h
    · exact h
  | restore id =>
    simp only [step]; split
    · simpa [restoreContainer, bringToFront_quickTabContainers] using h
    · exact h
  | close id =>
    simp only [step]; split
    · simpa [closeContainer] using h
    · exact h
  | closeDone id =>
    simp only [step]; split
    · rw [closeTransitionDone_quickTabContainers]
      exact le_trans (List.length_filter_le _ _) h
    · exact h
  | front id =>
    simp only [step]; split
    · simpa [bringToFront_quickTabContainers] using h
    · exact h
  | reconcile id b =>
    simp only [step]
    rw [updateContainerTitle_quickTabContainers]
    simpa using h
  | initialButtons id b =>
    simp only [step]; split
    · unfold initialButtonState
      split <;> simpa using h
    · exact h
  | expand =>
    simp only [step, expandTaskbar]; split <;> exact h
  | collapse =>
    simp only [step, collapseTaskbar]; split <;> exact h
  | toggle =>
    simp only [step, toggleTaskbar, expandTaskbar, collapseTaskbar]
    split <;> split <;> exact h

theorem run_length_le (cfg : Config) (events : List Event) (s : State)
    (h : s.quickTabContainers.length ≤ cfg.MAX_CONTAINERS) :
    (run cfg s events).quickTabContainers.length ≤ cfg.MAX_CONTAINERS := by
  induction events generalizing s with
  | nil => exact h
  | cons e es ih => exact ih (step cfg s e) (step_length_le cfg s e h)

/-- C1: for every limit `MAX_CONTAINERS` and every sequence of creations, closes, close
callbacks, minimizes, restores and reconciliation passes from the freshly loaded script, the
registry never holds more than `MAX_CONTAINERS` containers. -/
theorem C1_registry_size_bounded (cfg : Config) (events : List Event) :
    (run cfg State.init events).quickTabContainers.length ≤ cfg.MAX_CONTAINERS :=
  run_length_le cfg events State.init (Nat.zero_le _)

/-- C2: at capacity `createQuickTabContainer` returns `null` whatever the url and title, and
only counts one more limit notification: the registry with every container record, the
report of `getContainerInfo` and the next-id counter are as before the call. -/
theorem C2_rejected_at_capacity (cfg : Config) (s : State) (url title : Str) (xulOk nsOk : Bool)
    (hfull : s.quickTabContainers.length = cfg.MAX_CONTAINERS) :
    (createQuickTabContainer cfg url title xulOk nsOk s).1 = none ∧
    (createQuickTabContainer cfg url title xulOk nsOk s).2 =
      { s with limitNotifications := s.limitNotifications + 1 } ∧
    (createQuickTabContainer cfg url title xulOk nsOk s).2.quickTabContainers =
      s.quickTabContainers ∧
    getContainerInfo cfg (createQuickTabContainer cfg url title xulOk nsOk s).2 =
      getContainerInfo cfg s ∧
    (createQuickTabContainer cfg url title xulOk nsOk s).2.nextContainerId =
      s.nextContainerId := by
  have h : s.quickTabContainers.length ≥ cfg.MAX_CONTAINERS := by omega
  simp [createQuickTabContainer, h, getContainerInfo]

/-- C2 at a full registry of two: a third creation is rejected and changes neither the
registry nor the next id. -/
theorem C2_rejected_at_capacity_witness :
    fullState.quickTabContainers.length = sampleConfig.MAX_CONTAINERS ∧
    (createQuickTabContainer sampleConfig "https://sub.example.org/page".toList [] true true
        fullState).1 = none ∧
    (createQuickTabContainer sampleConfig "https://sub.example.org/page".toList [] true true
        fullState).2.nextContainerId = 3 :=
  ⟨by decide,
   (C2_rejected_at_capacity sampleConfig fullState "https://sub.example.org/page".toList []
      true true (by decide)).1,
   (C2_rejected_at_capacity sampleConfig fullState "https://sub.example.org/page".toList []
      true true (by decide)).2.2.2.2.trans (by decide)⟩

/-- C3, as stated, fails on the freshly loaded script: a creation whose two surface
strategies fail returns `null` and registers nothing, yet the next-id counter has moved
from 1 to 2. -/
theorem C3_counterexample :
    State.init.quickTabContainers.length < sampleConfig.MAX_CONTAINERS ∧
    createBrowserElement false false = none ∧
    (createQuickTabContainer sampleConfig "https://www.example.com/x".toList [] false false
        State.init).1 = none ∧
    (createQuickTabContainer sampleConfig "https://www.example.com/x".toList [] false false
        State.init).2.quickTabContainers = State.init.quickTabContainers ∧
    State.init.nextContainerId = 1 ∧
    (createQuickTabContainer sampleConfig "https://www.example.com/x".toList [] false false
        State.init).2.nextContainerId = 2 ∧
    (createQuickTabContainer sampleConfig "https://www.example.com/x".toList [] false false
        State.init).2 ≠ State.init := by
  decide

/-- C3, amended: below capacity, when `createBrowserElement` returns `null`,
`createQuickTabContainer` returns `null` and registers nothing; the state after the call is
the state before it with the next-id counter advanced by one, so the registry, the report
of `getContainerInfo` and the taskbar are unchanged and the failed call has consumed an id. -/
theorem C3_surface_failure (cfg : Config) (s : State) (url title : Str) (xulOk nsOk : Bool)
    (hroom : s.quickTabContainers.length < cfg.MAX_CONTAINERS)
    (hfail : createBrowserElement xulOk nsOk = none) :
    (createQuickTabContainer cfg url title xulOk nsOk s).1 = none ∧
    (createQuickTabContainer cfg url title xulOk nsOk s).2 =
      { s with nextContainerId := s.nextContainerId + 1 } ∧
    (createQuickTabContainer cfg url title xulOk nsOk s).2.quickTabContainers =
      s.quickTabContainers ∧
    getContainerInfo cfg (createQuickTabContainer cfg url title xulOk nsOk s).2 =
      getContainerInfo cfg s ∧
    (createQuickTabContainer cfg url title xulOk nsOk s).2.taskbar = s.taskbar := by
  have h : ¬ s.quickTabContainers.length ≥ cfg.MAX_CONTAINERS := by omega
  simp [createQuickTabContainer, h, hfail, getContainerInfo]

/-- C3 amended, on the freshly loaded script with both strategies failing. -/
theorem C3_surface_failure_witness :
    State.init.quickTabContainers.length < sampleConfig.MAX_CONTAINERS ∧
    createBrowserElement false false = none ∧
    (createQuickTabContainer sampleConfig "https://www.example.com/x".toList [] false false
        State.init).2 = { State.init with nextContainerId := 2 } :=
  ⟨by decide, by decide,
   (C3_surface_failure sampleConfig State.init "https://www.example.com/x".toList [] false false
      (by decide) (by decide)).2.1⟩

/-! ## Well-formedness of reachable states -/

theorem Inv.congr {s t : State} (h : Inv s) (hreg : t.quickTabContainers = s.quickTabContainers)
    (hnext : t.nextContainerId = s.nextContainerId) : Inv t where
  nextPos := by rw [hnext]; exact h.nextPos
  pos := by rw [hreg]; exact h.pos
  lt := by rw [hreg, hnext]; exact h.lt
  nodup := by unfold State.ids; rw [hreg]; exact h.nodup
  attached := by rw [hreg]; exact h.attached

theorem Inv.map {s t : State} (g : ContainerInfo → ContainerInfo) (h : Inv s)
    (hreg : t.quickTabContainers = s.quickTabContainers.map g)
    (hid : ∀ x, (g x).id = x.id)
    (hdoc : ∀ x, x.inDocument = true → (g x).inDocument = true)
    (hnext : t.nextContainerId = s.nextContainerId) : Inv t where
  nextPos := by rw [hnext]; exact h.nextPos
  pos := by
    intro c hc
    rw [hreg] at hc
    obtain ⟨x, hx, rfl⟩ := List.mem_map.mp hc
    rw [hid]; exact h.pos x hx
  lt := by
    intro c hc
    rw [hreg] at hc
    obtain ⟨x, hx, rfl⟩ := List.mem_map.mp hc
    rw [hid, hnext]; exact h.lt x hx
  nodup := by
    have : t.ids = s.ids := by
      unfold State.ids
      rw [hreg, List.map_map]
      exact List.map_congr_left (fun x _ => hid x)
    rw [this]; exact h.nodup
  attached := by
    intro c hc
    rw [hreg] at hc
    obtain ⟨x, hx, rfl⟩ := List.mem_map.mp hc
    exact hdoc x (h.attached x hx)

theorem Inv.filter {s t : State} (p : ContainerInfo → Bool) (h : Inv s)
    (hreg : t.quickTabContainers = s.quickTabContainers.filter p)
    (hnext : t.nextContainerId = s.nextContainerId) : Inv t where
  nextPos := by rw [hnext]; exact h.nextPos
  pos := by
    intro c hc
    rw [hreg] at hc
    exact h.pos c (List.mem_filter.mp hc).1
  lt := by
    intro c hc
    rw [hreg] at hc
    rw [hnext]; exact h.lt c (List.mem_filter.mp hc).1
  nodup := by
    unfold State.ids
    rw [hreg]
    exact List.Nodup.sublist ((List.filter_sublist _).map _) h.nodup
  attached := by
    intro c hc
    rw [hreg] at hc
    exact h.attached c (List.mem_filter.mp hc).1

theorem Inv.updateRecord {s : State} (h : Inv s) (id : Nat) (f : ContainerInfo → ContainerInfo)
    (hid : ∀ x, (f x).id = x.id) (hdoc : ∀ x, x.inDocument = true → (f x).inDocument = true) :
    Inv (s.updateRecord id f) := by
  refine h.map (fun x => if x.id = id then f x else x) rfl ?_ ?_ rfl
  · intro x; show (if x.id = id then f x else x).id = x.id
    split
    · exact hid x
    · rfl
  · intro x hx; show (if x.id = id then f x else x).inDocument = true
    split
    · exact hdoc x hx
    · exact hx

theorem Inv.updateTaskbar {s : State} (h : Inv s) : Inv (updateTaskbar s) :=
  h.congr (by simp) (by simp)

theorem Inv.bringToFront {s : State} (h : Inv s) (id : Nat) : Inv (bringToFront id s) := by
  refine h.map _ (bringToFront_quickTabContainers id s) (frontLayer_id id) ?_ rfl
  intro x hd
  rw [frontLayer_inDocument]; exact hd

theorem Inv.init : Inv State.init where
  nextPos := by decide
  pos := by intro c hc; cases hc
  lt := by intro c hc; cases hc
  nodup := by decide
  attached := by intro c hc; cases hc

/-- What a creation does: rejected at capacity, failed after taking an id, or registered
under the id the counter held. -/
theorem createQuickTabContainer_cases (cfg : Config) (url title : Str) (xulOk nsOk : Bool)
    (s : State) :
    ((createQuickTabContainer cfg url title xulOk nsOk s).1 = none ∧
      (createQuickTabContainer cfg url title xulOk nsOk s).2.quickTabContainers =
        s.quickTabContainers ∧
      s.nextContainerId ≤ (createQuickTabContainer cfg url title xulOk nsOk s).2.nextContainerId ∧
      (createQuickTabContainer cfg url title xulOk nsOk s).2.nextContainerId
        ≤ s.nextContainerId + 1 ∧
      (createQuickTabContainer cfg url title xulOk nsOk s).2.pendingCloses = s.pendingCloses) ∨
    (∃ c, (createQuickTabContainer cfg url title xulOk nsOk s).1 = some c ∧
      c.id = s.nextContainerId ∧ c.inDocument = true ∧ c.url = url ∧ c.minimized = false ∧
      s.quickTabContainers.length < cfg.MAX_CONTAINERS ∧
      (createQuickTabContainer cfg url title xulOk nsOk s).2.quickTabContainers =
        mapSet s.quickTabContainers c ∧
      (createQuickTabContainer cfg url title xulOk nsOk s).2.nextContainerId =
        s.nextContainerId + 1 ∧
      (createQuickTabContainer cfg url title xulOk nsOk s).2.pendingCloses = s.pendingCloses) := by
  unfold createQuickTabContainer
  split
  · left; simp
  · rename_i hlt
    simp only
    split
    · left; simp
    · right
      refine ⟨_, rfl, rfl, rfl, rfl, rfl, by omega, ?_, ?_, ?_⟩ <;> simp

theorem Inv.create {s : State} (h : Inv s) (cfg : Config) (url title : Str) (xulOk nsOk : Bool) :
    Inv (createQuickTabContainer cfg url title xulOk nsOk s).2 := by
  rcases createQuickTabContainer_cases cfg url title xulOk nsOk s with
    ⟨_, hreg, hle, _, _⟩ | ⟨c, _, hcid, hdoc, _, _, _, hreg, hnext, _⟩
  · exact
      { nextPos := le_trans h.nextPos hle
        pos := by rw [hreg]; exact h.pos
        lt := by rw [hreg]; exact fun x hx => lt_of_lt_of_le (h.lt x hx) hle
        nodup := by unfold State.ids; rw [hreg]; exact h.nodup
        attached := by rw [hreg]; exact h.attached }
  · have hfresh : ∀ x ∈ s.quickTabContainers, x.id ≠ c.id := by
      intro x hx; have := h.lt x hx; omega
    rw [mapSet_fresh _ _ hfresh] at hreg
    exact
      { nextPos := by rw [hnext]; omega
        pos := by
          intro x hx
          rw [hreg] at hx
          rcases List.mem_append.mp hx with hx | hx
          · exact h.pos x hx
          · rw [List.mem_singleton.mp hx, hcid]; exact h.nextPos
        lt := by
          intro x hx
          rw [hreg] at hx
          rw [hnext]
          rcases List.mem_append.mp hx with hx | hx
          · have := h.lt x hx; omega
          · rw [List.mem_singleton.mp hx, hcid]; omega
        nodup := by
          unfold State.ids
          rw [hreg, List.map_append, List.nodup_append]
          refine ⟨h.nodup, by simp, ?_⟩
          intro a ha hb
          obtain ⟨x, hx, rfl⟩ := List.mem_map.mp ha
          simp at hb
          exact hfresh x hx hb
        attached := by
          intro x hx
          rw [hreg] at hx
          rcases List.mem_append.mp hx with hx | hx
          · exact h.attached x hx
          · rw [List.mem_singleton.mp hx]; exact hdoc }

theorem Inv.step {s : State} (h : Inv s) (cfg : Config) (e : Event) : Inv (step cfg s e) := by
  cases e with
  | create url title xulOk nsOk => exact h.create cfg url title xulOk nsOk
  | minimize id =>
    simp only [QuickTabs.step]; split
    · exact (h.updateRecord id (fun x => { x with classMinimized := true, minimized := true })
        (fun _ => rfl) (fun _ hx => hx)).updateTaskbar
    · exact h
  | restore id =>
    simp only [QuickTabs.step]; split
    · exact ((h.updateRecord id (fun x => { x with classMinimized := false, minimized := false })
        (fun _ => rfl) (fun _ hx => hx)).bringToFront id).updateTaskbar
    · exact h
  | close id =>
    simp only [QuickTabs.step]; split
    · exact (h.updateRecord id (fun x => { x with fading := true })
        (fun _ => rfl) (fun _ hx => hx)).congr rfl rfl
    · exact h
  | closeDone id =>
    simp only [QuickTabs.step]; split
    · exact h.filter _ (closeTransitionDone_quickTabContainers id _) (by simp)
    · exact h
  | front id =>
    simp only [QuickTabs.step]; split
    · exact h.bringToFront id
    · exact h
  | reconcile id b =>
    simp only [QuickTabs.step]
    refine h.map _ (updateContainerTitle_quickTabContainers cfg id b s) ?_ ?_ (by simp)
    · intro x; split
      · exact (updateContainerTitleOn_fst_frame cfg.URL b x).1
      · rfl
    · intro x hx; split
      · rw [(updateContainerTitleOn_fst_frame cfg.URL b x).2.2.1]; exact hx
      · exact hx
  | initialButtons id b =>
    simp only [QuickTabs.step]; split
    · unfold initialButtonState
      split
      · exact h.updateRecord id _ (fun _ => rfl) (fun _ hx => hx)
      · exact h.updateRecord id _ (fun _ => rfl) (fun _ hx => hx)
    · exact h
  | expand =>
    simp only [QuickTabs.step, expandTaskbar]; split
    · exact h.congr rfl rfl
    · exact h
  | collapse =>
    simp only [QuickTabs.step, collapseTaskbar]; split
    · exact h.congr rfl rfl
    · exact h
  | toggle =>
    simp only [QuickTabs.step, toggleTaskbar, expandTaskbar, collapseTaskbar]
    split <;> split <;> first | exact h | exact h.congr rfl rfl

theorem Inv.run {s : State} (h : Inv s) (cfg : Config) (events : List Event) :
    Inv (run cfg s events) := by
  induction events generalizing s with
  | nil => exact h
  | cons e es ih => exact ih (h.step cfg e)

theorem step_nextContainerId_le (cfg : Config) (s : State) (e : Event) :
    s.nextContainerId ≤ (step cfg s e).nextContainerId := by
  cases e with
  | create url title xulOk nsOk =>
    rcases createQuickTabContainer_cases cfg url title xulOk nsOk s with
      ⟨_, _, hle, _, _⟩ | ⟨c, _, _, _, _, _, _, _, hnext, _⟩
    · exact hle
    · simp only [step]; omega
  | minimize id => simp only [step]; split <;> simp [minimizeContainer]
  | restore id => simp only [step]; split <;> simp [restoreContainer]
  | close id => simp only [step]; split <;> simp [closeContainer]
  | closeDone id => simp only [step]; split <;> simp
  | front id => simp only [step]; split <;> simp
  | reconcile id b => simp [step]
  | initialButtons id b =>
    simp only [step]; split
    · unfold initialButtonState; split <;> simp
    · exact le_rfl
  | expand => simp only [step, expandTaskbar]; split <;> exact le_rfl
  | collapse => simp only [step, collapseTaskbar]; split <;> exact le_rfl
  | toggle =>
    simp only [step, toggleTaskbar, expandTaskbar, collapseTaskbar]
    split <;> split <;> exact le_rfl

theorem run_nextContainerId_le (cfg : Config) (events : List Event) (s : State) :
    s.nextContainerId ≤ (run cfg s events).nextContainerId := by
  induction events generalizing s with
  | nil => exact le_rfl
  | cons e es ih => exact le_trans (step_nextContainerId_le cfg s e) (ih (step cfg s e))

theorem createQuickTabContainer_some (cfg : Config) (url title : Str) (xulOk nsOk : Bool)
    (s : State) (c : ContainerInfo)
    (h : (createQuickTabContainer cfg url title xulOk nsOk s).1 = some c) :
    c.id = s.nextContainerId ∧
    (createQuickTabContainer cfg url title xulOk nsOk s).2.nextContainerId =
      s.nextContainerId + 1 := by
  rcases createQuickTabContainer_cases cfg url title xulOk nsOk s with
    ⟨hnone, _⟩ | ⟨c0, hsome, hcid, _, _, _, _, _, hnext, _⟩
  · rw [hnone] at h; cases h
  · rw [hsome] at h
    cases h
    exact ⟨hcid, hnext⟩

/-- C4: in every reachable state each registered id is at least 1 and below
`nextContainerId`, and the registered ids are pairwise distinct; and when two calls of
`createQuickTabContainer` in one session both return a container, the later one's id is
strictly greater than the earlier one's, whatever happened in between (the earlier
container may have been closed). -/
theorem C4_ids_positive_unique_increasing (cfg : Config) (events : List Event) :
    (∀ c ∈ (run cfg State.init events).quickTabContainers,
        1 ≤ c.id ∧ c.id < (run cfg State.init events).nextContainerId) ∧
    (run cfg State.init events).ids.Nodup ∧
    (∀ (url1 title1 : Str) (xulOk1 nsOk1 : Bool) (between : List Event)
        (url2 title2 : Str) (xulOk2 nsOk2 : Bool) (id1 id2 : Nat),
        (createQuickTabContainer cfg url1 title1 xulOk1 nsOk1
            (run cfg State.init events)).1.map (fun c => c.id) = some id1 →
        (createQuickTabContainer cfg url2 title2 xulOk2 nsOk2
            (run cfg
              (createQuickTabContainer cfg url1 title1 xulOk1 nsOk1
                (run cfg State.init events)).2
              between)).1.map (fun c => c.id) = some id2 →
        id1 < id2) := by
  have hinv := Inv.init.run cfg events
  refine ⟨fun c hc => ⟨hinv.pos c hc, hinv.lt c hc⟩, hinv.nodup, ?_⟩
  intro url1 title1 xulOk1 nsOk1 between url2 title2 xulOk2 nsOk2 id1 id2 h1 h2
  obtain ⟨c1, hc1, rfl⟩ := Option.map_eq_some'.mp h1
  obtain ⟨c2, hc2, rfl⟩ := Option.map_eq_some'.mp h2
  have e1 := createQuickTabContainer_some _ _ _ _ _ _ _ hc1
  have e2 := createQuickTabContainer_some _ _ _ _ _ _ _ hc2
  have hmono := run_nextContainerId_le cfg between
    (createQuickTabContainer cfg url1 title1 xulOk1 nsOk1 (run cfg State.init events)).2
  show c1.id < c2.id
  omega

/-- C4 on a session: the first container gets id 1; it is closed and its transition
completes; the next container gets id 2. -/
theorem C4_ids_positive_unique_increasing_witness :
    (createQuickTabContainer sampleConfig "https://www.example.com/x".toList [] true true
        (run sampleConfig State.init [])).1.map (fun c => c.id) = some 1 ∧
    (createQuickTabContainer sampleConfig "https://localhost/foo".toList [] true true
        (run sampleConfig
          (createQuickTabContainer sampleConfig "https://www.example.com/x".toList [] true true
            (run sampleConfig State.init [])).2
          [.close 1, .closeDone 1])).1.map (fun c => c.id) = some 2 ∧
    1 < 2 :=
  ⟨by decide, by decide,
   (C4_ids_positive_unique_increasing sampleConfig []).2.2
      "https://www.example.com/x".toList [] true true [.close 1, .closeDone 1]
      "https://localhost/foo".toList [] true true 1 2 (by decide) (by decide)⟩

/-! ## Closing -/

theorem ids_map_update (l : List ContainerInfo) (g : ContainerInfo → ContainerInfo)
    (hid : ∀ x, (g x).id = x.id) :
    (l.map g).map (fun x => x.id) = l.map (fun x => x.id) := by
  rw [List.map_map]
  exact List.map_congr_left (fun x _ => hid x)

theorem mapSet_mem_ids (m : List ContainerInfo) (c : ContainerInfo) (id : Nat)
    (h : id ∈ m.map (fun x => x.id)) : id ∈ (mapSet m c).map (fun x => x.id) := by
  unfold mapSet
  split
  · rw [ids_map_update]
    · exact h
    · intro x
      split
      · rename_i hx; exact hx.symm
      · rfl
  · rw [List.map_append]
    exact List.mem_append_left _ h

/-- The shape of the registry after one event: the records are updated in place with their
ids kept, or one record is set, or the event is a close callback and its id is deleted. -/
theorem step_shape (cfg : Config) (s : State) (e : Event) :
    (∃ g : ContainerInfo → ContainerInfo, (∀ x, (g x).id = x.id) ∧
      (step cfg s e).quickTabContainers = s.quickTabContainers.map g) ∨
    (∃ c, (step cfg s e).quickTabContainers = mapSet s.quickTabContainers c) ∨
    (∃ id, e = .closeDone id ∧
      (step cfg s e).quickTabContainers = s.quickTabContainers.filter (fun x => x.id ≠ id)) := by
  have hkeep : ∃ g : ContainerInfo → ContainerInfo, (∀ x, (g x).id = x.id) ∧
      s.quickTabContainers = s.quickTabContainers.map g :=
    ⟨fun x => x, fun _ => rfl, by simp⟩
  have hupd : ∀ (id : Nat) (f : ContainerInfo → ContainerInfo), (∀ x, (f x).id = x.id) →
      ∀ x : ContainerInfo, (if x.id = id then f x else x).id = x.id := by
    intro id f hf x
    split
    · exact hf x
    · rfl
  have hrec : ∀ (id : Nat) (f : ContainerInfo → ContainerInfo), (∀ x, (f x).id = x.id) →
      ∃ g : ContainerInfo → ContainerInfo, (∀ x, (g x).id = x.id) ∧
        (s.updateRecord id f).quickTabContainers = s.quickTabContainers.map g :=
    fun id f hf => ⟨_, hupd id f hf, rfl⟩
  cases e with
  | create url title xulOk nsOk =>
    rcases createQuickTabContainer_cases cfg url title xulOk nsOk s with
      ⟨_, hreg, _⟩ | ⟨c, _, _, _, _, _, _, hreg, _⟩
    · left; exact ⟨fun x => x, fun _ => rfl, by simpa [step] using hreg⟩
    · right; left; exact ⟨c, hreg⟩
  | minimize id =>
    left; simp only [step]; split
    · exact ⟨_, hupd id (fun x => { x with classMinimized := true, minimized := true })
        (fun _ => rfl), by simp [minimizeContainer]⟩
    · exact hkeep
  | restore id =>
    left; simp only [step]; split
    · refine ⟨frontLayer id ∘
          (fun x => if x.id = id then { x with classMinimized := false, minimized := false }
            else x), ?_, ?_⟩
      · intro x
        simp only [Function.comp, frontLayer_id]
        split <;> rfl
      · simp only [restoreContainer, updateTaskbar_quickTabContainers,
          bringToFront_quickTabContainers, updateRecord_quickTabContainers, List.map_map]
    · exact hkeep
  | close id =>
    left; simp only [step]; split
    · exact ⟨_, hupd id (fun x => { x with fading := true }) (fun _ => rfl),
        by simp [closeContainer]⟩
    · exact hkeep
  | closeDone id =>
    simp only [step]; split
    · right; right
      exact ⟨id, rfl, closeTransitionDone_quickTabContainers id _⟩
    · left; exact hkeep
  | front id =>
    left; simp only [step]; split
    · exact ⟨_, frontLayer_id id, bringToFront_quickTabContainers id s⟩
    · exact hkeep
  | reconcile id b =>
    left
    refine ⟨_, ?_, updateContainerTitle_quickTabContainers cfg id b s⟩
    exact hupd id (fun x => (updateContainerTitleOn cfg.URL b x).1)
      (fun x => (updateContainerTitleOn_fst_frame cfg.URL b x).1)
  | initialButtons id b =>
    left; simp only [step]; split
    · unfold initialButtonState
      split
      · exact hrec id _ (fun _ => rfl)
      · exact hrec id _ (fun _ => rfl)
    · exact hkeep
  | expand =>
    left; simp only [step, expandTaskbar]; split <;> exact hkeep
  | collapse =>
    left; simp only [step, collapseTaskbar]; split <;> exact hkeep
  | toggle =>
    left; simp only [step, toggleTaskbar, expandTaskbar, collapseTaskbar]
    split <;> split <;> exact hkeep

theorem step_mem_ids (cfg : Config) (s : State) (e : Event) (id : Nat)
    (hne : e ≠ .closeDone id) (h : id ∈ s.ids) : id ∈ (step cfg s e).ids := by
  unfold State.ids at h ⊢
  rcases step_shape cfg s e with ⟨g, hg, hreg⟩ | ⟨c, hreg⟩ | ⟨id0, he, hreg⟩
  · rw [hreg, ids_map_update _ g hg]; exact h
  · rw [hreg]; exact mapSet_mem_ids _ c id h
  · rw [hreg]
    obtain ⟨x, hx, hxid⟩ := List.mem_map.mp h
    refine List.mem_map.mpr ⟨x, List.mem_filter.mpr ⟨hx, ?_⟩, hxid⟩
    have : id0 ≠ id := fun h0 => hne (h0 ▸ he)
    simp only [decide_eq_true_eq]
    omega

theorem step_mem_pendingCloses (cfg : Config) (s : State) (e : Event) (id : Nat)
    (hne : e ≠ .closeDone id) (h : id ∈ s.pendingCloses) :
    id ∈ (step cfg s e).pendingCloses := by
  cases e with
  | create url title xulOk nsOk =>
    rcases createQuickTabContainer_cases cfg url title xulOk nsOk s with
      ⟨_, _, _, _, hp⟩ | ⟨c, _, _, _, _, _, _, _, _, hp⟩
    · simp only [step]; rw [hp]; exact h
    · simp only [step]; rw [hp]; exact h
  | minimize id0 => simp only [step]; split <;> simp [minimizeContainer, h]
  | restore id0 => simp only [step]; split <;> simp [restoreContainer, h]
  | close id0 => simp only [step]; split <;> simp [closeContainer, h]
  | closeDone id0 =>
    simp only [step]; split
    · simp only [closeTransitionDone_pendingCloses]
      have : id ≠ id0 := fun h0 => hne (h0 ▸ rfl)
      exact (List.mem_erase_of_ne this).mpr h
    · exact h
  | front id0 => simp only [step]; split <;> simp [h]
  | reconcile id0 b => simp [step, h]
  | initialButtons id0 b =>
    simp only [step]; split
    · unfold initialButtonState; split <;> simp [h]
    · exact h
  | expand => simp only [step, expandTaskbar]; split <;> exact h
  | collapse => simp only [step, collapseTaskbar]; split <;> exact h
  | toggle =>
    simp only [step, toggleTaskbar, expandTaskbar, collapseTaskbar]
    split <;> split <;> exact h

theorem run_mem_ids_pendingCloses (cfg : Config) (events : List Event) (s : State) (id : Nat)
    (hne : Event.closeDone id ∉ events) (h : id ∈ s.ids) (hp : id ∈ s.pendingCloses) :
    id ∈ (run cfg s events).ids ∧ id ∈ (run cfg s events).pendingCloses := by
  induction events generalizing s with
  | nil => exact ⟨h, hp⟩
  | cons e es ih =>
    have he : e ≠ .closeDone id := fun h0 => hne (h0 ▸ List.mem_cons_self _ _)
    exact ih (step cfg s e) (fun h0 => hne (List.mem_cons_of_mem _ h0))
      (step_mem_ids cfg s e id he h) (step_mem_pendingCloses cfg s e id he hp)

theorem getContainerInfo_closeContainer (cfg : Config) (id : Nat) (s : State) :
    getContainerInfo cfg (closeContainer id s) = getContainerInfo cfg s := by
  simp only [getContainerInfo, closeContainer, updateRecord_quickTabContainers, List.length_map,
    List.map_map]
  congr 1
  apply List.map_congr_left
  intro x _
  by_cases hx : x.id = id <;> simp [hx]

theorem getContainerInfo_ids (cfg : Config) (s : State) :
    (getContainerInfo cfg s).containers.map (fun r => r.id) = s.ids := by
  simp only [getContainerInfo, State.ids, List.map_map]
  rfl

/-- C5: for a registered container, `closeContainer` itself leaves the registered ids and the
report of `getContainerInfo` as they were; whatever happens before the close-transition
callback runs, `getContainerInfo().containers` still lists the container; once the callback
has run the container is no longer listed, the registry is the previous one without that
container, and no later `createQuickTabContainer` returns a container with its id. -/
theorem C5_close_defers_removal (cfg : Config) (events : List Event) (id : Nat)
    (hreg : id ∈ (run cfg State.init events).ids)
    (during : List Event) (hduring : Event.closeDone id ∉ during) :
    let s := run cfg State.init events
    let t := run cfg (closeContainer id s) during
    let u := step cfg t (.closeDone id)
    (closeContainer id s).ids = s.ids ∧
    getContainerInfo cfg (closeContainer id s) = getContainerInfo cfg s ∧
    id ∈ (getContainerInfo cfg t).containers.map (fun r => r.id) ∧
    id ∉ (getContainerInfo cfg u).containers.map (fun r => r.id) ∧
    u.quickTabContainers = t.quickTabContainers.filter (fun x => x.id ≠ id) ∧
    ∀ (later : List Event) (url title : Str) (xulOk nsOk : Bool) (c2 : ContainerInfo),
      (createQuickTabContainer cfg url title xulOk nsOk (run cfg u later)).1 = some c2 →
      c2.id ≠ id := by
  intro s t u
  have hinv : Inv s := Inv.init.run cfg events
  have hids : (closeContainer id s).ids = s.ids := by
    rw [← getContainerInfo_ids cfg, getContainerInfo_closeContainer, getContainerInfo_ids]
  have hpend : id ∈ (closeContainer id s).pendingCloses := by
    simp [closeContainer]
  have hrun := run_mem_ids_pendingCloses cfg during (closeContainer id s) id hduring
    (hids ▸ hreg) hpend
  have hu : u.quickTabContainers = t.quickTabContainers.filter (fun x => x.id ≠ id) := by
    show (step cfg t (.closeDone id)).quickTabContainers = _
    simp only [step]
    rw [if_pos hrun.2, closeTransitionDone_quickTabContainers]
  refine ⟨hids, getContainerInfo_closeContainer cfg id s, ?_, ?_, hu, ?_⟩
  · rw [getContainerInfo_ids]; exact hrun.1
  · rw [getContainerInfo_ids]
    unfold State.ids
    rw [hu]
    intro hmem
    obtain ⟨x, hx, hxid⟩ := List.mem_map.mp hmem
    have := (List.mem_filter.mp hx).2
    simp only [decide_eq_true_eq] at this
    exact this hxid
  · intro later url title xulOk nsOk c2 hc2
    have e2 := createQuickTabContainer_some _ _ _ _ _ _ _ hc2
    obtain ⟨x, hx, hxid⟩ := List.mem_map.mp hreg
    have hlt : id < s.nextContainerId := hxid ▸ hinv.lt x hx
    have h0 : (closeContainer id s).nextContainerId = s.nextContainerId := rfl
    have h1 := run_nextContainerId_le cfg during (closeContainer id s)
    have h2 := step_nextContainerId_le cfg t (.closeDone id)
    have h3 := run_nextContainerId_le cfg later u
    have h1t : (closeContainer id s).nextContainerId ≤ t.nextContainerId := h1
    have h2u : t.nextContainerId ≤ u.nextContainerId := h2
    omega

/-- C5 on a session with two containers: container 1 is closed, container 2 is minimized
while the transition runs, then the callback fires; a later creation gets id 3. -/
theorem C5_close_defers_removal_witness :
    1 ∈ (run sampleConfig State.init
          [.create "https://www.example.com/x".toList [] true true,
           .create "https://localhost/foo".toList [] true true]).ids ∧
    Event.closeDone 1 ∉ [Event.minimize 2] ∧
    (run sampleConfig
      (closeContainer 1 (run sampleConfig State.init
          [.create "https://www.example.com/x".toList [] true true,
           .create "https://localhost/foo".toList [] true true]))
      [Event.minimize 2]).ids = [1, 2] ∧
    (step sampleConfig
      (run sampleConfig
        (closeContainer 1 (run sampleConfig State.init
            [.create "https://www.example.com/x".toList [] true true,
             .create "https://localhost/foo".toList [] true true]))
        [Event.minimize 2])
      (.closeDone 1)).ids = [2] ∧
    1 ∉ (getContainerInfo sampleConfig
      (step sampleConfig
        (run sampleConfig
          (closeContainer 1 (run sampleConfig State.init
              [.create "https://www.example.com/x".toList [] true true,
               .create "https://localhost/foo".toList [] true true]))
          [Event.minimize 2])
        (.closeDone 1))).containers.map (fun r => r.id) :=
  ⟨by decide, by decide, by decide, by decide,
   (C5_close_defers_removal sampleConfig
      [.create "https://www.example.com/x".toList [] true true,
       .create "https://localhost/foo".toList [] true true] 1 (by decide)
      [Event.minimize 2] (by decide)).2.2.2.1⟩

/-! ## Minimize and restore -/

theorem restore_minimize_quickTabContainers (id : Nat) (s : State) :
    (restoreContainer id (minimizeContainer id s)).quickTabContainers =
      s.quickTabContainers.map (fun x =>
        frontLayer id
          (if x.id = id then { x with classMinimized := false, minimized := false } else x)) := by
  simp only [restoreContainer, minimizeContainer, updateTaskbar_quickTabContainers,
    bringToFront_quickTabContainers, updateRecord_quickTabContainers, List.map_map]
  apply List.map_congr_left
  intro x _
  by_cases hx : x.id = id <;> simp [hx]

/-- C6: for a registered container `id` of a reachable state, `minimizeContainer` followed by
`restoreContainer` keeps the registered ids; every record keeps its id, url and title; the
target ends with `minimized = false` on layer 9999 and every other registered container
keeps its `minimized` flag and ends on layer 9998. -/
theorem C6_minimize_then_restore (cfg : Config) (events : List Event) (id : Nat)
    (hreg : id ∈ (run cfg State.init events).ids) :
    let s := run cfg State.init events
    let r := restoreContainer id (minimizeContainer id s)
    r.ids = s.ids ∧
    r.quickTabContainers = s.quickTabContainers.map (fun x =>
      if x.id = id then
        { x with minimized := false, classMinimized := false, zIndex := some 9999 }
      else { x with zIndex := some 9998 }) ∧
    (∃ c ∈ r.quickTabContainers, c.id = id) ∧
    (∀ c ∈ r.quickTabContainers, c.id = id → c.minimized = false ∧ c.zIndex = some 9999) ∧
    (∀ d ∈ r.quickTabContainers, d.id ≠ id → d.zIndex = some 9998) := by
  intro s r
  have hinv : Inv s := Inv.init.run cfg events
  have hr : r.quickTabContainers = s.quickTabContainers.map (fun x =>
      if x.id = id then
        { x with minimized := false, classMinimized := false, zIndex := some 9999 }
      else { x with zIndex := some 9998 }) := by
    show (restoreContainer id (minimizeContainer id s)).quickTabContainers = _
    rw [restore_minimize_quickTabContainers]
    apply List.map_congr_left
    intro x hx
    have hd := hinv.attached x hx
    by_cases hxid : x.id = id <;> simp [frontLayer, hxid, hd]
  have hids : r.ids = s.ids := by
    unfold State.ids
    rw [hr]
    apply ids_map_update
    intro x
    split <;> rfl
  refine ⟨hids, hr, ?_, ?_, ?_⟩
  · have : id ∈ r.ids := hids ▸ hreg
    obtain ⟨c, hc, hcid⟩ := List.mem_map.mp this
    exact ⟨c, hc, hcid⟩
  · intro c hc hcid
    rw [hr] at hc
    obtain ⟨x, _, rfl⟩ := List.mem_map.mp hc
    by_cases hx : x.id = id
    · simp [hx]
    · simp [hx] at hcid
  · intro d hd hdid
    rw [hr] at hd
    obtain ⟨x, _, rfl⟩ := List.mem_map.mp hd
    by_cases hx : x.id = id
    · simp [hx] at hdid
    · simp [hx]

/-- C6 on a session with two containers: after minimizing and restoring container 1 the
registered ids are still 1 and 2, both are not minimized, container 1 is on layer 9999 and
container 2 on layer 9998. -/
theorem C6_minimize_then_restore_witness :
    1 ∈ (run sampleConfig State.init
          [.create "https://www.example.com/x".toList [] true true,
           .create "https://localhost/foo".toList [] true true]).ids ∧
    (restoreContainer 1 (minimizeContainer 1 (run sampleConfig State.init
          [.create "https://www.example.com/x".toList [] true true,
           .create "https://localhost/foo".toList [] true true]))).quickTabContainers.map
        (fun x => (x.id, x.minimized, x.zIndex)) =
      [(1, false, some 9999), (2, false, some 9998)] ∧
    (restoreContainer 1 (minimizeContainer 1 (run sampleConfig State.init
          [.create "https://www.example.com/x".toList [] true true,
           .create "https://localhost/foo".toList [] true true]))).ids =
      (run sampleConfig State.init
          [.create "https://www.example.com/x".toList [] true true,
           .create "https://localhost/foo".toList [] true true]).ids :=
  ⟨by decide, by decide,
   (C6_minimize_then_restore sampleConfig
      [.create "https://www.example.com/x".toList [] true true,
       .create "https://localhost/foo".toList [] true true] 1 (by decide)).1⟩

/-! ## Title resolver -/

theorem split_zero (sep : Char) (s : Str) :
    (split sep s)[0]? = some (s.takeWhile (fun c => c ≠ sep)) := by
  induction s with
  | nil => rfl
  | cons c cs ih =>
    unfold split
    by_cases hc : c = sep
    · simp [hc]
    · simp only [hc, ↓reduceIte]
      cases hs : split sep cs with
      | nil => rw [hs] at ih; simp at ih
      | cons seg rest =>
        rw [hs] at ih
        simp only [List.getElem?_cons_zero, Option.some.injEq] at ih
        simp [hc, ih]

theorem split_one (s : Str) : ((split '/' s)[1]?).getD [] = firstPathSegment s := by
  induction s with
  | nil => rfl
  | cons c cs ih =>
    unfold split
    by_cases hc : c = '/'
    · subst hc
      have h0 := split_zero '/' cs
      simp only [↓reduceIte, List.getElem?_cons_succ, h0, Option.getD_some]
      simp [firstPathSegment, List.dropWhile]
    · simp only [hc, ↓reduceIte]
      have hfps : firstPathSegment (c :: cs) = firstPathSegment cs := by
        simp [firstPathSegment, List.dropWhile, hc]
      rw [hfps, ← ih]
      cases hs : split '/' cs with
      | nil => rfl
      | cons seg rest => rfl

theorem getTabTitle_local (URL : URLParser) (url : Str) (p : ParsedURL)
    (hparse : URL url = some p)
    (hlocal : stripWww p.hostname = [] ∨ stripWww p.hostname = "localhost".toList ∨
      stripWww p.hostname = "127.0.0.1".toList) :
    getTabTitle URL url =
      if firstPathSegment p.pathname ≠ [] then firstPathSegment p.pathname
      else "Quick Tab".toList := by
  have hcond : ¬ (stripWww p.hostname ≠ [] ∧ stripWww p.hostname ≠ "localhost".toList ∧
      stripWww p.hostname ≠ "127.0.0.1".toList) := by
    rintro ⟨h1, h2, h3⟩
    rcases hlocal with h | h | h
    · exact h1 h
    · exact h2 h
    · exact h3 h
  unfold getTabTitle
  rw [hparse]
  simp only
  rw [if_neg hcond, ← split_one]
  cases (split '/' p.pathname)[1]? with
  | none => simp
  | some seg => simp

/-- C7, as stated, fails for the address `https://www.localhost/foo`: its hostname
`www.localhost` is non-empty and is neither `localhost` nor `127.0.0.1`, yet `getTabTitle`
returns the path segment `foo`, not the hostname without `www.` (`localhost`). -/
theorem C7_counterexample :
    tableURL "https://www.localhost/foo".toList =
      some ⟨"www.localhost".toList, "/foo".toList⟩ ∧
    "www.localhost".toList ≠ [] ∧
    "www.localhost".toList ≠ "localhost".toList ∧
    "www.localhost".toList ≠ "127.0.0.1".toList ∧
    stripWww "www.localhost".toList = "localhost".toList ∧
    getTabTitle tableURL "https://www.localhost/foo".toList = "foo".toList ∧
    getTabTitle tableURL "https://www.localhost/foo".toList ≠ stripWww "www.localhost".toList := by
  decide

/-- C7, amended: for every address that parses as a URL and whose hostname, once a leading
`www.` is removed, is non-empty and is neither `localhost` nor `127.0.0.1`, `getTabTitle`
returns that hostname with the leading `www.` removed; so `https://www.example.com/x`,
with hostname `www.example.com`, gives `example.com`. -/
theorem C7_hostname_title (URL : URLParser) (url : Str) (p : ParsedURL)
    (hparse : URL url = some p)
    (hnonempty : stripWww p.hostname ≠ [])
    (hlocalhost : stripWww p.hostname ≠ "localhost".toList)
    (hloopback : stripWww p.hostname ≠ "127.0.0.1".toList) :
    getTabTitle URL url = stripWww p.hostname ∧
    (∀ rest : Str, p.hostname = "www.".toList ++ rest → getTabTitle URL url = rest) ∧
    (startsWith p.hostname "www.".toList = false → getTabTitle URL url = p.hostname) ∧
    (url = "https://www.example.com/x".toList → p.hostname = "www.example.com".toList →
      getTabTitle URL url = "example.com".toList) := by
  have h : getTabTitle URL url = stripWww p.hostname := by
    unfold getTabTitle
    rw [hparse]
    simp only
    rw [if_pos ⟨hnonempty, hlocalhost, hloopback⟩]
  refine ⟨h, ?_, ?_, ?_⟩
  · intro rest hrest
    rw [h, hrest]
    simp [stripWww, startsWith]
  · intro hno
    rw [h]
    unfold stripWww
    rw [hno]
    rfl
  · intro _ hhost
    rw [h, hhost]
    decide

/-- C7 amended, on `https://www.example.com/x`. -/
theorem C7_hostname_title_witness :
    tableURL "https://www.example.com/x".toList =
      some ⟨"www.example.com".toList, "/x".toList⟩ ∧
    stripWww "www.example.com".toList ≠ [] ∧
    stripWww "www.example.com".toList ≠ "localhost".toList ∧
    stripWww "www.example.com".toList ≠ "127.0.0.1".toList ∧
    getTabTitle tableURL "https://www.example.com/x".toList = "example.com".toList :=
  ⟨by decide, by decide, by decide, by decide,
   (C7_hostname_title tableURL "https://www.example.com/x".toList
      ⟨"www.example.com".toList, "/x".toList⟩ (by decide) (by decide) (by decide)
      (by decide)).2.2.2 rfl rfl⟩

/-- C8: for every address that parses with hostname `localhost` or `127.0.0.1`,
`getTabTitle` returns the first path segment when it is non-empty and `Quick Tab` when it
is empty; for every input that does not parse it returns `Quick Tab`; so
`https://localhost/foo` gives `foo` and `not a url` gives `Quick Tab`. -/
theorem C8_fallback_chain (URL : URLParser) (url : Str) :
    (∀ p : ParsedURL, URL url = some p →
      p.hostname = "localhost".toList ∨ p.hostname = "127.0.0.1".toList →
      (firstPathSegment p.pathname ≠ [] → getTabTitle URL url = firstPathSegment p.pathname) ∧
      (firstPathSegment p.pathname = [] → getTabTitle URL url = "Quick Tab".toList)) ∧
    (URL url = none → getTabTitle URL url = "Quick Tab".toList) ∧
    (url = "https://localhost/foo".toList →
      URL url = some ⟨"localhost".toList, "/foo".toList⟩ →
      getTabTitle URL url = "foo".toList) ∧
    (url = "not a url".toList → URL url = none → getTabTitle URL url = "Quick Tab".toList) := by
  have hnone : URL url = none → getTabTitle URL url = "Quick Tab".toList := by
    intro h
    unfold getTabTitle
    rw [h]
  have hloc : ∀ p : ParsedURL, URL url = some p →
      p.hostname = "localhost".toList ∨ p.hostname = "127.0.0.1".toList →
      getTabTitle URL url =
        if firstPathSegment p.pathname ≠ [] then firstPathSegment p.pathname
        else "Quick Tab".toList := by
    intro p hp hhost
    apply getTabTitle_local URL url p hp
    rcases hhost with h | h
    · right; left; rw [h]; decide
    · right; right; rw [h]; decide
  refine ⟨?_, hnone, ?_, fun _ h => hnone h⟩
  · intro p hp hhost
    rw [hloc p hp hhost]
    constructor
    · intro hseg; rw [if_pos hseg]
    · intro hseg; rw [if_neg (not_not.mpr hseg)]
  · intro _ hp
    rw [hloc _ hp (Or.inl rfl)]
    decide

/-- C8 on `https://localhost/foo`, on `http://127.0.0.1/` and on `not a url`. -/
theorem C8_fallback_chain_witness :
    tableURL "https://localhost/foo".toList = some ⟨"localhost".toList, "/foo".toList⟩ ∧
    getTabTitle tableURL "https://localhost/foo".toList = "foo".toList ∧
    tableURL "not a url".toList = none ∧
    getTabTitle tableURL "not a url".toList = "Quick Tab".toList ∧
    firstPathSegment "/".toList = [] ∧
    getTabTitle tableURL "http://127.0.0.1/".toList = "Quick Tab".toList :=
  ⟨by decide,
   (C8_fallback_chain tableURL "https://localhost/foo".toList).2.2.1 rfl (by decide),
   by decide,
   (C8_fallback_chain tableURL "not a url".toList).2.2.2 rfl (by decide),
   by decide,
   ((C8_fallback_chain tableURL "http://127.0.0.1/".toList).1
      ⟨"127.0.0.1".toList, "/".toList⟩ (by decide) (Or.inr rfl)).2 (by decide)⟩

/-- C9: `getTabTitle` is total and its result is never the empty string, whether or not
the input parses as a URL. -/
theorem C9_title_never_empty (URL : URLParser) (url : Str) : getTabTitle URL url ≠ [] := by
  unfold getTabTitle
  split
  · simp only
    split
    · rename_i h; exact h.1
    · split
      · split
        · assumption
        · decide
      · decide
  · decide

/-! ## Title reconciliation -/

theorem find_map_update (l : List ContainerInfo) (id : Nat) (g : ContainerInfo → ContainerInfo)
    (hg : ∀ x, (g x).id = x.id) :
    (l.map (fun x => if x.id = id then g x else x)).find? (fun x => x.id = id) =
      (l.find? (fun x => x.id = id)).map g := by
  induction l with
  | nil => rfl
  | cons a l ih =>
    by_cases ha : a.id = id
    · simp [ha, hg]
    · simp [ha, ih]

theorem get_updateContainerTitle (cfg : Config) (id : Nat) (b : Surface) (s : State) :
    (updateContainerTitle cfg id b s).get id =
      (s.get id).map (fun x => (updateContainerTitleOn cfg.URL b x).1) := by
  unfold State.get
  rw [updateContainerTitle_quickTabContainers]
  exact find_map_update _ _ _ (fun x => (updateContainerTitleOn_fst_frame cfg.URL b x).1)

theorem get_isSome_of_mem_ids (s : State) (id : Nat) (h : id ∈ s.ids) : (s.get id).isSome := by
  obtain ⟨x, hx, hxid⟩ := List.mem_map.mp h
  unfold State.get
  rw [List.find?_isSome]
  exact ⟨x, hx, by simpa using hxid⟩

theorem applyFallbackTitle_title (URL : URLParser) (u : Option Str) (c : ContainerInfo) :
    (applyFallbackTitle URL u c).1.title = getTabTitle URL (u.getD c.url) := by
  simp only [applyFallbackTitle]
  split
  · rfl
  · rename_i h
    exact (not_not.mp h).symm

theorem reconcileAddress_getD_url (URL : URLParser) (u : Option Str) (c : ContainerInfo) :
    u.getD (reconcileAddress URL u c).url = u.getD c.url := by
  cases u with
  | none => rfl
  | some v => rfl

theorem acceptsPageTitle_iff (t : Str) :
    acceptsPageTitle t = true ↔
      t ≠ [] ∧ trim t ≠ [] ∧ t ≠ "Loading...".toList ∧ t ≠ "New Tab".toList ∧
        startsWith t "http".toList = false := by
  simp [acceptsPageTitle, and_assoc]

/-- The stored title after one pass, by what the title accessors answered. -/
theorem updateContainerTitleOn_title (URL : URLParser) (b : Surface) (c : ContainerInfo) :
    (updateContainerTitleOn URL b c).1.title =
      match readPageTitle b with
      | .threw => c.title
      | .value t =>
        if acceptsPageTitle t then t else getTabTitle URL ((readCurrentUrl b).getD c.url)
      | .absent => getTabTitle URL ((readCurrentUrl b).getD c.url) := by
  have hurl : (readCurrentUrl b).getD
      (reconcileNavigation b (reconcileAddress URL (readCurrentUrl b) c)).url =
      (readCurrentUrl b).getD c.url := by
    rw [(reconcileNavigation_frame b _).2.1, reconcileAddress_getD_url]
  have htitle : (reconcileNavigation b (reconcileAddress URL (readCurrentUrl b) c)).title =
      c.title := by
    rw [(reconcileNavigation_frame b _).2.2.1, (reconcileAddress_frame URL _ c).2.1]
  unfold updateContainerTitleOn reconcileTitle
  simp only
  split
  · exact htitle
  · split
    · rfl
    · rw [applyFallbackTitle_title, hurl]
  · rw [applyFallbackTitle_title, hurl]

theorem readPageTitle_value_ne_nil (b : Surface) (t : Str) (h : readPageTitle b = .value t) :
    t ≠ [] := by
  unfold readPageTitle at h
  simp only at h
  split at h
  · cases h
  · split at h
    · cases h; assumption
    · split at h
      · cases h
      · split at h
        · cases h; assumption
        · cases h
      · cases h
  · split at h
    · cases h
    · split at h
      · cases h; assumption
      · cases h
    · cases h

/-- C10, as stated, fails when the live page title is a single no-break space (U+00A0):
that title is non-empty and is none of the known placeholders, yet after the pass the
stored title is not the page title but the URL-derived `sub.example.org`. -/
theorem C10_counterexample :
    oneContainerState.ids = [1] ∧
    readPageTitle (titleOnlySurface [Char.ofNat 160]) = .value [Char.ofNat 160] ∧
    [Char.ofNat 160] ≠ ([] : Str) ∧
    isKnownPlaceholder [Char.ofNat 160] = false ∧
    ((updateContainerTitle sampleConfig 1 (titleOnlySurface [Char.ofNat 160])
        oneContainerState).get 1).map (fun c => c.title) = some "sub.example.org".toList ∧
    ((updateContainerTitle sampleConfig 1 (titleOnlySurface [Char.ofNat 160])
        oneContainerState).get 1).map (fun c => c.title) ≠ some [Char.ofNat 160] := by
  decide

/-- C10, amended: after a reconciliation pass on a registered container, the stored title is
the live page title if that title is non-empty after trimming, is not `Loading...`,
`New Tab` or `about:blank` and does not start with `http`; it is `getTabTitle` of the
address the surface reports (of the stored url when it reports none) if the live page title
is missing, empty or white space only, is `Loading...` or `New Tab`, or starts with `http`;
and it is the title stored before the pass if reading the page title throws. -/
theorem C10_title_reconciliation (cfg : Config) (s : State) (id : Nat) (b : Surface)
    (hreg : id ∈ s.ids) :
    ((updateContainerTitle cfg id b s).get id).isSome ∧
    (∀ t : Str, readPageTitle b = .value t → trim t ≠ [] → t ≠ "Loading...".toList →
      t ≠ "New Tab".toList → t ≠ "about:blank".toList → startsWith t "http".toList = false →
      ((updateContainerTitle cfg id b s).get id).map (fun c => c.title) = some t) ∧
    ((readPageTitle b = .absent ∨
        ∃ t : Str, readPageTitle b = .value t ∧
          (trim t = [] ∨ t = "Loading...".toList ∨ t = "New Tab".toList ∨
            startsWith t "http".toList = true)) →
      ((updateContainerTitle cfg id b s).get id).map (fun c => c.title) =
        (s.get id).map (fun c => getTabTitle cfg.URL ((readCurrentUrl b).getD c.url))) ∧
    (readPageTitle b = .threw →
      ((updateContainerTitle cfg id b s).get id).map (fun c => c.title) =
        (s.get id).map (fun c => c.title)) := by
  have hsome := get_isSome_of_mem_ids s id hreg
  obtain ⟨c, hc⟩ := Option.isSome_iff_exists.mp hsome
  have hget := get_updateContainerTitle cfg id b s
  rw [hc] at hget
  have htitle := updateContainerTitleOn_title cfg.URL b c
  simp only [hget, hc, Option.map_some', Option.isSome_some, Option.some.injEq, true_and]
  refine ⟨?_, ?_, ?_⟩
  · intro t ht htrim hload hnew _ hhttp
    rw [htitle, ht]
    simp only
    rw [if_pos]
    exact (acceptsPageTitle_iff t).mpr
      ⟨readPageTitle_value_ne_nil b t ht, htrim, hload, hnew, hhttp⟩
  · intro hcase
    rw [htitle]
    rcases hcase with habs | ⟨t, ht, hrej⟩
    · rw [habs]
    · rw [ht]
      simp only
      rw [if_neg]
      intro hacc
      obtain ⟨_, h2, h3, h4, h5⟩ := (acceptsPageTitle_iff t).mp hacc
      rcases hrej with h | h | h | h
      · exact h2 h
      · exact h3 h
      · exact h4 h
      · rw [h] at h5; cases h5
  · intro hthrew
    rw [htitle, hthrew]

/-- C10 amended, on a container created from `https://sub.example.org/page`: a pass that
reads the page title `Real Page Title` stores it, and a pass that reads `Loading...` leaves
the URL-derived `sub.example.org`. -/
theorem C10_title_reconciliation_witness :
    1 ∈ oneContainerState.ids ∧
    readPageTitle (titleOnlySurface "Real Page Title".toList) = .value "Real Page Title".toList ∧
    ((updateContainerTitle sampleConfig 1 (titleOnlySurface "Real Page Title".toList)
        oneContainerState).get 1).map (fun c => c.title) = some "Real Page Title".toList ∧
    ((updateContainerTitle sampleConfig 1 (titleOnlySurface "Loading...".toList)
        oneContainerState).get 1).map (fun c => c.title) = some "sub.example.org".toList :=
  ⟨by decide, by decide,
   (C10_title_reconciliation sampleConfig oneContainerState 1
      (titleOnlySurface "Real Page Title".toList) (by decide)).2.1
      "Real Page Title".toList (by decide) (by decide) (by decide) (by decide) (by decide)
      (by decide),
   ((C10_title_reconciliation sampleConfig oneContainerState 1
      (titleOnlySurface "Loading...".toList) (by decide)).2.2.1
      (Or.inr ⟨"Loading...".toList, by decide, Or.inr (Or.inl rfl)⟩)).trans (by decide)⟩

/-! ## Taskbar refreshes of a pass -/

@[simp] theorem updateTaskbar_taskbarRefreshes (s : State) :
    (updateTaskbar s).taskbarRefreshes = s.taskbarRefreshes + 1 := by
  unfold updateTaskbar; split <;> rfl

@[simp] theorem updateTaskbar_taskbarExpanded (s : State) :
    (updateTaskbar s).taskbarExpanded = s.taskbarExpanded := by
  unfold updateTaskbar; split <;> rfl

@[simp] theorem updateRecord_taskbarRefreshes (s : State) (id : Nat)
    (f : ContainerInfo → ContainerInfo) :
    (s.updateRecord id f).taskbarRefreshes = s.taskbarRefreshes := rfl

@[simp] theorem updateRecord_taskbar (s : State) (id : Nat)
    (f : ContainerInfo → ContainerInfo) :
    (s.updateRecord id f).taskbar = s.taskbar := rfl

theorem findRecord_of_get (s : State) (id : Nat) (c : ContainerInfo)
    (h : s.get id = some c) : s.findRecord id = some c := by
  unfold State.get at h
  unfold State.findRecord
  rw [List.find?_append, h]
  rfl

theorem updateContainerTitle_of_get (cfg : Config) (id : Nat) (b : Surface) (s : State)
    (c : ContainerInfo) (h : s.get id = some c) :
    updateContainerTitle cfg id b s =
      if (updateContainerTitleOn cfg.URL b c).2 then
        updateTaskbar (s.updateRecord id (fun x => (updateContainerTitleOn cfg.URL b x).1))
      else s.updateRecord id (fun x => (updateContainerTitleOn cfg.URL b x).1) := by
  unfold updateContainerTitle
  rw [findRecord_of_get s id c h]

theorem applyFallbackTitle_snd (URL : URLParser) (u : Option Str) (c : ContainerInfo) :
    (applyFallbackTitle URL u c).2 = decide (getTabTitle URL (u.getD c.url) ≠ c.title) := by
  simp only [applyFallbackTitle]
  split
  · rename_i h; simp [h]
  · rename_i h; simp [not_not.mp h]

/-- Whether one pass calls `updateTaskbar`, by what the title accessors answered. -/
theorem updateContainerTitleOn_snd (URL : URLParser) (b : Surface) (c : ContainerInfo) :
    (updateContainerTitleOn URL b c).2 =
      match readPageTitle b with
      | .threw => false
      | .value t =>
        if acceptsPageTitle t then true
        else decide (getTabTitle URL ((readCurrentUrl b).getD c.url) ≠ c.title)
      | .absent => decide (getTabTitle URL ((readCurrentUrl b).getD c.url) ≠ c.title) := by
  have hurl : (readCurrentUrl b).getD
      (reconcileNavigation b (reconcileAddress URL (readCurrentUrl b) c)).url =
      (readCurrentUrl b).getD c.url := by
    rw [(reconcileNavigation_frame b _).2.1, reconcileAddress_getD_url]
  have htitle : (reconcileNavigation b (reconcileAddress URL (readCurrentUrl b) c)).title =
      c.title := by
    rw [(reconcileNavigation_frame b _).2.2.1, (reconcileAddress_frame URL _ c).2.1]
  unfold updateContainerTitleOn reconcileTitle
  simp only
  split
  · rfl
  · split
    · rfl
    · rw [applyFallbackTitle_snd, hurl, htitle]
  · rw [applyFallbackTitle_snd, hurl, htitle]

/-- C11: evaluation at the failing input.  A container created from
`https://sub.example.org/page` has had one pass that stored the page title
`Real Page Title`; a second pass over the same surface (same address, same page title)
leaves every container record as it was, so the title it resolves equals the stored
title, and yet it calls `updateTaskbar` once more. -/
theorem C11_second_pass_refreshes_again :
    (afterRealTitlePass.get 1).map (fun c => c.title) = some "Real Page Title".toList ∧
    readPageTitle realTitleSurface = .value "Real Page Title".toList ∧
    (updateContainerTitle sampleConfig 1 realTitleSurface afterRealTitlePass).quickTabContainers =
      afterRealTitlePass.quickTabContainers ∧
    (updateContainerTitle sampleConfig 1 realTitleSurface afterRealTitlePass).taskbar =
      afterRealTitlePass.taskbar ∧
    afterRealTitlePass.taskbarRefreshes = 2 ∧
    (updateContainerTitle sampleConfig 1 realTitleSurface afterRealTitlePass).taskbarRefreshes =
      3 := by
  decide

/-! ## Creation followed by passes -/

/-- The fields of the record a successful creation returns. -/
theorem createQuickTabContainer_record (cfg : Config) (url title : Str) (xulOk nsOk : Bool)
    (s : State) (c : ContainerInfo)
    (h : (createQuickTabContainer cfg url title xulOk nsOk s).1 = some c) :
    c.url = url ∧
    c.title = (if title ≠ [] then title else getTabTitle cfg.URL url) ∧
    c.titleHover = c.title ∧
    c.titleText = truncateText c.title 30 ∧
    c.faviconSrc = getFaviconUrl cfg.URL url ∧
    c.minimized = false ∧
    c.backDisabled = false ∧
    c.forwardDisabled = false := by
  unfold createQuickTabContainer at h
  split at h
  · cases h
  · simp only at h
    split at h
    · cases h
    · simp only [Option.some.injEq] at h
      subst h
      simp

theorem get_createQuickTabContainer (cfg : Config) (url title : Str) (xulOk nsOk : Bool)
    (s : State) (c : ContainerInfo) (hinv : Inv s)
    (h : (createQuickTabContainer cfg url title xulOk nsOk s).1 = some c) :
    (createQuickTabContainer cfg url title xulOk nsOk s).2.get c.id = some c := by
  rcases createQuickTabContainer_cases cfg url title xulOk nsOk s with
    ⟨hnone, _⟩ | ⟨c0, hsome, hcid, _, _, _, _, hreg, _, _⟩
  · rw [hnone] at h; cases h
  · rw [hsome] at h
    cases h
    have hfresh : ∀ x ∈ s.quickTabContainers, x.id ≠ c.id := by
      intro x hx; have := hinv.lt x hx; omega
    rw [mapSet_fresh _ _ hfresh] at hreg
    unfold State.get
    rw [hreg, List.find?_append]
    have hnone : s.quickTabContainers.find? (fun x => decide (x.id = c.id)) = none := by
      rw [List.find?_eq_none]
      intro x hx
      simpa using hfresh x hx
    rw [hnone]
    simp

theorem get_title_after_pass (cfg : Config) (id : Nat) (b : Surface) (s : State)
    (c : ContainerInfo) (h : s.get id = some c) :
    ((updateContainerTitle cfg id b s).get id).map (fun x => x.title) =
      some (updateContainerTitleOn cfg.URL b c).1.title := by
  rw [get_updateContainerTitle, h]
  rfl

theorem taskbarRefreshes_after_pass (cfg : Config) (id : Nat) (b : Surface) (s : State)
    (c : ContainerInfo) (h : s.get id = some c) :
    (updateContainerTitle cfg id b s).taskbarRefreshes =
      s.taskbarRefreshes + (if (updateContainerTitleOn cfg.URL b c).2 then 1 else 0) := by
  rw [updateContainerTitle_of_get cfg id b s c h]
  split <;> simp

theorem taskbar_after_quiet_pass (cfg : Config) (id : Nat) (b : Surface) (s : State)
    (c : ContainerInfo) (h : s.get id = some c)
    (hquiet : (updateContainerTitleOn cfg.URL b c).2 = false) :
    (updateContainerTitle cfg id b s).taskbar = s.taskbar := by
  rw [updateContainerTitle_of_get cfg id b s c h, hquiet]
  simp

/-- C12: a container created from a url with no explicit title stores `getTabTitle(url)` as
its title (`sub.example.org` for `https://sub.example.org/page`); a pass right after the
creation in which the surface still reports that address and the live page title is
`Loading...` leaves the stored title and the taskbar as they were and calls `updateTaskbar`
zero times; and a later pass that observes a real page title (non-empty after trimming, no
placeholder, not starting with `http`), such as `Real Page Title`, stores it and calls
`updateTaskbar` exactly once. -/
theorem C12_initial_title_then_passes (cfg : Config) (events : List Event) (url : Str)
    (xulOk nsOk : Bool) (id : Nat)
    (hcreate : (createQuickTabContainer cfg url [] xulOk nsOk
        (run cfg State.init events)).1.map (fun c => c.id) = some id) :
    let s1 := (createQuickTabContainer cfg url [] xulOk nsOk (run cfg State.init events)).2
    (s1.get id).map (fun c => c.title) = some (getTabTitle cfg.URL url) ∧
    (url = "https://sub.example.org/page".toList →
      cfg.URL url = some ⟨"sub.example.org".toList, "/page".toList⟩ →
      (s1.get id).map (fun c => c.title) = some "sub.example.org".toList) ∧
    (∀ b : Surface, readCurrentUrl b = some url →
      readPageTitle b = .value "Loading...".toList →
      ((updateContainerTitle cfg id b s1).get id).map (fun c => c.title) =
        some (getTabTitle cfg.URL url) ∧
      (updateContainerTitle cfg id b s1).taskbarRefreshes = s1.taskbarRefreshes ∧
      (updateContainerTitle cfg id b s1).taskbar = s1.taskbar) ∧
    (∀ (between : List Event) (b : Surface) (t : Str), id ∈ (run cfg s1 between).ids →
      readPageTitle b = .value t → trim t ≠ [] → t ≠ "Loading...".toList →
      t ≠ "New Tab".toList → t ≠ "about:blank".toList → startsWith t "http".toList = false →
      ((updateContainerTitle cfg id b (run cfg s1 between)).get id).map (fun c => c.title) =
        some t ∧
      (updateContainerTitle cfg id b (run cfg s1 between)).taskbarRefreshes =
        (run cfg s1 between).taskbarRefreshes + 1) := by
  intro s1
  obtain ⟨c, hc, hcid⟩ := Option.map_eq_some'.mp hcreate
  subst hcid
  have hinv : Inv (run cfg State.init events) := Inv.init.run cfg events
  have hget : s1.get c.id = some c := get_createQuickTabContainer cfg url [] xulOk nsOk _ c hinv hc
  obtain ⟨hurl, htitle, _⟩ := createQuickTabContainer_record cfg url [] xulOk nsOk _ c hc
  simp only [ne_eq, not_true_eq_false, ↓reduceIte] at htitle
  have h1 : (s1.get c.id).map (fun c => c.title) = some (getTabTitle cfg.URL url) := by
    rw [hget]; simp [htitle]
  refine ⟨h1, ?_, ?_, ?_⟩
  · intro hu hparse
    rw [h1]
    unfold getTabTitle
    rw [hparse]
    decide
  · intro b hcur hload
    have hacc : acceptsPageTitle "Loading...".toList = false := by decide
    have hquiet : (updateContainerTitleOn cfg.URL b c).2 = false := by
      rw [updateContainerTitleOn_snd, hload]
      simp only [hacc, hcur, Option.getD_some, htitle]
      simp
    refine ⟨?_, ?_, taskbar_after_quiet_pass cfg c.id b s1 c hget hquiet⟩
    · rw [get_title_after_pass cfg c.id b s1 c hget, updateContainerTitleOn_title, hload]
      simp only [hacc, hcur, Option.getD_some]
      simp
    · rw [taskbarRefreshes_after_pass cfg c.id b s1 c hget, hquiet]
      simp
  · intro between b t hmem ht htrim hload hnew _ hhttp
    obtain ⟨d, hd⟩ := Option.isSome_iff_exists.mp (get_isSome_of_mem_ids _ _ hmem)
    have hacc : acceptsPageTitle t = true :=
      (acceptsPageTitle_iff t).mpr ⟨readPageTitle_value_ne_nil b t ht, htrim, hload, hnew, hhttp⟩
    constructor
    · rw [get_title_after_pass cfg c.id b _ d hd, updateContainerTitleOn_title, ht]
      simp [hacc]
    · rw [taskbarRefreshes_after_pass cfg c.id b _ d hd, updateContainerTitleOn_snd, ht]
      simp [hacc]

/-- C12 on `https://sub.example.org/page`: the created container has id 1 and title
`sub.example.org`; after a `Loading...` pass, a pass that observes `Real Page Title`
stores it and adds exactly one refresh (from 1 to 2). -/
theorem C12_initial_title_then_passes_witness :
    (createQuickTabContainer sampleConfig "https://sub.example.org/page".toList [] true true
        (run sampleConfig State.init [])).1.map (fun c => c.id) = some 1 ∧
    (oneContainerState.get 1).map (fun c => c.title) = some "sub.example.org".toList ∧
    ((updateContainerTitle sampleConfig 1 realTitleSurface
        (run sampleConfig oneContainerState
          [.reconcile 1 (pageSurface "https://sub.example.org/page".toList
            "Loading...".toList)])).get 1).map (fun c => c.title) =
      some "Real Page Title".toList ∧
    (updateContainerTitle sampleConfig 1 realTitleSurface
        (run sampleConfig oneContainerState
          [.reconcile 1 (pageSurface "https://sub.example.org/page".toList
            "Loading...".toList)])).taskbarRefreshes = 1 + 1 :=
  ⟨by decide,
   (C12_initial_title_then_passes sampleConfig [] "https://sub.example.org/page".toList
      true true 1 (by decide)).2.1 rfl (by decide),
   ((C12_initial_title_then_passes sampleConfig [] "https://sub.example.org/page".toList
      true true 1 (by decide)).2.2.2
      [.reconcile 1 (pageSurface "https://sub.example.org/page".toList "Loading...".toList)]
      realTitleSurface "Real Page Title".toList (by decide) (by decide) (by decide)
      (by decide) (by decide) (by decide) (by decide)).1,
   ((C12_initial_title_then_passes sampleConfig [] "https://sub.example.org/page".toList
      true true 1 (by decide)).2.2.2
      [.reconcile 1 (pageSurface "https://sub.example.org/page".toList "Loading...".toList)]
      realTitleSurface "Real Page Title".toList (by decide) (by decide) (by decide)
      (by decide) (by decide) (by decide) (by decide)).2.trans (by decide)⟩

/-! ## Address and navigation steps of a pass -/

theorem applyFallbackTitle_presentation (URL : URLParser) (u : Option Str) (c : ContainerInfo) :
    (applyFallbackTitle URL u c).1.faviconSrc = c.faviconSrc ∧
    (applyFallbackTitle URL u c).1.backDisabled = c.backDisabled ∧
    (applyFallbackTitle URL u c).1.forwardDisabled = c.forwardDisabled := by
  simp only [applyFallbackTitle]
  split <;> simp

theorem reconcileTitle_presentation (URL : URLParser) (b : Surface) (u : Option Str)
    (c : ContainerInfo) :
    (reconcileTitle URL b u c).1.faviconSrc = c.faviconSrc ∧
    (reconcileTitle URL b u c).1.backDisabled = c.backDisabled ∧
    (reconcileTitle URL b u c).1.forwardDisabled = c.forwardDisabled := by
  unfold reconcileTitle
  split
  · simp
  · split
    · simp
    · exact applyFallbackTitle_presentation URL u c
  · exact applyFallbackTitle_presentation URL u c

theorem reconcileNavigation_faviconSrc (b : Surface) (c : ContainerInfo) :
    (reconcileNavigation b c).faviconSrc = c.faviconSrc := by
  unfold reconcileNavigation
  split <;> rfl

/-- The stored url and the favicon source after one pass are those of the address step. -/
theorem updateContainerTitleOn_address (URL : URLParser) (b : Surface) (c : ContainerInfo) :
    (updateContainerTitleOn URL b c).1.url = (reconcileAddress URL (readCurrentUrl b) c).url ∧
    (updateContainerTitleOn URL b c).1.faviconSrc =
      (reconcileAddress URL (readCurrentUrl b) c).faviconSrc := by
  unfold updateContainerTitleOn
  simp only
  rw [(reconcileTitle_frame URL b _ _).2.1, (reconcileTitle_presentation URL b _ _).1,
    (reconcileNavigation_frame b _).2.1, reconcileNavigation_faviconSrc]
  exact ⟨rfl, rfl⟩

/-- The two buttons after one pass are those of the navigation step. -/
theorem updateContainerTitleOn_buttons (URL : URLParser) (b : Surface) (c : ContainerInfo) :
    (updateContainerTitleOn URL b c).1.backDisabled =
      (match resolveNavigation b with
       | some (canGoBack, _) => !canGoBack
       | none => false) ∧
    (updateContainerTitleOn URL b c).1.forwardDisabled =
      (match resolveNavigation b with
       | some (_, canGoForward) => !canGoForward
       | none => false) := by
  unfold updateContainerTitleOn
  simp only
  rw [(reconcileTitle_presentation URL b _ _).2.1, (reconcileTitle_presentation URL b _ _).2.2]
  unfold reconcileNavigation
  split <;> simp_all

theorem reconcileAddress_changed (URL : URLParser) (u : Str) (c : ContainerInfo)
    (hne : u ≠ c.url) (habout : startsWith u "about:".toList = false) :
    reconcileAddress URL (some u) c = { c with url := u, faviconSrc := getFaviconUrl URL u } := by
  unfold reconcileAddress
  simp only
  rw [if_pos ⟨hne, habout⟩]

theorem reconcileAddress_kept (URL : URLParser) (u : Str) (c : ContainerInfo)
    (h : startsWith u "about:".toList = true ∨ u = c.url) :
    reconcileAddress URL (some u) c = c := by
  unfold reconcileAddress
  simp only
  rw [if_neg]
  rintro ⟨hne, habout⟩
  rcases h with h | h
  · rw [h] at habout; cases habout
  · exact hne h

/-- C13: after a pass on a registered container, if the surface reports an address that
does not start with `about:` and differs from the stored url, the stored url is that
address and the favicon source is `getFaviconUrl` of it; if the surface reports no address
(in particular when reading it throws), an address starting with `about:`, or the stored
url itself, url and favicon source are as before the pass. -/
theorem C13_address_reconciliation (cfg : Config) (s : State) (id : Nat) (b : Surface)
    (hreg : id ∈ s.ids) :
    (∀ u : Str, readCurrentUrl b = some u → startsWith u "about:".toList = false →
      (s.get id).map (fun c => c.url) ≠ some u →
      ((updateContainerTitle cfg id b s).get id).map (fun c => c.url) = some u ∧
      ((updateContainerTitle cfg id b s).get id).map (fun c => c.faviconSrc) =
        some (getFaviconUrl cfg.URL u)) ∧
    ((readCurrentUrl b = none ∨
        ∃ u : Str, readCurrentUrl b = some u ∧
          (startsWith u "about:".toList = true ∨ (s.get id).map (fun c => c.url) = some u)) →
      ((updateContainerTitle cfg id b s).get id).map (fun c => c.url) =
        (s.get id).map (fun c => c.url) ∧
      ((updateContainerTitle cfg id b s).get id).map (fun c => c.faviconSrc) =
        (s.get id).map (fun c => c.faviconSrc)) ∧
    (b.currentURISpec = .threw → readCurrentUrl b = none) ∧
    (b.currentURISpec = .absent → b.locationHref = .threw → readCurrentUrl b = none) ∧
    (b.currentURISpec = .absent → b.locationHref = .absent → readCurrentUrl b = none) ∧
    (∀ u : Str, u ≠ [] → b.currentURISpec = .value u → readCurrentUrl b = some u) := by
  obtain ⟨c, hc⟩ := Option.isSome_iff_exists.mp (get_isSome_of_mem_ids s id hreg)
  have hget := get_updateContainerTitle cfg id b s
  rw [hc] at hget
  have haddr := updateContainerTitleOn_address cfg.URL b c
  simp only [hget, hc, Option.map_some', Option.some.injEq, haddr.1, haddr.2]
  refine ⟨?_, ?_, ?_, ?_, ?_, ?_⟩
  · intro u hu habout hne
    have hne2 : u ≠ c.url := fun h => hne (h ▸ rfl)
    rw [hu, reconcileAddress_changed cfg.URL u c hne2 habout]
    exact ⟨rfl, rfl⟩
  · intro hcase
    rcases hcase with hnone | ⟨u, hu, hcase⟩
    · rw [hnone]; exact ⟨rfl, rfl⟩
    · rw [hu, reconcileAddress_kept cfg.URL u c]
      · exact ⟨rfl, rfl⟩
      · rcases hcase with habout | hsame
        · exact Or.inl habout
        · exact Or.inr hsame.symm
  · intro h; simp [readCurrentUrl, h]
  · intro h1 h2; simp [readCurrentUrl, h1, h2]
  · intro h1 h2; simp [readCurrentUrl, h1, h2]
  · intro u hu h; simp [readCurrentUrl, h, hu]

/-- C13 on a container created from `https://example.com/x`: a pass whose surface reports
`https://www.example.com/x` stores that address and its favicon source, and a pass whose
surface reports `about:blank` changes neither. -/
theorem C13_address_reconciliation_witness :
    1 ∈ (run sampleConfig State.init [.create "https://example.com/x".toList [] true true]).ids ∧
    readCurrentUrl (addressSurface "https://www.example.com/x".toList) =
      some "https://www.example.com/x".toList ∧
    ((updateContainerTitle sampleConfig 1 (addressSurface "https://www.example.com/x".toList)
        (run sampleConfig State.init
          [.create "https://example.com/x".toList [] true true])).get 1).map
        (fun c => c.url) = some "https://www.example.com/x".toList ∧
    ((updateContainerTitle sampleConfig 1 (addressSurface "about:blank".toList)
        (run sampleConfig State.init
          [.create "https://example.com/x".toList [] true true])).get 1).map
        (fun c => c.url) = some "https://example.com/x".toList :=
  ⟨by decide, by decide,
   ((C13_address_reconciliation sampleConfig
      (run sampleConfig State.init [.create "https://example.com/x".toList [] true true]) 1
      (addressSurface "https://www.example.com/x".toList) (by decide)).1
      "https://www.example.com/x".toList (by decide) (by decide) (by decide)).1,
   ((C13_address_reconciliation sampleConfig
      (run sampleConfig State.init [.create "https://example.com/x".toList [] true true]) 1
      (addressSurface "about:blank".toList) (by decide)).2.1
      (Or.inr ⟨"about:blank".toList, by decide, Or.inl (by decide)⟩)).1.trans (by decide)⟩

/-- C14: a pass on a registered container resolves `(canGoBack, canGoForward)` to the two
values of `webNavigation` when that accessor exists and answers; when it does not exist and
the history accessor exists and answers, to `(history.length > 1, false)`, so this strategy
never reports `canGoForward = true`; and when neither accessor exists, to `(true, true)`.
After the pass `backButton.disabled` is the negation of `canGoBack` and
`forwardButton.disabled` the negation of `canGoForward`. -/
theorem C14_navigation_reconciliation (cfg : Config) (s : State) (id : Nat) (b : Surface)
    (hreg : id ∈ s.ids) :
    (∀ canGoBack canGoForward : Bool, b.webNavigation = .answered canGoBack canGoForward →
      resolveNavigation b = some (canGoBack, canGoForward) ∧
      ((updateContainerTitle cfg id b s).get id).map (fun c => c.backDisabled) =
        some (!canGoBack) ∧
      ((updateContainerTitle cfg id b s).get id).map (fun c => c.forwardDisabled) =
        some (!canGoForward)) ∧
    (∀ length : Nat, b.webNavigation = .absent → b.history = .answered length →
      resolveNavigation b = some (decide (length > 1), false) ∧
      ((updateContainerTitle cfg id b s).get id).map (fun c => c.backDisabled) =
        some (!decide (length > 1)) ∧
      ((updateContainerTitle cfg id b s).get id).map (fun c => c.forwardDisabled) =
        some true) ∧
    (b.webNavigation = .absent → b.history = .absent →
      resolveNavigation b = some (true, true) ∧
      ((updateContainerTitle cfg id b s).get id).map (fun c => c.backDisabled) = some false ∧
      ((updateContainerTitle cfg id b s).get id).map (fun c => c.forwardDisabled) =
        some false) := by
  obtain ⟨c, hc⟩ := Option.isSome_iff_exists.mp (get_isSome_of_mem_ids s id hreg)
  have hget := get_updateContainerTitle cfg id b s
  rw [hc] at hget
  have hbtn := updateContainerTitleOn_buttons cfg.URL b c
  simp only [hget, Option.map_some', Option.some.injEq, hbtn.1, hbtn.2]
  refine ⟨?_, ?_, ?_⟩
  · intro x y h
    have hres : resolveNavigation b = some (x, y) := by simp [resolveNavigation, h]
    rw [hres]
    exact ⟨rfl, rfl, rfl⟩
  · intro n h1 h2
    have hres : resolveNavigation b = some (decide (n > 1), false) := by
      simp [resolveNavigation, h1, h2]
    rw [hres]
    exact ⟨rfl, rfl, rfl⟩
  · intro h1 h2
    have hres : resolveNavigation b = some (true, true) := by
      simp [resolveNavigation, h1, h2]
    rw [hres]
    exact ⟨rfl, rfl, rfl⟩

/-- C14 on a container with id 1: a surface whose `webNavigation` answers `(true, false)`
leaves the back button enabled and the forward button disabled; a surface with no
`webNavigation` and a history of length 3 does the same; a surface with neither accessor
leaves both enabled. -/
theorem C14_navigation_reconciliation_witness :
    1 ∈ oneContainerState.ids ∧
    ((updateContainerTitle sampleConfig 1
        { silentSurface with webNavigation := .answered true false }
        oneContainerState).get 1).map (fun c => (c.backDisabled, c.forwardDisabled)) =
      some (false, true) ∧
    ((updateContainerTitle sampleConfig 1 { silentSurface with history := .answered 3 }
        oneContainerState).get 1).map (fun c => c.forwardDisabled) = some true ∧
    ((updateContainerTitle sampleConfig 1 silentSurface
        oneContainerState).get 1).map (fun c => c.backDisabled) = some false :=
  ⟨by decide, by decide,
   ((C14_navigation_reconciliation sampleConfig oneContainerState 1
      { silentSurface with history := .answered 3 } (by decide)).2.1 3 rfl rfl).2.2,
   ((C14_navigation_reconciliation sampleConfig oneContainerState 1 silentSurface
      (by decide)).2.2 rfl rfl).2.1⟩

/-- C15: evaluation at the failing input.  Right after a successful creation on the freshly
loaded script, with no navigation yet, `backButton.disabled` and `forwardButton.disabled`
are both false, so both buttons are enabled; the one-second callback then disables them on
a surface with no navigation accessor, and the next pass on that same surface enables both
again, still without any navigation. -/
theorem C15_buttons_enabled_at_creation :
    (createQuickTabContainer sampleConfig "https://sub.example.org/page".toList [] true true
        State.init).1.map (fun c => (c.backDisabled, c.forwardDisabled)) = some (false, false) ∧
    (oneContainerState.get 1).map (fun c => (c.backDisabled, c.forwardDisabled)) =
      some (false, false) ∧
    ((run sampleConfig oneContainerState [.initialButtons 1 silentSurface]).get 1).map
        (fun c => (c.backDisabled, c.forwardDisabled)) = some (true, true) ∧
    ((run sampleConfig oneContainerState
        [.initialButtons 1 silentSurface, .reconcile 1 silentSurface]).get 1).map
        (fun c => (c.backDisabled, c.forwardDisabled)) = some (false, false) := by
  decide

/-! ## Taskbar rows -/

theorem updateTaskbar_taskbar (s : State) :
    (updateTaskbar s).taskbar =
      some { createTaskbar s with
        display := if s.quickTabContainers.length = 0 then .displayNone else .displayBlock
        items := s.quickTabContainers.map taskbarItem } := by
  by_cases h : s.quickTabContainers.length = 0
  · have hnil := List.length_eq_zero.mp h
    unfold updateTaskbar
    simp only
    rw [if_pos h, if_pos h, hnil]
    rfl
  · unfold updateTaskbar
    simp only
    rw [if_neg h, if_neg h]

theorem taskbarItems_updateTaskbar (s : State) :
    (updateTaskbar s).taskbarItems = s.quickTabContainers.map taskbarItem := by
  unfold State.taskbarItems
  rw [updateTaskbar_taskbar]

theorem taskbarDisplay_updateTaskbar (s : State) :
    (updateTaskbar s).taskbarDisplay =
      some (if s.quickTabContainers.length = 0 then .displayNone else .displayBlock) := by
  unfold State.taskbarDisplay
  rw [updateTaskbar_taskbar]
  rfl

theorem truncateText_of_le (text : Str) (max : Nat) (h : text.length ≤ max) :
    truncateText text max = text := by
  unfold truncateText
  rw [if_pos (Or.inr h)]

theorem truncateText_of_gt (text : Str) (max : Nat) (h : max < text.length) :
    truncateText text max = text.take (max - 3) ++ "...".toList := by
  unfold truncateText
  rw [if_neg]
  rintro (h0 | h0)
  · rw [h0] at h; simp at h
  · omega

theorem truncateText_length_le (text : Str) (max : Nat) (hmax : 3 ≤ max) :
    (truncateText text max).length ≤ max := by
  by_cases h : text.length ≤ max
  · rw [truncateText_of_le text max h]; exact h
  · rw [truncateText_of_gt text max (by omega), List.length_append, List.length_take]
    have : "...".toList.length = 3 := rfl
    omega

/-- C16: after `updateTaskbar` on a non-empty registry the taskbar is shown and has exactly
one row per registered container, in registry order; row i refers to container i and
carries its favicon source, its title cut by `truncateText` to at most 25 characters, its
full title as hover text, and the `minimized` class exactly when container i is minimized;
so a minimized container still has its row. -/
theorem C16_taskbar_rows (s : State) (hne : s.quickTabContainers ≠ []) :
    (updateTaskbar s).taskbarDisplay = some .displayBlock ∧
    (updateTaskbar s).taskbarItems.length = s.quickTabContainers.length ∧
    (updateTaskbar s).taskbarItems.map (fun item => item.containerId) = s.ids ∧
    (updateTaskbar s).taskbarItems.map (fun item => item.faviconSrc) =
      s.quickTabContainers.map (fun c => c.faviconSrc) ∧
    (updateTaskbar s).taskbarItems.map (fun item => item.titleText) =
      s.quickTabContainers.map (fun c => truncateText c.title 25) ∧
    (updateTaskbar s).taskbarItems.map (fun item => item.titleHover) =
      s.quickTabContainers.map (fun c => c.title) ∧
    (updateTaskbar s).taskbarItems.map (fun item => item.classMinimized) =
      s.quickTabContainers.map (fun c => c.minimized) ∧
    (∀ item ∈ (updateTaskbar s).taskbarItems, item.titleText.length ≤ 25) ∧
    (∀ c ∈ s.quickTabContainers, c.minimized = true →
      ∃ item ∈ (updateTaskbar s).taskbarItems,
        item.containerId = c.id ∧ item.classMinimized = true) := by
  have hlen : s.quickTabContainers.length ≠ 0 := fun h => hne (List.length_eq_zero.mp h)
  rw [taskbarDisplay_updateTaskbar, taskbarItems_updateTaskbar, if_neg hlen]
  refine ⟨rfl, by simp, ?_, ?_, ?_, ?_, ?_, ?_, ?_⟩
  · simp only [List.map_map, State.ids]; rfl
  · simp only [List.map_map]; rfl
  · simp only [List.map_map]; rfl
  · simp only [List.map_map]; rfl
  · simp only [List.map_map]; rfl
  · intro item hitem
    obtain ⟨c, _, rfl⟩ := List.mem_map.mp hitem
    exact truncateText_length_le c.title 25 (by decide)
  · intro c hc hmin
    exact ⟨taskbarItem c, List.mem_map.mpr ⟨c, hc, rfl⟩, rfl, hmin⟩

/-- C16 on a registry of two containers, the first minimized: the refreshed taskbar has two
rows, for containers 1 and 2 in that order, and the first carries the `minimized` class. -/
theorem C16_taskbar_rows_witness :
    (minimizeContainer 1 fullState).quickTabContainers ≠ [] ∧
    (updateTaskbar (minimizeContainer 1 fullState)).taskbarItems.map
        (fun item => item.containerId) = [1, 2] ∧
    (updateTaskbar (minimizeContainer 1 fullState)).taskbarItems.map
        (fun item => item.classMinimized) = [true, false] :=
  ⟨by decide,
   (C16_taskbar_rows (minimizeContainer 1 fullState) (by decide)).2.2.1.trans (by decide),
   (C16_taskbar_rows (minimizeContainer 1 fullState) (by decide)).2.2.2.2.2.2.1.trans
      (by decide)⟩

/-- C17: after `updateTaskbar` the taskbar has `display: none` if and only if the registry
is empty, and has no rows if and only if the registry is empty; and a successful
`createQuickTabContainer` on an empty registry leaves the taskbar shown (`display: block`)
with exactly one row. -/
theorem C17_taskbar_hidden_iff_empty (s : State) :
    ((updateTaskbar s).taskbarDisplay = some .displayNone ↔ s.quickTabContainers = []) ∧
    ((updateTaskbar s).taskbarItems = [] ↔ s.quickTabContainers = []) ∧
    (∀ (cfg : Config) (url title : Str) (xulOk nsOk : Bool),
      s.quickTabContainers = [] →
      (createQuickTabContainer cfg url title xulOk nsOk s).1.isSome →
      (createQuickTabContainer cfg url title xulOk nsOk s).2.taskbarDisplay =
        some .displayBlock ∧
      (createQuickTabContainer cfg url title xulOk nsOk s).2.taskbarItems.length = 1) := by
  refine ⟨?_, ?_, ?_⟩
  · rw [taskbarDisplay_updateTaskbar]
    constructor
    · intro h
      by_cases hlen : s.quickTabContainers.length = 0
      · exact List.length_eq_zero.mp hlen
      · rw [if_neg hlen] at h; cases h
    · intro h
      rw [h]; rfl
  · rw [taskbarItems_updateTaskbar]
    exact List.map_eq_nil_iff
  · intro cfg url title xulOk nsOk hempty hsome
    unfold createQuickTabContainer at hsome ⊢
    split
    · rename_i h; rw [if_pos h] at hsome; cases hsome
    · rename_i h
      rw [if_neg h] at hsome
      simp only at hsome ⊢
      split
      · rename_i hb; rw [hb] at hsome; cases hsome
      · simp only [taskbarDisplay_updateTaskbar, taskbarItems_updateTaskbar, hempty, mapSet]
        simp

/-- C17 on the freshly loaded script: the registry is empty, a refresh hides the taskbar,
and the first successful creation shows it with one row. -/
theorem C17_taskbar_hidden_iff_empty_witness :
    State.init.quickTabContainers = [] ∧
    (updateTaskbar State.init).taskbarDisplay = some .displayNone ∧
    (createQuickTabContainer sampleConfig "https://example.com/x".toList [] true true
        State.init).1.isSome ∧
    (createQuickTabContainer sampleConfig "https://example.com/x".toList [] true true
        State.init).2.taskbarItems.length = 1 :=
  ⟨rfl,
   (C17_taskbar_hidden_iff_empty State.init).1.mpr rfl,
   by decide,
   ((C17_taskbar_hidden_iff_empty State.init).2.2 sampleConfig "https://example.com/x".toList []
      true true rfl (by decide)).2⟩

/-- C18, as stated, fails on a session that creates one container, expands the taskbar and
closes the container: the close-transition callback runs `updateTaskbar` with zero
registered containers, the taskbar is hidden, and `taskbarExpanded` is still true
afterwards; a further refresh on that empty registry leaves it true as well. -/
theorem C18_counterexample :
    expandedClosingState.taskbarExpanded = true ∧
    (step sampleConfig expandedClosingState (.closeDone 1)).quickTabContainers = [] ∧
    (step sampleConfig expandedClosingState (.closeDone 1)).taskbarRefreshes =
      expandedClosingState.taskbarRefreshes + 1 ∧
    (step sampleConfig expandedClosingState (.closeDone 1)).taskbarDisplay =
      some .displayNone ∧
    (step sampleConfig expandedClosingState (.closeDone 1)).taskbarExpanded = true ∧
    (updateTaskbar (step sampleConfig expandedClosingState (.closeDone 1))).taskbarExpanded =
      true := by
  decide

/-- C18, amended: whenever `updateTaskbar` runs with zero registered containers, the taskbar
is hidden (`display: none`, no rows) and the view state is left as it was:
`taskbarExpanded` and the taskbar's expanded or collapsed class keep the values they had
before the refresh (a taskbar created by this refresh starts collapsed). -/
theorem C18_refresh_keeps_view_state (s : State) (hempty : s.quickTabContainers = []) :
    (updateTaskbar s).taskbarExpanded = s.taskbarExpanded ∧
    (updateTaskbar s).taskbarDisplay = some .displayNone ∧
    (updateTaskbar s).taskbarItems = [] ∧
    (updateTaskbar s).taskbar.map (fun taskbar => taskbar.classExpanded) =
      some ((s.taskbar.map (fun taskbar => taskbar.classExpanded)).getD false) := by
  refine ⟨updateTaskbar_taskbarExpanded s, ?_, ?_, ?_⟩
  · rw [taskbarDisplay_updateTaskbar, hempty]; rfl
  · rw [taskbarItems_updateTaskbar, hempty]; rfl
  · rw [updateTaskbar_taskbar]
    unfold createTaskbar
    cases s.taskbar <;> rfl

/-- C18 amended, on the state reached once the last container's close transition has
completed with the taskbar expanded: a refresh keeps `taskbarExpanded = true`. -/
theorem C18_refresh_keeps_view_state_witness :
    (step sampleConfig expandedClosingState (.closeDone 1)).quickTabContainers = [] ∧
    (updateTaskbar (step sampleConfig expandedClosingState (.closeDone 1))).taskbarExpanded =
      true ∧
    (updateTaskbar (step sampleConfig expandedClosingState (.closeDone 1))).taskbarDisplay =
      some .displayNone :=
  ⟨by decide,
   (C18_refresh_keeps_view_state (step sampleConfig expandedClosingState (.closeDone 1))
      (by decide)).1.trans (by decide),
   (C18_refresh_keeps_view_state (step sampleConfig expandedClosingState (.closeDone 1))
      (by decide)).2.1⟩

/-- C19: evaluation at the failing input.  A container is created from
`https://example.com/x`, and the taskbar row shows its favicon; a pass then observes the
address `https://www.example.com/x` with the page title still `Loading...`: the stored url
and the container's favicon source change, the resolved title `example.com` is the stored
one, `updateTaskbar` is not called, and the taskbar row keeps the old favicon source, which
is no longer the container's. -/
theorem C19_stale_favicon_row :
    (run sampleConfig State.init
        [.create "https://example.com/x".toList [] true true]).taskbarItems.map
        (fun item => item.faviconSrc) =
      (run sampleConfig State.init
        [.create "https://example.com/x".toList [] true true]).quickTabContainers.map
        (fun c => c.faviconSrc) ∧
    redirectedState.quickTabContainers.map (fun c => c.url) =
      ["https://www.example.com/x".toList] ∧
    redirectedState.quickTabContainers.map (fun c => c.title) = ["example.com".toList] ∧
    redirectedState.quickTabContainers.map (fun c => c.faviconSrc) =
      [getFaviconUrl tableURL "https://www.example.com/x".toList] ∧
    redirectedState.taskbarItems.map (fun item => item.faviconSrc) =
      [getFaviconUrl tableURL "https://example.com/x".toList] ∧
    redirectedState.taskbarItems.map (fun item => item.faviconSrc) ≠
      redirectedState.quickTabContainers.map (fun c => c.faviconSrc) ∧
    redirectedState.taskbarRefreshes =
      (run sampleConfig State.init
        [.create "https://example.com/x".toList [] true true]).taskbarRefreshes := by
  decide

/-! ## Labels and hover texts -/

theorem labelOk_reconcileAddress {c : ContainerInfo} (h : LabelOk c) (URL : URLParser)
    (u : Option Str) : LabelOk (reconcileAddress URL u c) := by
  unfold reconcileAddress
  split
  · split
    · exact h
    · exact h
  · exact h

theorem labelOk_reconcileNavigation {c : ContainerInfo} (h : LabelOk c) (b : Surface) :
    LabelOk (reconcileNavigation b c) := by
  unfold reconcileNavigation
  split <;> exact h

theorem labelOk_applyFallbackTitle {c : ContainerInfo} (h : LabelOk c) (URL : URLParser)
    (u : Option Str) : LabelOk (applyFallbackTitle URL u c).1 := by
  simp only [applyFallbackTitle]
  split
  · exact ⟨rfl, rfl⟩
  · exact h

theorem labelOk_reconcileTitle {c : ContainerInfo} (h : LabelOk c) (URL : URLParser)
    (b : Surface) (u : Option Str) : LabelOk (reconcileTitle URL b u c).1 := by
  unfold reconcileTitle
  split
  · exact h
  · split
    · exact ⟨rfl, rfl⟩
    · exact labelOk_applyFallbackTitle h URL u
  · exact labelOk_applyFallbackTitle h URL u

theorem labelOk_updateContainerTitleOn {c : ContainerInfo} (h : LabelOk c) (URL : URLParser)
    (b : Surface) : LabelOk (updateContainerTitleOn URL b c).1 := by
  unfold updateContainerTitleOn
  exact labelOk_reconcileTitle (labelOk_reconcileNavigation (labelOk_reconcileAddress h URL _) b) URL b _

theorem labelOk_frontLayer {c : ContainerInfo} (h : LabelOk c) (id : Nat) :
    LabelOk (frontLayer id c) := by
  unfold frontLayer
  split
  · exact h
  · split <;> exact h

theorem rows_updateTaskbar (s : State) :
    ∀ item ∈ (updateTaskbar s).taskbarItems,
      item.titleText = truncateText item.titleHover 25 := by
  intro item hitem
  rw [taskbarItems_updateTaskbar] at hitem
  obtain ⟨c, _, rfl⟩ := List.mem_map.mp hitem
  rfl

theorem labelInv_updateTaskbar {s : State} (h : LabelInv s) : LabelInv (updateTaskbar s) where
  header := by rw [updateTaskbar_quickTabContainers]; exact h.header
  rows := rows_updateTaskbar s

theorem labelInv_congr {s t : State} (h : LabelInv s)
    (hreg : t.quickTabContainers = s.quickTabContainers) (htb : t.taskbarItems = s.taskbarItems) :
    LabelInv t where
  header := by rw [hreg]; exact h.header
  rows := by rw [htb]; exact h.rows

theorem labelInv_map {s t : State} (g : ContainerInfo → ContainerInfo) (h : LabelInv s)
    (hreg : t.quickTabContainers = s.quickTabContainers.map g)
    (hg : ∀ x, LabelOk x → LabelOk (g x)) (htb : t.taskbarItems = s.taskbarItems) :
    LabelInv t where
  header := by
    intro c hc
    rw [hreg] at hc
    obtain ⟨x, hx, rfl⟩ := List.mem_map.mp hc
    exact hg x (h.header x hx)
  rows := by rw [htb]; exact h.rows

theorem labelInv_updateRecord {s : State} (h : LabelInv s) (id : Nat)
    (f : ContainerInfo → ContainerInfo) (hf : ∀ x, LabelOk x → LabelOk (f x)) :
    LabelInv (s.updateRecord id f) := by
  refine labelInv_map (fun x => if x.id = id then f x else x) h rfl ?_ rfl
  intro x hx
  show LabelOk (if x.id = id then f x else x)
  split
  · exact hf x hx
  · exact hx

theorem labelInv_bringToFront {s : State} (h : LabelInv s) (id : Nat) :
    LabelInv (bringToFront id s) :=
  labelInv_map _ h (bringToFront_quickTabContainers id s) (fun _ hx => labelOk_frontLayer hx id) rfl

theorem labelInv_init : LabelInv State.init where
  header := by intro c hc; cases hc
  rows := by intro item hitem; cases hitem

theorem mapSet_mem (m : List ContainerInfo) (c x : ContainerInfo) (h : x ∈ mapSet m c) :
    x ∈ m ∨ x = c := by
  unfold mapSet at h
  split at h
  · obtain ⟨y, hy, rfl⟩ := List.mem_map.mp h
    split
    · exact Or.inr rfl
    · exact Or.inl hy
  · rcases List.mem_append.mp h with h | h
    · exact Or.inl h
    · exact Or.inr (List.mem_singleton.mp h)

theorem labelInv_create {s : State} (h : LabelInv s) (cfg : Config) (url title : Str)
    (xulOk nsOk : Bool) : LabelInv (createQuickTabContainer cfg url title xulOk nsOk s).2 := by
  unfold createQuickTabContainer
  split
  · exact labelInv_congr h rfl rfl
  · simp only
    split
    · exact labelInv_congr h rfl rfl
    · refine ⟨?_, rows_updateTaskbar _⟩
      rw [updateTaskbar_quickTabContainers]
      intro c hc
      rcases mapSet_mem _ _ _ hc with hc | hc
      · exact h.header c hc
      · rw [hc]
        exact ⟨rfl, rfl⟩

theorem labelInv_step {s : State} (h : LabelInv s) (cfg : Config) (e : Event) :
    LabelInv (step cfg s e) := by
  cases e with
  | create url title xulOk nsOk => exact labelInv_create h cfg url title xulOk nsOk
  | minimize id =>
    simp only [step]; split
    · exact labelInv_updateTaskbar (labelInv_updateRecord h id
        (fun x => { x with classMinimized := true, minimized := true }) (fun _ hx => hx))
    · exact h
  | restore id =>
    simp only [step]; split
    · exact labelInv_updateTaskbar (labelInv_bringToFront (labelInv_updateRecord h id
        (fun x => { x with classMinimized := false, minimized := false }) (fun _ hx => hx)) id)
    · exact h
  | close id =>
    simp only [step]; split
    · exact labelInv_congr (labelInv_updateRecord h id (fun x => { x with fading := true })
        (fun _ hx => hx)) rfl rfl
    · exact h
  | closeDone id =>
    simp only [step]; split
    · refine ⟨?_, ?_⟩
      · rw [closeTransitionDone_quickTabContainers]
        intro c hc
        exact h.header c (List.mem_filter.mp hc).1
      · exact rows_updateTaskbar _
    · exact h
  | front id =>
    simp only [step]; split
    · exact labelInv_bringToFront h id
    · exact h
  | reconcile id b =>
    simp only [step]
    unfold updateContainerTitle
    split
    · exact h
    · have h1 := labelInv_updateRecord h id (fun x => (updateContainerTitleOn cfg.URL b x).1)
        (fun _ hx => labelOk_updateContainerTitleOn hx cfg.URL b)
      simp only
      split
      · exact labelInv_updateTaskbar h1
      · exact h1
  | initialButtons id b =>
    simp only [step]; split
    · unfold initialButtonState
      split
      · exact labelInv_updateRecord h id _ (fun _ hx => hx)
      · exact labelInv_updateRecord h id _ (fun _ hx => hx)
    · exact h
  | expand =>
    simp only [step, expandTaskbar]; split
    · rename_i tb htb
      refine labelInv_congr h rfl ?_
      simp [State.taskbarItems, htb]
    · exact h
  | collapse =>
    simp only [step, collapseTaskbar]; split
    · rename_i tb htb
      refine labelInv_congr h rfl ?_
      simp [State.taskbarItems, htb]
    · exact h
  | toggle =>
    simp only [step, toggleTaskbar, expandTaskbar, collapseTaskbar]
    split <;> split <;> first
      | exact h
      | (rename_i tb htb; exact labelInv_congr h rfl (by simp [State.taskbarItems, htb]))

theorem labelInv_run {s : State} (h : LabelInv s) (cfg : Config) (events : List Event) :
    LabelInv (run cfg s events) := by
  induction events generalizing s with
  | nil => exact h
  | cons e es ih => exact ih (labelInv_step h cfg e)

/-- C20: for `max >= 3`, `truncateText` of a label longer than `max` is its first `max - 3`
characters followed by `...`, of length exactly `max`; a label of length at most `max`, the
empty label included, is returned unchanged; and in every reachable state each registered
container's header shows its title cut to 30 with the full title as hover text, and each
taskbar row shows its hover text cut to 25. -/
theorem C20_truncateText (text : Str) (max : Nat) :
    (max < text.length → 3 ≤ max →
      truncateText text max = text.take (max - 3) ++ "...".toList ∧
      (truncateText text max).length = max) ∧
    (text.length ≤ max → truncateText text max = text) ∧
    truncateText [] max = [] ∧
    (∀ (cfg : Config) (events : List Event),
      ∀ c ∈ (run cfg State.init events).quickTabContainers,
        c.titleText = truncateText c.title 30 ∧ c.titleHover = c.title) ∧
    (∀ (cfg : Config) (events : List Event),
      ∀ item ∈ (run cfg State.init events).taskbarItems,
        item.titleText = truncateText item.titleHover 25) := by
  refine ⟨?_, truncateText_of_le text max, truncateText_of_le [] max (Nat.zero_le _), ?_, ?_⟩
  · intro hgt hmax
    rw [truncateText_of_gt text max hgt]
    refine ⟨rfl, ?_⟩
    rw [List.length_append, List.length_take]
    have : "...".toList.length = 3 := rfl
    omega
  · intro cfg events c hc
    have h := (labelInv_run labelInv_init cfg events).header c hc
    exact ⟨h.2, h.1⟩
  · intro cfg events item hitem
    exact (labelInv_run labelInv_init cfg events).rows item hitem

/-- C20 on the 31-character label `A fairly long page title, again`: cut to 25 it is its
first 22 characters followed by `...`, and cut to 40 it is unchanged. -/
theorem C20_truncateText_witness :
    25 < "A fairly long page title, again".toList.length ∧
    3 ≤ 25 ∧
    truncateText "A fairly long page title, again".toList 25 =
      "A fairly long page tit...".toList ∧
    (truncateText "A fairly long page title, again".toList 25).length = 25 ∧
    truncateText "A fairly long page title, again".toList 40 =
      "A fairly long page title, again".toList :=
  ⟨by decide, by decide,
   ((C20_truncateText "A fairly long page title, again".toList 25).1 (by decide)
      (by decide)).1.trans (by decide),
   ((C20_truncateText "A fairly long page title, again".toList 25).1 (by decide)
      (by decide)).2,
   (C20_truncateText "A fairly long page title, again".toList 40).2.1 (by decide)⟩

/-! ## Titles of source tabs -/

theorem isKnownPlaceholder_eq_false_iff (title : Str) :
    isKnownPlaceholder title = false ↔
      title ≠ "New Tab".toList ∧ title ≠ "about:blank".toList ∧ title ≠ "Loading...".toList ∧
        startsWith title "http:".toList = false ∧ startsWith title "https:".toList = false := by
  unfold isKnownPlaceholder
  simp only [Bool.or_eq_false_iff, decide_eq_false_iff_not, ne_eq, and_assoc]

/-- The result of `getTabTitleFromElement` on a connected tab whose browser is resolved
without throwing. -/
theorem getTabTitleFromElement_connected (URL : URLParser) (tab : Tab)
    (hconn : tab.isConnected = true) (hb : tab.linkedBrowser ≠ .threw) :
    getTabTitleFromElement URL (some tab) =
      if tabLabel tab ≠ [] ∧ isKnownPlaceholder (tabLabel tab) = false then trim (tabLabel tab)
      else
        match tab.linkedBrowser with
        | .value browser =>
          match browser.currentURISpec with
          | .value spec =>
            if spec ≠ [] ∧ startsWith spec "about:".toList = false then getTabTitle URL spec
            else "Quick Tab".toList
          | _ => "Quick Tab".toList
        | _ => "Quick Tab".toList := by
  have hc : ¬ tab.isConnected = false := by rw [hconn]; decide
  unfold getTabTitleFromElement
  simp only
  rw [if_neg hc, if_neg hb]
  by_cases hok : tabLabel tab ≠ [] ∧ isKnownPlaceholder (tabLabel tab) = false
  · rw [if_pos hok, if_pos]
    exact ⟨hok.1, (isKnownPlaceholder_eq_false_iff _).mp hok.2⟩
  · rw [if_neg hok, if_neg]
    rintro ⟨h1, h2⟩
    exact hok ⟨h1, (isKnownPlaceholder_eq_false_iff _).mpr h2⟩

/-- C21: for a connected tab, the label is the label attribute when it is non-empty and the
label element text otherwise; if the label is non-empty and not a known placeholder,
`getTabTitleFromElement` returns it trimmed; otherwise, if the tab's browser reports an
address that does not start with `about:`, it returns `getTabTitle` of that address;
otherwise `Quick Tab`.  A missing tab and a disconnected tab give `Quick Tab`, and so does
a tab whose browser cannot be resolved without throwing. -/
theorem C21_title_from_tab (URL : URLParser) :
    (∀ tab : Tab, tab.isConnected = true → tab.linkedBrowser ≠ .threw →
      tabLabel tab ≠ [] → isKnownPlaceholder (tabLabel tab) = false →
      getTabTitleFromElement URL (some tab) = trim (tabLabel tab)) ∧
    (∀ (tab : Tab) (browser : TabBrowser) (spec : Str), tab.isConnected = true →
      tab.linkedBrowser = .value browser →
      tabLabel tab = [] ∨ isKnownPlaceholder (tabLabel tab) = true →
      browser.currentURISpec = .value spec → spec ≠ [] →
      startsWith spec "about:".toList = false →
      getTabTitleFromElement URL (some tab) = getTabTitle URL spec) ∧
    (∀ tab : Tab, tab.isConnected = true → tab.linkedBrowser ≠ .threw →
      tabLabel tab = [] ∨ isKnownPlaceholder (tabLabel tab) = true →
      (tab.linkedBrowser = .absent ∨
        ∃ browser : TabBrowser, tab.linkedBrowser = .value browser ∧
          (browser.currentURISpec = .absent ∨ browser.currentURISpec = .threw ∨
            ∃ spec : Str, browser.currentURISpec = .value spec ∧
              (spec = [] ∨ startsWith spec "about:".toList = true))) →
      getTabTitleFromElement URL (some tab) = "Quick Tab".toList) ∧
    (∀ (tab : Tab) (label : Str), tab.labelAttribute = some label → label ≠ [] →
      tabLabel tab = label) ∧
    (∀ tab : Tab, tab.labelAttribute = none ∨ tab.labelAttribute = some [] →
      tabLabel tab = tab.labelElementText.getD []) ∧
    getTabTitleFromElement URL none = "Quick Tab".toList ∧
    (∀ tab : Tab, tab.isConnected = false →
      getTabTitleFromElement URL (some tab) = "Quick Tab".toList) ∧
    (∀ tab : Tab, tab.linkedBrowser = .threw →
      getTabTitleFromElement URL (some tab) = "Quick Tab".toList) := by
  refine ⟨?_, ?_, ?_, ?_, ?_, rfl, ?_, ?_⟩
  · intro tab hconn hb hne hph
    rw [getTabTitleFromElement_connected URL tab hconn hb, if_pos ⟨hne, hph⟩]
  · intro tab browser spec hconn hbr hbad hspec hne habout
    have hb : tab.linkedBrowser ≠ .threw := by rw [hbr]; exact fun h => by cases h
    have hnot : ¬ (tabLabel tab ≠ [] ∧ isKnownPlaceholder (tabLabel tab) = false) := by
      rintro ⟨h1, h2⟩
      rcases hbad with h | h
      · exact h1 h
      · rw [h] at h2; cases h2
    rw [getTabTitleFromElement_connected URL tab hconn hb, if_neg hnot, hbr]
    simp only
    rw [hspec]
    simp only
    rw [if_pos ⟨hne, habout⟩]
  · intro tab hconn hb hbad hno
    have hnot : ¬ (tabLabel tab ≠ [] ∧ isKnownPlaceholder (tabLabel tab) = false) := by
      rintro ⟨h1, h2⟩
      rcases hbad with h | h
      · exact h1 h
      · rw [h] at h2; cases h2
    rw [getTabTitleFromElement_connected URL tab hconn hb, if_neg hnot]
    rcases hno with h | ⟨browser, hbr, hspec⟩
    · rw [h]
    · rw [hbr]
      simp only
      rcases hspec with h | h | ⟨spec, h, hspec⟩
      · rw [h]
      · rw [h]
      · rw [h]
        simp only
        rw [if_neg]
        rintro ⟨h1, h2⟩
        rcases hspec with h3 | h3
        · exact h1 h3
        · rw [h3] at h2; cases h2
  · intro tab label hl hne
    unfold tabLabel
    rw [hl]
    simp only [Option.getD_some]
    rw [if_pos hne]
  · intro tab hempty
    unfold tabLabel
    rcases hempty with h | h <;> rw [h] <;> rfl
  · intro tab hdis
    unfold getTabTitleFromElement
    simp only
    rw [if_pos hdis]
  · intro tab hthrow
    unfold getTabTitleFromElement
    simp only
    by_cases hdis : tab.isConnected = false
    · rw [if_pos hdis]
    · rw [if_neg hdis, if_pos hthrow]

/-- C21 on three connected tabs: at `https://www.example.com/x` the label ` Docs ` gives
`Docs` and the label `New Tab` gives `example.com`; with the browser at `about:blank` the
label `Loading...` gives `Quick Tab`. -/
theorem C21_title_from_tab_witness :
    getTabTitleFromElement tableURL
        (some (labelledTab " Docs ".toList "https://www.example.com/x".toList)) =
      "Docs".toList ∧
    getTabTitleFromElement tableURL
        (some (labelledTab "New Tab".toList "https://www.example.com/x".toList)) =
      "example.com".toList ∧
    getTabTitleFromElement tableURL
        (some (labelledTab "Loading...".toList "about:blank".toList)) = "Quick Tab".toList :=
  ⟨((C21_title_from_tab tableURL).1
      (labelledTab " Docs ".toList "https://www.example.com/x".toList) rfl (by decide)
      (by decide) (by decide)).trans (by decide),
   ((C21_title_from_tab tableURL).2.1
      (labelledTab "New Tab".toList "https://www.example.com/x".toList)
      { currentURISpec := .value "https://www.example.com/x".toList }
      "https://www.example.com/x".toList rfl rfl
      (Or.inr (by decide)) rfl (by decide) (by decide)).trans (by decide),
   (C21_title_from_tab tableURL).2.2.1
      (labelledTab "Loading...".toList "about:blank".toList) rfl (by decide)
      (Or.inr (by decide))
      (Or.inr ⟨{ currentURISpec := .value "about:blank".toList }, rfl,
        Or.inr (Or.inr ⟨"about:blank".toList, rfl, Or.inr (by decide)⟩)⟩)⟩

/-! ## Facade calls -/

theorem createQuickTabContainer_none_iff (cfg : Config) (url title : Str) (xulOk nsOk : Bool)
    (s : State) :
    (createQuickTabContainer cfg url title xulOk nsOk s).1 = none ↔
      (cfg.MAX_CONTAINERS ≤ s.quickTabContainers.length ∨
        createBrowserElement xulOk nsOk = none) := by
  unfold createQuickTabContainer
  split
  · rename_i h
    simp only [true_iff]
    exact Or.inl h
  · rename_i h
    simp only
    split
    · rename_i hb
      simp only [true_iff]
      exact Or.inr hb
    · rename_i b hb
      constructor
      · intro h0; cases h0
      · rintro (h0 | h0)
        · omega
        · exact absurd (hb.symm.trans h0) (by simp)

theorem mem_mapSet_self (m : List ContainerInfo) (c : ContainerInfo) : c ∈ mapSet m c := by
  unfold mapSet
  split
  · rename_i h
    obtain ⟨x, hx, hxid⟩ := List.any_eq_true.mp h
    refine List.mem_map.mpr ⟨x, hx, ?_⟩
    rw [if_pos (by simpa using hxid)]
  · exact List.mem_append_right _ (List.mem_singleton.mpr rfl)

theorem createQuickTabContainer_registered (cfg : Config) (url title : Str) (xulOk nsOk : Bool)
    (s : State) (c : ContainerInfo)
    (h : (createQuickTabContainer cfg url title xulOk nsOk s).1 = some c) :
    c ∈ (createQuickTabContainer cfg url title xulOk nsOk s).2.quickTabContainers := by
  rcases createQuickTabContainer_cases cfg url title xulOk nsOk s with
    ⟨hnone, _⟩ | ⟨c0, hsome, _, _, _, _, _, hreg, _, _⟩
  · rw [hnone] at h; cases h
  · rw [hsome] at h
    cases h
    rw [hreg]
    exact mem_mapSet_self _ _

/-- C22, as stated, fails for the empty url string: `openQuickTab('', 'Docs')` returns
`false`, which is neither a container nor `null`, and leaves the state as it was. -/
theorem C22_counterexample :
    (openQuickTab sampleConfig [] "Docs".toList true true State.init).1 = .falseValue ∧
    (openQuickTab sampleConfig [] "Docs".toList true true State.init).1 ≠ .null ∧
    (∀ c : ContainerInfo,
      (openQuickTab sampleConfig [] "Docs".toList true true State.init).1 ≠ .container c) ∧
    (openQuickTab sampleConfig [] "Docs".toList true true State.init).2 = State.init := by
  refine ⟨rfl, by decide, ?_, rfl⟩
  intro c h
  cases h

/-- C22, amended: for every non-empty url string and optional title, `openQuickTab` returns
either a container or `null`: `null` exactly when the registry is at capacity or surface
creation fails, and otherwise the newly registered container, whose url is the given url
and whose title is the given title if non-empty, else `getTabTitle(url)`.  For the empty
url it returns `false` and leaves the state as it was. -/
theorem C22_openQuickTab (cfg : Config) (s : State) (url title : Str) (xulOk nsOk : Bool) :
    (url ≠ [] →
      ((openQuickTab cfg url title xulOk nsOk s).1 = .null ∨
        ∃ c : ContainerInfo, (openQuickTab cfg url title xulOk nsOk s).1 = .container c) ∧
      ((openQuickTab cfg url title xulOk nsOk s).1 = .null ↔
        (cfg.MAX_CONTAINERS ≤ s.quickTabContainers.length ∨
          createBrowserElement xulOk nsOk = none)) ∧
      (∀ c : ContainerInfo, (openQuickTab cfg url title xulOk nsOk s).1 = .container c →
        c.url = url ∧
        c.title = (if title ≠ [] then title else getTabTitle cfg.URL url) ∧
        c ∈ (openQuickTab cfg url title xulOk nsOk s).2.quickTabContainers)) ∧
    (url = [] → openQuickTab cfg url title xulOk nsOk s = (.falseValue, s)) := by
  constructor
  · intro hurl
    have hopen : openQuickTab cfg url title xulOk nsOk s =
        (ApiResult.ofCreated (createQuickTabContainer cfg url title xulOk nsOk s).1,
          (createQuickTabContainer cfg url title xulOk nsOk s).2) := by
      unfold openQuickTab
      rw [if_neg hurl]
    rw [hopen]
    simp only
    have hiff := createQuickTabContainer_none_iff cfg url title xulOk nsOk s
    cases hc : (createQuickTabContainer cfg url title xulOk nsOk s).1 with
    | none =>
      rw [hc] at hiff
      refine ⟨Or.inl rfl, ?_, ?_⟩
      · simp only [ApiResult.ofCreated, true_iff]
        exact hiff.mp rfl
      · intro c h
        cases h
    | some c0 =>
      rw [hc] at hiff
      refine ⟨Or.inr ⟨c0, rfl⟩, ?_, ?_⟩
      · constructor
        · intro h; cases h
        · intro h
          have := hiff.mpr h
          cases this
      · intro c h
        simp only [ApiResult.ofCreated, ApiResult.container.injEq] at h
        subst h
        obtain ⟨h1, h2, _⟩ := createQuickTabContainer_record cfg url title xulOk nsOk s c0 hc
        exact ⟨h1, h2, createQuickTabContainer_registered cfg url title xulOk nsOk s c0 hc⟩
  · intro hurl
    unfold openQuickTab
    rw [if_pos hurl]

/-- C22 amended, on the freshly loaded script and on a full registry: the first call
returns a container for `https://sub.example.org/page` titled `sub.example.org`, and a
call at capacity returns `null`. -/
theorem C22_openQuickTab_witness :
    "https://sub.example.org/page".toList ≠ [] ∧
    (∃ c : ContainerInfo,
      (openQuickTab sampleConfig "https://sub.example.org/page".toList [] true true
        State.init).1 = .container c) ∧
    sampleConfig.MAX_CONTAINERS ≤ fullState.quickTabContainers.length ∧
    (openQuickTab sampleConfig "https://sub.example.org/page".toList [] true true
        fullState).1 = .null :=
  ⟨by decide,
   (((C22_openQuickTab sampleConfig State.init "https://sub.example.org/page".toList []
      true true).1 (by decide)).1).resolve_left (by decide),
   by decide,
   ((C22_openQuickTab sampleConfig fullState "https://sub.example.org/page".toList []
      true true).1 (by decide)).2.1.mpr (Or.inl (by decide))⟩

theorem openQuickTabFromCurrent_of_no_url (cfg : Config) (tab : Tab) (xulOk nsOk : Bool)
    (s : State) (h : (getTabData cfg.URL (some tab)).url = []) :
    openQuickTabFromCurrent cfg (.value tab) xulOk nsOk s = (.falseValue, s) := by
  unfold openQuickTabFromCurrent
  simp only
  rw [if_pos (Or.inl h)]

theorem getTabData_url_of_threw (URL : URLParser) (tab : Tab)
    (h : tab.linkedBrowser = .threw ∨
      ∃ browser : TabBrowser, tab.linkedBrowser = .value browser ∧
        browser.currentURISpec = .threw) :
    (getTabData URL (some tab)).url = [] := by
  unfold getTabData
  simp only
  split
  · rfl
  · rcases h with h | ⟨browser, hb, hs⟩
    · rw [h]
    · rw [hb]
      simp only
      rw [hs]

theorem getTabData_url_of_about (URL : URLParser) (tab : Tab) (browser : TabBrowser)
    (spec : Str) (hb : tab.linkedBrowser = .value browser)
    (hs : browser.currentURISpec = .value spec)
    (habout : startsWith spec "about:".toList = true) :
    (getTabData URL (some tab)).url = [] := by
  unfold getTabData
  simp only
  split
  · rfl
  · rw [hb]
    simp only
    rw [hs]
    simp only
    rw [if_neg]
    rintro ⟨_, h⟩
    rw [habout] at h
    cases h

/-- C23: `openQuickTabFromCurrent` returns `false` and leaves the whole state, the registry
included, as it was when there is no active tab, when the active tab's address is
`about:blank`, and when reading the active tab, resolving its browser or reading its
address throws. -/
theorem C23_openQuickTabFromCurrent (cfg : Config) (s : State) (xulOk nsOk : Bool) :
    openQuickTabFromCurrent cfg .absent xulOk nsOk s = (.falseValue, s) ∧
    (∀ (tab : Tab) (browser : TabBrowser), tab.linkedBrowser = .value browser →
      browser.currentURISpec = .value "about:blank".toList →
      openQuickTabFromCurrent cfg (.value tab) xulOk nsOk s = (.falseValue, s)) ∧
    openQuickTabFromCurrent cfg .threw xulOk nsOk s = (.falseValue, s) ∧
    (∀ tab : Tab, tab.linkedBrowser = .threw →
      openQuickTabFromCurrent cfg (.value tab) xulOk nsOk s = (.falseValue, s)) ∧
    (∀ (tab : Tab) (browser : TabBrowser), tab.linkedBrowser = .value browser →
      browser.currentURISpec = .threw →
      openQuickTabFromCurrent cfg (.value tab) xulOk nsOk s = (.falseValue, s)) := by
  refine ⟨rfl, ?_, rfl, ?_, ?_⟩
  · intro tab browser hb hs
    exact openQuickTabFromCurrent_of_no_url cfg tab xulOk nsOk s
      (getTabData_url_of_about cfg.URL tab browser _ hb hs (by decide))
  · intro tab hb
    exact openQuickTabFromCurrent_of_no_url cfg tab xulOk nsOk s
      (getTabData_url_of_threw cfg.URL tab (Or.inl hb))
  · intro tab browser hb hs
    exact openQuickTabFromCurrent_of_no_url cfg tab xulOk nsOk s
      (getTabData_url_of_threw cfg.URL tab (Or.inr ⟨browser, hb, hs⟩))

/-- C23 on a registry of one container: with the active tab at `about:blank`, and with an
active tab whose browser cannot be resolved, the call returns `false` and the registered
ids are still `[1]`. -/
theorem C23_openQuickTabFromCurrent_witness :
    openQuickTabFromCurrent sampleConfig
        (.value (labelledTab "New Tab".toList "about:blank".toList)) true true
        oneContainerState = (.falseValue, oneContainerState) ∧
    (openQuickTabFromCurrent sampleConfig
        (.value { labelledTab "Docs".toList [] with linkedBrowser := .threw }) true true
        oneContainerState).2.ids = [1] :=
  ⟨(C23_openQuickTabFromCurrent sampleConfig oneContainerState true true).2.1
      (labelledTab "New Tab".toList "about:blank".toList)
      { currentURISpec := .value "about:blank".toList } rfl rfl,
   (congrArg (fun r => r.2.ids)
      ((C23_openQuickTabFromCurrent sampleConfig oneContainerState true true).2.2.2.1
        { labelledTab "Docs".toList [] with linkedBrowser := .threw } rfl)).trans
      (by decide)⟩

/-- C24: in every state `getContainerInfo()` reports `count` equal to the registry size and
to the length of `containers`, `maxContainers` equal to `MAX_CONTAINERS`, and `containers`
equal to the registered containers in registry order, each projected to its current id,
url, title and minimized flag.  The embedding of `getContainerInfo` is a function of the
state that returns no new state, as the source function assigns nothing. -/
theorem C24_getContainerInfo (cfg : Config) (s : State) :
    (getContainerInfo cfg s).count = s.quickTabContainers.length ∧
    (getContainerInfo cfg s).count = (getContainerInfo cfg s).containers.length ∧
    (getContainerInfo cfg s).maxContainers = cfg.MAX_CONTAINERS ∧
    (getContainerInfo cfg s).containers.map (fun r => r.id) = s.ids ∧
    (getContainerInfo cfg s).containers.map (fun r => r.url) =
      s.quickTabContainers.map (fun c => c.url) ∧
    (getContainerInfo cfg s).containers.map (fun r => r.title) =
      s.quickTabContainers.map (fun c => c.title) ∧
    (getContainerInfo cfg s).containers.map (fun r => r.minimized) =
      s.quickTabContainers.map (fun c => c.minimized) ∧
    (∀ (i : Nat) (c : ContainerInfo), s.quickTabContainers[i]? = some c →
      (getContainerInfo cfg s).containers[i]? =
        some { id := c.id, url := c.url, title := c.title, minimized := c.minimized }) := by
  refine ⟨rfl, ?_, rfl, ?_, ?_, ?_, ?_, ?_⟩
  · simp [getContainerInfo]
  · simp only [getContainerInfo, State.ids, List.map_map]; rfl
  · simp only [getContainerInfo, List.map_map]; rfl
  · simp only [getContainerInfo, List.map_map]; rfl
  · simp only [getContainerInfo, List.map_map]; rfl
  · intro i c hc
    simp only [getContainerInfo, List.getElem?_map, hc, Option.map_some']

/-! ## Failures and removed containers -/

/-- C25, as stated, fails on a surface whose `webNavigation` query throws while the history
accessor answers a length of 3: the pass does not resolve `(true, false)` by the history
strategy but `(true, true)`, and the forward button ends enabled. -/
theorem C25_counterexample :
    throwingNavigationSurface.webNavigation = .queryThrew ∧
    throwingNavigationSurface.history = .answered 3 ∧
    resolveNavigation throwingNavigationSurface = some (true, true) ∧
    resolveNavigation throwingNavigationSurface ≠ some (decide (3 > 1), false) ∧
    ((updateContainerTitle sampleConfig 1 throwingNavigationSurface
        oneContainerState).get 1).map (fun c => (c.backDisabled, c.forwardDisabled)) =
      some (false, false) := by
  decide

/-- C25, amended: a failure of a navigation strategy is caught locally and resolved to the
optimistic default without trying the next strategy: if the `webNavigation` query exists
but throws, the pass resolves `(true, true)` whatever the history accessor would answer,
and both buttons end enabled; the history strategy is used only when the `webNavigation`
accessor does not exist, and if its query throws the pass resolves `(true, true)` too. -/
theorem C25_failure_resolves_default (cfg : Config) (s : State) (id : Nat) (b : Surface)
    (hreg : id ∈ s.ids) :
    (b.webNavigation = .queryThrew →
      resolveNavigation b = some (true, true) ∧
      ((updateContainerTitle cfg id b s).get id).map (fun c => c.backDisabled) = some false ∧
      ((updateContainerTitle cfg id b s).get id).map (fun c => c.forwardDisabled) =
        some false) ∧
    (b.webNavigation = .absent → b.history = .lengthThrew →
      resolveNavigation b = some (true, true) ∧
      ((updateContainerTitle cfg id b s).get id).map (fun c => c.backDisabled) = some false ∧
      ((updateContainerTitle cfg id b s).get id).map (fun c => c.forwardDisabled) =
        some false) ∧
    (∀ length : Nat, b.webNavigation = .absent → b.history = .answered length →
      resolveNavigation b = some (decide (length > 1), false)) := by
  obtain ⟨c, hc⟩ := Option.isSome_iff_exists.mp (get_isSome_of_mem_ids s id hreg)
  have hget := get_updateContainerTitle cfg id b s
  rw [hc] at hget
  have hbtn := updateContainerTitleOn_buttons cfg.URL b c
  simp only [hget, Option.map_some', Option.some.injEq, hbtn.1, hbtn.2]
  refine ⟨?_, ?_, ?_⟩
  · intro h
    have hres : resolveNavigation b = some (true, true) := by simp [resolveNavigation, h]
    rw [hres]
    exact ⟨rfl, rfl, rfl⟩
  · intro h1 h2
    have hres : resolveNavigation b = some (true, true) := by
      simp [resolveNavigation, h1, h2]
    rw [hres]
    exact ⟨rfl, rfl, rfl⟩
  · intro n h1 h2
    simp [resolveNavigation, h1, h2]

/-- C25 amended, on a container with id 1 and the surface whose `webNavigation` query
throws while the history has three entries: both buttons end enabled. -/
theorem C25_failure_resolves_default_witness :
    1 ∈ oneContainerState.ids ∧
    throwingNavigationSurface.webNavigation = .queryThrew ∧
    resolveNavigation throwingNavigationSurface = some (true, true) ∧
    ((updateContainerTitle sampleConfig 1 throwingNavigationSurface
        oneContainerState).get 1).map (fun c => c.forwardDisabled) = some false :=
  ⟨by decide, rfl,
   ((C25_failure_resolves_default sampleConfig oneContainerState 1 throwingNavigationSurface
      (by decide)).1 rfl).1,
   ((C25_failure_resolves_default sampleConfig oneContainerState 1 throwingNavigationSurface
      (by decide)).1 rfl).2.2⟩

theorem findRecord_updateRecord (s : State) (id : Nat) (f : ContainerInfo → ContainerInfo)
    (hf : ∀ x, (f x).id = x.id) :
    (s.updateRecord id f).findRecord id = (s.findRecord id).map f := by
  unfold State.findRecord State.updateRecord
  simp only
  rw [← List.map_append]
  exact find_map_update _ _ _ hf

theorem findRecord_updateTaskbar (s : State) (id : Nat) :
    (updateTaskbar s).findRecord id = s.findRecord id := by
  unfold State.findRecord
  rw [updateTaskbar_quickTabContainers, updateTaskbar_detached]

theorem updateRecord_of_not_registered (s : State) (id : Nat)
    (f : ContainerInfo → ContainerInfo) (hnot : id ∉ s.ids) :
    (s.updateRecord id f).quickTabContainers = s.quickTabContainers := by
  rw [updateRecord_quickTabContainers]
  conv_rhs => rw [← List.map_id s.quickTabContainers]
  apply List.map_congr_left
  intro x hx
  have hne : x.id ≠ id := fun h => hnot (h ▸ List.mem_map.mpr ⟨x, hx, rfl⟩)
  simp [hne]

/-- C26, as stated, fails on a container whose close transition has completed: a pass that
then observes the page title `Real Page Title` runs for a record that is no longer
registered, changes that record's title from `sub.example.org` to `Real Page Title`, and
calls `updateTaskbar` (the refresh count goes from 2 to 3). -/
theorem C26_counterexample :
    closedState.ids = [] ∧
    (closedState.findRecord 1).map (fun c => c.title) = some "sub.example.org".toList ∧
    closedState.taskbarRefreshes = 2 ∧
    ((updateContainerTitle sampleConfig 1 realTitleSurface closedState).findRecord 1).map
        (fun c => c.title) = some "Real Page Title".toList ∧
    (updateContainerTitle sampleConfig 1 realTitleSurface closedState).taskbarRefreshes = 3 := by
  decide

/-- C26, amended: reconciliation callbacks are not self-guarding.  A pass that runs for a
container that is no longer in the registry leaves the registry as it is, but reconciles
that container's record exactly as it would a registered one and calls `updateTaskbar`
under the same conditions; in particular a real page title is stored in the record and
triggers one refresh. -/
theorem C26_pass_on_removed_container (cfg : Config) (s : State) (id : Nat) (b : Surface)
    (hnot : id ∉ s.ids) (hrec : (s.findRecord id).isSome) :
    (updateContainerTitle cfg id b s).quickTabContainers = s.quickTabContainers ∧
    (updateContainerTitle cfg id b s).findRecord id =
      (s.findRecord id).map (fun x => (updateContainerTitleOn cfg.URL b x).1) ∧
    (updateContainerTitle cfg id b s).taskbarRefreshes =
      s.taskbarRefreshes +
        (if (s.findRecord id).map (fun x => (updateContainerTitleOn cfg.URL b x).2) = some true
          then 1 else 0) ∧
    (∀ t : Str, readPageTitle b = .value t → trim t ≠ [] → t ≠ "Loading...".toList →
      t ≠ "New Tab".toList → startsWith t "http".toList = false →
      ((updateContainerTitle cfg id b s).findRecord id).map (fun c => c.title) = some t ∧
      (updateContainerTitle cfg id b s).taskbarRefreshes = s.taskbarRefreshes + 1) := by
  obtain ⟨c, hc⟩ := Option.isSome_iff_exists.mp hrec
  have hid : ∀ x, ((fun x => (updateContainerTitleOn cfg.URL b x).1) x).id = x.id :=
    fun x => (updateContainerTitleOn_fst_frame cfg.URL b x).1
  have hupd : updateContainerTitle cfg id b s =
      if (updateContainerTitleOn cfg.URL b c).2 then
        updateTaskbar (s.updateRecord id (fun x => (updateContainerTitleOn cfg.URL b x).1))
      else s.updateRecord id (fun x => (updateContainerTitleOn cfg.URL b x).1) := by
    unfold updateContainerTitle
    rw [hc]
  have h1 : (updateContainerTitle cfg id b s).quickTabContainers = s.quickTabContainers := by
    rw [hupd]
    split
    · rw [updateTaskbar_quickTabContainers, updateRecord_of_not_registered s id _ hnot]
    · exact updateRecord_of_not_registered s id _ hnot
  have h2 : (updateContainerTitle cfg id b s).findRecord id =
      (s.findRecord id).map (fun x => (updateContainerTitleOn cfg.URL b x).1) := by
    rw [hupd]
    split
    · rw [findRecord_updateTaskbar, findRecord_updateRecord s id _ hid]
    · exact findRecord_updateRecord s id _ hid
  have h3 : (updateContainerTitle cfg id b s).taskbarRefreshes =
      s.taskbarRefreshes + (if (updateContainerTitleOn cfg.URL b c).2 then 1 else 0) := by
    rw [hupd]
    split <;> simp
  refine ⟨h1, h2, ?_, ?_⟩
  · rw [h3, hc]
    simp
  · intro t ht htrim hload hnew hhttp
    have hacc : acceptsPageTitle t = true :=
      (acceptsPageTitle_iff t).mpr ⟨readPageTitle_value_ne_nil b t ht, htrim, hload, hnew, hhttp⟩
    constructor
    · rw [h2, hc]
      simp only [Option.map_some', Option.some.injEq]
      rw [updateContainerTitleOn_title, ht]
      simp [hacc]
    · rw [h3, updateContainerTitleOn_snd, ht]
      simp [hacc]

/-- C26 amended, on the container whose close transition has completed: it is not
registered, its record still exists, and a pass that observes `Real Page Title` stores it
in the record. -/
theorem C26_pass_on_removed_container_witness :
    1 ∉ closedState.ids ∧
    (closedState.findRecord 1).isSome ∧
    (updateContainerTitle sampleConfig 1 realTitleSurface closedState).quickTabContainers =
      closedState.quickTabContainers ∧
    ((updateContainerTitle sampleConfig 1 realTitleSurface closedState).findRecord 1).map
        (fun c => c.title) = some "Real Page Title".toList :=
  ⟨by decide, by decide,
   (C26_pass_on_removed_container sampleConfig closedState 1 realTitleSurface (by decide)
      (by decide)).1,
   ((C26_pass_on_removed_container sampleConfig closedState 1 realTitleSurface (by decide)
      (by decide)).2.2.2 "Real Page Title".toList (by decide) (by decide) (by decide)
      (by decide) (by decide)).1⟩

/-! ## Stored titles -/

theorem getTabTitle_ne_nil (URL : URLParser) (url : Str) : getTabTitle URL url ≠ [] := by
  unfold getTabTitle
  split
  · simp only
    split
    · rename_i h; exact h.1
    · split
      · split
        · assumption
        · decide
      · decide
  · decide

/-- Where the stored title after one pass comes from: it is the title stored before, or a
page title that is non-empty after trimming, or `getTabTitle` of an address. -/
theorem updateContainerTitleOn_title_origin (URL : URLParser) (b : Surface)
    (c : ContainerInfo) :
    (updateContainerTitleOn URL b c).1.title = c.title ∨
    (∃ t : Str, readPageTitle b = .value t ∧ trim t ≠ [] ∧
      (updateContainerTitleOn URL b c).1.title = t) ∨
    (∃ address : Str, (updateContainerTitleOn URL b c).1.title = getTabTitle URL address) := by
  rw [updateContainerTitleOn_title]
  cases h : readPageTitle b with
  | threw => exact Or.inl rfl
  | absent => exact Or.inr (Or.inr ⟨_, rfl⟩)
  | value t =>
    simp only
    by_cases hacc : acceptsPageTitle t = true
    · rw [if_pos hacc]
      exact Or.inr (Or.inl ⟨t, rfl, ((acceptsPageTitle_iff t).mp hacc).2.1, rfl⟩)
    · rw [if_neg hacc]
      exact Or.inr (Or.inr ⟨_, rfl⟩)

theorem updateContainerTitleOn_title_ne_nil (URL : URLParser) (b : Surface)
    (c : ContainerInfo) (h : c.title ≠ []) : (updateContainerTitleOn URL b c).1.title ≠ [] := by
  rcases updateContainerTitleOn_title_origin URL b c with h1 | ⟨t, _, ht, h1⟩ | ⟨a, h1⟩
  · rw [h1]; exact h
  · rw [h1]
    intro h0
    rw [h0] at ht
    exact ht rfl
  · rw [h1]; exact getTabTitle_ne_nil URL a

theorem frontLayer_title (id : Nat) (x : ContainerInfo) : (frontLayer id x).title = x.title := by
  unfold frontLayer
  split
  · rfl
  · split <;> rfl

theorem titlesNonEmpty_map {s t : State} (g : ContainerInfo → ContainerInfo)
    (h : TitlesNonEmpty s) (hreg : t.quickTabContainers = s.quickTabContainers.map g)
    (hg : ∀ x, x.title ≠ [] → (g x).title ≠ []) : TitlesNonEmpty t := by
  intro c hc
  rw [hreg] at hc
  obtain ⟨x, hx, rfl⟩ := List.mem_map.mp hc
  exact hg x (h x hx)

theorem titlesNonEmpty_updateRecord {s : State} (h : TitlesNonEmpty s) (id : Nat)
    (f : ContainerInfo → ContainerInfo) (hf : ∀ x, x.title ≠ [] → (f x).title ≠ []) :
    TitlesNonEmpty (s.updateRecord id f) := by
  refine titlesNonEmpty_map (fun x => if x.id = id then f x else x) h rfl ?_
  intro x hx
  show (if x.id = id then f x else x).title ≠ []
  split
  · exact hf x hx
  · exact hx

theorem titlesNonEmpty_congr {s t : State} (h : TitlesNonEmpty s)
    (hreg : t.quickTabContainers = s.quickTabContainers) : TitlesNonEmpty t := by
  intro x hx
  rw [hreg] at hx
  exact h x hx

theorem titlesNonEmpty_create {s : State} (h : TitlesNonEmpty s) (cfg : Config)
    (url title : Str) (xulOk nsOk : Bool) :
    TitlesNonEmpty (createQuickTabContainer cfg url title xulOk nsOk s).2 := by
  rcases createQuickTabContainer_cases cfg url title xulOk nsOk s with
    ⟨_, hreg, _⟩ | ⟨c, hsome, _, _, _, _, _, hreg, _, _⟩
  · intro x hx
    rw [hreg] at hx
    exact h x hx
  · intro x hx
    rw [hreg] at hx
    rcases mapSet_mem _ _ _ hx with hx | hx
    · exact h x hx
    · rw [hx, (createQuickTabContainer_record cfg url title xulOk nsOk s c hsome).2.1]
      split
      · assumption
      · exact getTabTitle_ne_nil cfg.URL url

theorem titlesNonEmpty_step {s : State} (h : TitlesNonEmpty s) (cfg : Config) (e : Event) :
    TitlesNonEmpty (step cfg s e) := by
  have hkeep : ∀ t : State, t.quickTabContainers = s.quickTabContainers → TitlesNonEmpty t := by
    intro t ht x hx
    rw [ht] at hx
    exact h x hx
  cases e with
  | create url title xulOk nsOk => exact titlesNonEmpty_create h cfg url title xulOk nsOk
  | minimize id =>
    simp only [step]; split
    · exact titlesNonEmpty_congr (titlesNonEmpty_updateRecord h id
        (fun x => { x with classMinimized := true, minimized := true }) (fun _ hx => hx))
        (updateTaskbar_quickTabContainers _)
    · exact h
  | restore id =>
    simp only [step]; split
    · refine titlesNonEmpty_map (frontLayer id ∘
          (fun x => if x.id = id then { x with classMinimized := false, minimized := false }
            else x)) h ?_ ?_
      · simp only [restoreContainer, updateTaskbar_quickTabContainers,
          bringToFront_quickTabContainers, updateRecord_quickTabContainers, List.map_map]
      · intro x hx
        simp only [Function.comp, frontLayer_title]
        split <;> exact hx
    · exact h
  | close id =>
    simp only [step]; split
    · exact titlesNonEmpty_congr (titlesNonEmpty_updateRecord h id
        (fun x => { x with fading := true }) (fun _ hx => hx)) rfl
    · exact h
  | closeDone id =>
    simp only [step]; split
    · intro x hx
      rw [closeTransitionDone_quickTabContainers] at hx
      exact h x (List.mem_filter.mp hx).1
    · exact h
  | front id =>
    simp only [step]; split
    · exact titlesNonEmpty_map _ h (bringToFront_quickTabContainers id s)
        (fun x hx => by rw [frontLayer_title]; exact hx)
    · exact h
  | reconcile id b =>
    simp only [step]
    refine titlesNonEmpty_map _ h (updateContainerTitle_quickTabContainers cfg id b s) ?_
    intro x hx
    split
    · exact updateContainerTitleOn_title_ne_nil cfg.URL b x hx
    · exact hx
  | initialButtons id b =>
    simp only [step]; split
    · unfold initialButtonState
      split
      · exact titlesNonEmpty_updateRecord h id _ (fun _ hx => hx)
      · exact titlesNonEmpty_updateRecord h id _ (fun _ hx => hx)
    · exact h
  | expand =>
    simp only [step, expandTaskbar]; split
    · exact hkeep _ rfl
    · exact h
  | collapse =>
    simp only [step, collapseTaskbar]; split
    · exact hkeep _ rfl
    · exact h
  | toggle =>
    simp only [step, toggleTaskbar, expandTaskbar, collapseTaskbar]
    split <;> split <;> exact h

theorem titlesNonEmpty_run {s : State} (h : TitlesNonEmpty s) (cfg : Config)
    (events : List Event) : TitlesNonEmpty (run cfg s events) := by
  induction events generalizing s with
  | nil => exact h
  | cons e es ih => exact ih (titlesNonEmpty_step h cfg e)

/-- C27: in every reachable state every registered container's stored title is non-empty:
a successful `createQuickTabContainer` stores the given title if it is non-empty and
`getTabTitle(url)` otherwise, which is non-empty; and the title a pass leaves is the title
stored before, or a page title that is non-empty after trimming, or `getTabTitle` of an
address, which is never empty. -/
theorem C27_titles_non_empty (cfg : Config) (events : List Event) :
    (∀ c ∈ (run cfg State.init events).quickTabContainers, c.title ≠ []) ∧
    (∀ (s : State) (url title : Str) (xulOk nsOk : Bool),
      (createQuickTabContainer cfg url title xulOk nsOk s).1.isSome →
      (createQuickTabContainer cfg url title xulOk nsOk s).1.map (fun c => c.title) =
        some (if title ≠ [] then title else getTabTitle cfg.URL url) ∧
      (if title ≠ [] then title else getTabTitle cfg.URL url) ≠ []) ∧
    (∀ (b : Surface) (c : ContainerInfo),
      (updateContainerTitleOn cfg.URL b c).1.title = c.title ∨
      (∃ t : Str, readPageTitle b = .value t ∧ trim t ≠ [] ∧ t ≠ [] ∧
        (updateContainerTitleOn cfg.URL b c).1.title = t) ∨
      (∃ address : Str,
        (updateContainerTitleOn cfg.URL b c).1.title = getTabTitle cfg.URL address ∧
        getTabTitle cfg.URL address ≠ [])) := by
  refine ⟨?_, ?_, ?_⟩
  · have hinit : TitlesNonEmpty State.init := by
      intro c hc
      cases hc
    exact titlesNonEmpty_run hinit cfg events
  · intro s url title xulOk nsOk hsome
    obtain ⟨c, hc⟩ := Option.isSome_iff_exists.mp hsome
    have ht := (createQuickTabContainer_record cfg url title xulOk nsOk s c hc).2.1
    refine ⟨?_, ?_⟩
    · rw [hc]
      simp only [Option.map_some', ht]
    · split
      · assumption
      · exact getTabTitle_ne_nil cfg.URL url
  · intro b c
    rcases updateContainerTitleOn_title_origin cfg.URL b c with h | ⟨t, h1, h2, h3⟩ | ⟨a, h⟩
    · exact Or.inl h
    · exact Or.inr (Or.inl ⟨t, h1, h2, readPageTitle_value_ne_nil b t h1, h3⟩)
    · exact Or.inr (Or.inr ⟨a, h, getTabTitle_ne_nil cfg.URL a⟩)

/-- C27 on one creation with no explicit title: the call returns a container and its
stored title is the non-empty `sub.example.org`. -/
theorem C27_titles_non_empty_witness :
    (createQuickTabContainer sampleConfig "https://sub.example.org/page".toList [] true true
        State.init).1.isSome ∧
    (createQuickTabContainer sampleConfig "https://sub.example.org/page".toList [] true true
        State.init).1.map (fun c => c.title) = some "sub.example.org".toList ∧
    "sub.example.org".toList ≠ [] :=
  ⟨by decide,
   ((C27_titles_non_empty sampleConfig []).2.1 State.init
      "https://sub.example.org/page".toList [] true true (by decide)).1.trans (by decide),
   by decide⟩

/-- The stored title and the refresh of a pass that observes no usable page title. -/
theorem pass_without_usable_title (cfg : Config) (id : Nat) (b : Surface) (s : State)
    (c : ContainerInfo) (hget : s.get id = some c)
    (hunusable : readPageTitle b = .absent ∨
      ∃ t : Str, readPageTitle b = .value t ∧
        (trim t = [] ∨ t = "Loading...".toList ∨ t = "New Tab".toList ∨
          startsWith t "http".toList = true)) :
    ((updateContainerTitle cfg id b s).get id).map (fun x => x.title) =
      some (getTabTitle cfg.URL ((readCurrentUrl b).getD c.url)) ∧
    (updateContainerTitle cfg id b s).taskbarRefreshes =
      s.taskbarRefreshes +
        (if getTabTitle cfg.URL ((readCurrentUrl b).getD c.url) ≠ c.title then 1 else 0) := by
  have hrej : ∀ t : Str, (trim t = [] ∨ t = "Loading...".toList ∨ t = "New Tab".toList ∨
      startsWith t "http".toList = true) → ¬ acceptsPageTitle t = true := by
    intro t hrej hacc
    obtain ⟨_, h2, h3, h4, h5⟩ := (acceptsPageTitle_iff t).mp hacc
    rcases hrej with h | h | h | h
    · exact h2 h
    · exact h3 h
    · exact h4 h
    · rw [h] at h5; cases h5
  constructor
  · rw [get_title_after_pass cfg id b s c hget, updateContainerTitleOn_title]
    rcases hunusable with h | ⟨t, h, hbad⟩
    · rw [h]
    · rw [h]
      simp only
      rw [if_neg (hrej t hbad)]
  · rw [taskbarRefreshes_after_pass cfg id b s c hget, updateContainerTitleOn_snd]
    rcases hunusable with h | ⟨t, h, hbad⟩
    · rw [h]
      simp only [decide_eq_true_eq]
    · rw [h]
      have hfalse : acceptsPageTitle t = false := by
        cases hacc : acceptsPageTitle t
        · rfl
        · exact absurd hacc (hrej t hbad)
      simp only [hfalse, Bool.false_eq_true, ↓reduceIte, decide_eq_true_eq]

/-- C28, as stated, fails for a container created from `https://localhost/foo` with the
explicit title `example.com`, which differs from `getTabTitle(url)` = `foo`: a pass that
observes the address `https://www.example.com/x` and the page title `Loading...` resolves
`getTabTitle` of that address, `example.com`, which is the stored title; the title stays
and no Taskbar refresh is triggered. -/
theorem C28_counterexample :
    "example.com".toList ≠ [] ∧
    getTabTitle sampleConfig.URL "https://localhost/foo".toList = "foo".toList ∧
    "example.com".toList ≠ getTabTitle sampleConfig.URL "https://localhost/foo".toList ∧
    (explicitTitleState.get 1).map (fun c => c.title) = some "example.com".toList ∧
    readPageTitle (pageSurface "https://www.example.com/x".toList "Loading...".toList) =
      .value "Loading...".toList ∧
    ((updateContainerTitle sampleConfig 1
        (pageSurface "https://www.example.com/x".toList "Loading...".toList)
        explicitTitleState).get 1).map (fun c => c.title) = some "example.com".toList ∧
    (updateContainerTitle sampleConfig 1
        (pageSurface "https://www.example.com/x".toList "Loading...".toList)
        explicitTitleState).taskbarRefreshes = explicitTitleState.taskbarRefreshes := by
  decide

/-- C28, amended: a container created with an explicit non-empty title `T` stores `T`; a
pass right after the creation that observes no usable page title (none, empty or white
space only, `Loading...`, `New Tab`, or starting with `http`) leaves as stored title
`getTabTitle` of the address it falls back to, which is the surface's current address or
the stored url when the surface reports none; when `T` differs from that value the pass
replaces `T` and triggers exactly one Taskbar refresh, and when `T` equals it `T` stays and
no refresh is triggered. -/
theorem C28_explicit_title_replaced (cfg : Config) (events : List Event) (url T : Str)
    (xulOk nsOk : Bool) (id : Nat) (b : Surface) (hT : T ≠ [])
    (hcreate : (createQuickTabContainer cfg url T xulOk nsOk
        (run cfg State.init events)).1.map (fun c => c.id) = some id)
    (hunusable : readPageTitle b = .absent ∨
      ∃ t : Str, readPageTitle b = .value t ∧
        (trim t = [] ∨ t = "Loading...".toList ∨ t = "New Tab".toList ∨
          startsWith t "http".toList = true)) :
    let s1 := (createQuickTabContainer cfg url T xulOk nsOk (run cfg State.init events)).2
    (s1.get id).map (fun c => c.title) = some T ∧
    ((updateContainerTitle cfg id b s1).get id).map (fun c => c.title) =
      some (getTabTitle cfg.URL ((readCurrentUrl b).getD url)) ∧
    (T ≠ getTabTitle cfg.URL ((readCurrentUrl b).getD url) →
      ((updateContainerTitle cfg id b s1).get id).map (fun c => c.title) ≠ some T ∧
      (updateContainerTitle cfg id b s1).taskbarRefreshes = s1.taskbarRefreshes + 1) ∧
    (T = getTabTitle cfg.URL ((readCurrentUrl b).getD url) →
      ((updateContainerTitle cfg id b s1).get id).map (fun c => c.title) = some T ∧
      (updateContainerTitle cfg id b s1).taskbarRefreshes = s1.taskbarRefreshes) := by
  intro s1
  obtain ⟨c, hc, hcid⟩ := Option.map_eq_some'.mp hcreate
  subst hcid
  have hinv : Inv (run cfg State.init events) := Inv.init.run cfg events
  have hget : s1.get c.id = some c := get_createQuickTabContainer cfg url T xulOk nsOk _ c hinv hc
  obtain ⟨hurl, htitle, _⟩ := createQuickTabContainer_record cfg url T xulOk nsOk _ c hc
  rw [if_pos hT] at htitle
  have hpass := pass_without_usable_title cfg c.id b s1 c hget hunusable
  rw [hurl, htitle] at hpass
  refine ⟨by rw [hget]; simp [htitle], hpass.1, ?_, ?_⟩
  · intro hne
    refine ⟨?_, ?_⟩
    · rw [hpass.1]
      intro h
      exact hne (Option.some.inj h).symm
    · rw [hpass.2, if_pos (fun h => hne h.symm)]
  · intro heq
    refine ⟨?_, ?_⟩
    · rw [hpass.1, ← heq]
    · rw [hpass.2, if_neg (not_not.mpr heq.symm)]
      rfl

/-- C28 amended, on the container created from `https://localhost/foo` with the explicit
title `example.com`: a pass that observes `Loading...` and no address falls back to the
stored url, replaces the title by `foo`, and adds one refresh. -/
theorem C28_explicit_title_replaced_witness :
    "example.com".toList ≠ [] ∧
    (createQuickTabContainer sampleConfig "https://localhost/foo".toList "example.com".toList
        true true (run sampleConfig State.init [])).1.map (fun c => c.id) = some 1 ∧
    readPageTitle (titleOnlySurface "Loading...".toList) = .value "Loading...".toList ∧
    ((updateContainerTitle sampleConfig 1 (titleOnlySurface "Loading...".toList)
        explicitTitleState).get 1).map (fun c => c.title) = some "foo".toList ∧
    (updateContainerTitle sampleConfig 1 (titleOnlySurface "Loading...".toList)
        explicitTitleState).taskbarRefreshes = explicitTitleState.taskbarRefreshes + 1 :=
  ⟨by decide, by decide, by decide,
   (C28_explicit_title_replaced sampleConfig [] "https://localhost/foo".toList
      "example.com".toList true true 1 (titleOnlySurface "Loading...".toList) (by decide)
      (by decide) (Or.inr ⟨"Loading...".toList, by decide, Or.inr (Or.inl rfl)⟩)).2.1.trans
      (by decide),
   ((C28_explicit_title_replaced sampleConfig [] "https://localhost/foo".toList
      "example.com".toList true true 1 (titleOnlySurface "Loading...".toList) (by decide)
      (by decide) (Or.inr ⟨"Loading...".toList, by decide, Or.inr (Or.inl rfl)⟩)).2.2.1
      (by decide)).2⟩

/-! ## Capacity while a close transition runs -/

/-- C29: when the registry holds `MAX_CONTAINERS` containers and `closeContainer` has been
called on one of them, `createQuickTabContainer` still returns `null` before the
close-transition callback runs, and the same call returns a container once the callback
has run, given that surface creation succeeds. -/
theorem C29_closing_counts_towards_capacity (cfg : Config) (s : State) (id : Nat)
    (url title : Str) (xulOk nsOk : Bool)
    (hfull : s.quickTabContainers.length = cfg.MAX_CONTAINERS) (hreg : id ∈ s.ids)
    (hsurface : createBrowserElement xulOk nsOk ≠ none) :
    (closeContainer id s).quickTabContainers.length = cfg.MAX_CONTAINERS ∧
    (createQuickTabContainer cfg url title xulOk nsOk (closeContainer id s)).1 = none ∧
    (step cfg (closeContainer id s) (.closeDone id)).quickTabContainers.length
      < cfg.MAX_CONTAINERS ∧
    (createQuickTabContainer cfg url title xulOk nsOk
      (step cfg (closeContainer id s) (.closeDone id))).1.isSome := by
  have hlen : (closeContainer id s).quickTabContainers.length = cfg.MAX_CONTAINERS := by
    simp [closeContainer, hfull]
  have hpend : id ∈ (closeContainer id s).pendingCloses := by
    simp [closeContainer]
  have hids : id ∈ (closeContainer id s).ids := by
    rw [← getContainerInfo_ids cfg, getContainerInfo_closeContainer, getContainerInfo_ids]
    exact hreg
  have hafter : (step cfg (closeContainer id s) (.closeDone id)).quickTabContainers.length
      < cfg.MAX_CONTAINERS := by
    simp only [step]
    rw [if_pos hpend, closeTransitionDone_quickTabContainers, ← hlen]
    apply List.length_filter_lt_length_iff_exists.mpr
    obtain ⟨x, hx, hxid⟩ := List.mem_map.mp hids
    exact ⟨x, hx, by simp [hxid]⟩
  refine ⟨hlen, ?_, hafter, ?_⟩
  · rw [createQuickTabContainer_none_iff]
    exact Or.inl (le_of_eq hlen.symm)
  · rw [Option.isSome_iff_ne_none, Ne, createQuickTabContainer_none_iff]
    rintro (h | h)
    · omega
    · exact hsurface h

/-- C29 on the full registry of two: after `closeContainer(1)` a creation is rejected, and
after the callback it returns a container. -/
theorem C29_closing_counts_towards_capacity_witness :
    fullState.quickTabContainers.length = sampleConfig.MAX_CONTAINERS ∧
    1 ∈ fullState.ids ∧
    createBrowserElement true true ≠ none ∧
    (createQuickTabContainer sampleConfig "https://sub.example.org/page".toList [] true true
        (closeContainer 1 fullState)).1 = none ∧
    (createQuickTabContainer sampleConfig "https://sub.example.org/page".toList [] true true
        (step sampleConfig (closeContainer 1 fullState) (.closeDone 1))).1.isSome :=
  ⟨by decide, by decide, by decide,
   (C29_closing_counts_towards_capacity sampleConfig fullState 1
      "https://sub.example.org/page".toList [] true true (by decide) (by decide)
      (by decide)).2.1,
   (C29_closing_counts_towards_capacity sampleConfig fullState 1
      "https://sub.example.org/page".toList [] true true (by decide) (by decide)
      (by decide)).2.2.2⟩

/-- C30: evaluation at the failing inputs.  For a connected tab at
`https://www.example.com/x` whose label is three spaces, `getTabTitleFromElement` returns
the empty string; and for one whose label is ` New Tab `, it returns the placeholder
`New Tab`: the label is tested before it is trimmed. -/
theorem C30_padded_labels :
    (labelledTab "   ".toList "https://www.example.com/x".toList).isConnected = true ∧
    getTabTitleFromElement tableURL
        (some (labelledTab "   ".toList "https://www.example.com/x".toList)) = [] ∧
    getTabTitleFromElement tableURL
        (some (labelledTab " New Tab ".toList "https://www.example.com/x".toList)) =
      "New Tab".toList ∧
    getTabTitleFromElement tableURL
        (some (labelledTab "New Tab".toList "https://www.example.com/x".toList)) =
      "example.com".toList := by
  decide

end QuickTabs
